import Mathlib

/-!
# Servosila motor controller: CANopen codec and device state machine

A shallow embedding of `src/Controller/{highlow,timer,cansocket,canopen,servosila-motor-controller}.h`.

Conventions of the embedding

* C integers are `Nat` (unsigned) or `Int` (signed); a conversion that can change a value is
  written out (`% 65536`, `to_int16`, ...).  The target is little endian, as the source notes
  next to every `memcpy` ("PORTABILITY ISSUE").
* A call either completes or stops the program: `assert` that fails calls `abort()`, and an
  access outside an object is undefined behaviour.  Both are results of type `abort`, so every
  operation that can reach one returns `Except abort _`.
* What the code reads from outside the process (the wall clock, the results of `::write` and
  `::close`) and what it has written to the bus is held in a `world` that is passed through
  every operation.  An operation that takes the world and stops reports the world at that
  moment next to the cause: it returns `Except (abort × world) _`.
* An object passed by reference is passed in and returned.
-/

set_option autoImplicit false

/-- Ways in which a call does not return. -/
inductive abort where
  /-- An `assert(...)` whose condition is false. -/
  | assertion_failed
  /-- A read or write outside the object it addresses (undefined behaviour). -/
  | out_of_bounds
  deriving DecidableEq, Repr

deriving instance DecidableEq for Except

/-- The C macro `assert(cond)`. -/
def assert (cond : Prop) [Decidable cond] : Except abort Unit :=
  if cond then Except.ok () else Except.error abort.assertion_failed

/-- The record `struct timeval` of `<sys/time.h>`. -/
structure timeval where
  tv_sec : Int
  tv_usec : Int
  deriving DecidableEq, Repr

/-- The record `struct can_frame` of `<linux/can.h>`; `data` holds the `can_dlc` bytes that were
copied in, the remaining bytes of the C array are indeterminate. -/
structure can_frame where
  can_id : Nat
  can_dlc : Nat
  data : List Nat
  deriving DecidableEq, Repr

/-- Everything the code observes outside the process.

* `time k` is what the `k`-th call of `gettimeofday` stores, `clock_reads` counts the calls so far.
* `wire` lists the frames given to `::write` so far, oldest first; the `k`-th `::write`
  returns `write_ret k` and, when that is `-1`, leaves `write_errno k` in `errno`.
* the `k`-th `::close` returns `close_ret k`, `closes` counts the calls so far. -/
structure world where
  time : Nat → timeval
  clock_reads : Nat
  wire : List can_frame
  write_ret : Nat → Int
  write_errno : Nat → Nat
  close_ret : Nat → Int
  closes : Nat

/-- The system call `gettimeofday(&now, nullptr)`. -/
def gettimeofday (w : world) : timeval × world :=
  (w.time w.clock_reads, { w with clock_reads := w.clock_reads + 1 })

/-- The C macro `assert(cond)` in an operation that runs in the world `w`. -/
def assert_in (w : world) (cond : Prop) [Decidable cond] : Except (abort × world) Unit :=
  if cond then Except.ok () else Except.error (abort.assertion_failed, w)

/-- A step that does not touch the world, taken in the world `w`. -/
def in_world {α : Type} (w : world) (step : Except abort α) : Except (abort × world) α :=
  match step with
  | Except.ok a => Except.ok a
  | Except.error e => Except.error (e, w)

/-- The C macro `assert(cond)` in a member function that writes to the object `self` and to
nothing else: when the assertion fails, the abort reports the object as it stands at that
point, so that a write made before the assertion shows. -/
def assert_on {σ : Type} (self : σ) (cond : Prop) [Decidable cond] : Except (abort × σ) Unit :=
  if cond then Except.ok () else Except.error (abort.assertion_failed, self)

/-- A member function call that writes to its object only, made in the world `w`: when it
stops at an assertion the world is `w`. -/
def member_in_world {σ α : Type} (w : world) (step : Except (abort × σ) α) :
    Except (abort × world) α :=
  match step with
  | Except.ok a => Except.ok a
  | Except.error e => Except.error (e.1, w)

/-- The value of `errno` named `ENODEV` on Linux. -/
def ENODEV : Nat := 19

/-- The value of `errno` named `ENXIO` on Linux. -/
def ENXIO : Nat := 6

/-- Object representation of an unsigned value of `size` bytes, low byte first. -/
def object_bytes : Nat → Nat → List Nat
  | 0, _ => []
  | size + 1, value => value % 256 :: object_bytes size (value / 256)

/-- The library call `memcpy(&dst[offset], src, src.length)` on a byte array `dst`. -/
def memcpy (dst : List Nat) (offset : Nat) (src : List Nat) : Except abort (List Nat) :=
  if offset + src.length ≤ dst.length then
    Except.ok (dst.take offset ++ src ++ dst.drop (offset + src.length))
  else
    Except.error abort.out_of_bounds

/-- Conversion of a signed value to `uint16_t` (also the bit pattern of an `int16_t`). -/
def to_uint16 (v : Int) : Nat := (v % 65536).toNat

/-- The `int16_t` whose bit pattern is the 16-bit value `u`. -/
def to_int16 (u : Nat) : Int :=
  if u % 65536 < 32768 then ((u % 65536 : Nat) : Int) else ((u % 65536 : Nat) : Int) - 65536

/-- The 16-bit value stored at bytes `i` and `i + 1` of `buffer`, as
`memcpy(&v, &(buffer[i]), 2)` reads it. -/
def read_uint16 (buffer : List Nat) (i : Nat) : Except abort Nat :=
  if i + 2 ≤ buffer.length then
    Except.ok (buffer.getD i 0 + 256 * buffer.getD (i + 1) 0)
  else
    Except.error abort.out_of_bounds

namespace ftl

/-- Source: `highlow.h`, `get_high`. -/
def get_high (w : Nat) : Nat := (w >>> 8) % 256

/-- Source: `highlow.h`, `get_low`: `uint16_t(w<<8)>>8`, returned as `uint8_t`. -/
def get_low (w : Nat) : Nat := (((w <<< 8) % 65536) >>> 8) % 256

end ftl

namespace network

/-- Source: `cansocket.h`, class `can_socket`. -/
structure can_socket where
  m_socket_fd : Int
  deriving DecidableEq, Repr

namespace can_socket

/-- Source: `can_socket::is_connected`. -/
def is_connected (self : can_socket) : Bool := self.m_socket_fd != -1

/-- Source: `can_socket::shutdown`. -/
def shutdown (self : can_socket) (w : world) :
    Except (abort × world) (can_socket × world) := do
  assert_in w (self.m_socket_fd ≠ -1)
  let result := w.close_ret w.closes
  let w := { w with closes := w.closes + 1 }
  if result < 0 then assert_in w False
  pure ({ self with m_socket_fd := -1 }, w)

/-- Source: `can_socket::send`. -/
def send (self : can_socket) (w : world) (destination_can_id : Nat) (payload : List Nat)
    (payload_size : Nat) : Except (abort × world) (Bool × can_socket × world) := do
  assert_in w (payload_size ≤ 8)
  if self.is_connected then
    -- sizeof(frame.data) is 8
    assert_in w (payload_size ≤ 8)
    -- memcpy(frame.data, payload, payload_size)
    if payload.length < payload_size then throw (abort.out_of_bounds, w)
    let frame : can_frame :=
      { can_id := destination_can_id, can_dlc := payload_size, data := payload.take payload_size }
    let nbytes := w.write_ret w.wire.length
    let error := w.write_errno w.wire.length
    let w := { w with wire := w.wire ++ [frame] }
    if nbytes ≠ -1 then
      pure (true, self, w)
    else if error = ENODEV ∨ error = ENXIO then
      let (self, w) ← self.shutdown w
      pure (false, self, w)
    else
      pure (false, self, w)
  else
    pure (false, self, w)

end can_socket

namespace canopen

def WRITE_COMMAND_BYTE_4_BYTES_PAYLOAD : Nat := 0x23
def WRITE_COMMAND_BYTE_2_BYTES_PAYLOAD : Nat := 0x2B
def WRITE_COMMAND_BYTE_1_BYTES_PAYLOAD : Nat := 0x2F
def READ_COMMAND_BYTE_4_BYTES_PAYLOAD : Nat := 0x43
def READ_COMMAND_BYTE_2_BYTES_PAYLOAD : Nat := 0x4B
def READ_COMMAND_BYTE_1_BYTES_PAYLOAD : Nat := 0x4F
def PREDEFINED_SDO_CHANNEL : Nat := 0x600
def PREDEFINED_SDO_RESPONSE_CHANNEL : Nat := 0x580
def CHANNEL_MASK : Nat := 0x780

/-- Source: `canopen.h`, `send_expedited_sdo_write<datatype>`; `sizeof_data` is
`sizeof(datatype)` and `data` the value as an unsigned number. -/
def send_expedited_sdo_write (_can : can_socket) (w : world) (node_id index subindex : Nat)
    (sizeof_data data : Nat) : Except (abort × world) (Bool × can_socket × world) := do
  assert_in w (sizeof_data = 1 ∨ sizeof_data = 2 ∨ sizeof_data = 4)
  let payload : List Nat := [0, 0, 0, 0, 0, 0, 0, 0]
  let payload ←
    if sizeof_data = 4 then pure (payload.set 0 WRITE_COMMAND_BYTE_4_BYTES_PAYLOAD)
    else if sizeof_data = 2 then pure (payload.set 0 WRITE_COMMAND_BYTE_2_BYTES_PAYLOAD)
    else if sizeof_data = 1 then pure (payload.set 0 WRITE_COMMAND_BYTE_1_BYTES_PAYLOAD)
    else do assert_in w False; pure payload
  let payload := payload.set 1 (ftl.get_low index)
  let payload := payload.set 2 (ftl.get_high index)
  let payload := payload.set 3 subindex
  assert_in w (sizeof_data ≤ 4)
  let payload ← in_world w (memcpy payload 4 (object_bytes sizeof_data data))
  _can.send w (PREDEFINED_SDO_CHANNEL + node_id) payload 8

/-- Source: `canopen.h`, `send_expedited_sdo_read`. -/
def send_expedited_sdo_read (_can : can_socket) (w : world) (node_id index subindex : Nat)
    (expected_data_size : Nat) : Except (abort × world) (Bool × can_socket × world) := do
  assert_in w (expected_data_size = 1 ∨ expected_data_size = 2 ∨ expected_data_size = 4)
  let payload : List Nat := [0, 0, 0, 0, 0, 0, 0, 0]
  let payload ←
    if expected_data_size = 4 then pure (payload.set 0 READ_COMMAND_BYTE_4_BYTES_PAYLOAD)
    else if expected_data_size = 2 then pure (payload.set 0 READ_COMMAND_BYTE_2_BYTES_PAYLOAD)
    else if expected_data_size = 1 then pure (payload.set 0 READ_COMMAND_BYTE_1_BYTES_PAYLOAD)
    else do assert_in w False; pure payload
  let payload := payload.set 1 (ftl.get_low index)
  let payload := payload.set 2 (ftl.get_high index)
  let payload := payload.set 3 subindex
  _can.send w (PREDEFINED_SDO_CHANNEL + node_id) payload 8

/-- Source: `canopen.h`, `send_expedited_rpdo<datatype>`; `sizeof_data` is `sizeof(datatype)`
and `data` the value as an unsigned number. -/
def send_expedited_rpdo (_can : can_socket) (w : world) (node_id channel command offset : Nat)
    (sizeof_data data : Nat) : Except (abort × world) (Bool × can_socket × world) := do
  assert_in w (sizeof_data = 1 ∨ sizeof_data = 2 ∨ sizeof_data = 4)
  let payload : List Nat := [0, 0, 0, 0, 0, 0, 0, 0]
  assert_in w (offset < payload.length)
  -- assert(sizeof(command)==2) holds for `uint16_t command`
  let payload ← in_world w (memcpy payload 0 (object_bytes 2 command))
  assert_in w (offset < payload.length)
  let payload ← in_world w (memcpy payload offset (object_bytes sizeof_data data))
  _can.send w (channel + node_id) payload 8

/-- Source: `canopen.h`, `extract_node_id_from_cob_id`. -/
def extract_node_id_from_cob_id (cob_id : Nat) : Nat := (cob_id &&& 127) % 256

/-- Source: `canopen.h`, `extract_function_code_from_cob_id`. -/
def extract_function_code_from_cob_id (cob_id : Nat) : Except abort Nat := do
  assert (cob_id ≤ 2047)
  pure (cob_id &&& 0x780)

/-- Source: `canopen.h`, `extract_index_from_payload`. -/
def extract_index_from_payload (payload : List Nat) : Except abort Nat :=
  read_uint16 payload 1

/-- Source: `canopen.h`, `extract_subindex_from_payload`. -/
def extract_subindex_from_payload (payload : List Nat) : Except abort Nat :=
  if 3 < payload.length then Except.ok (payload.getD 3 0) else Except.error abort.out_of_bounds

end canopen

end network

namespace control

/-- The macro `timeradd(a, b, result)` of `<sys/time.h>`. -/
def timeradd (a b : timeval) : timeval :=
  let tv_sec := a.tv_sec + b.tv_sec
  let tv_usec := a.tv_usec + b.tv_usec
  if tv_usec ≥ 1000000 then { tv_sec := tv_sec + 1, tv_usec := tv_usec - 1000000 }
  else { tv_sec := tv_sec, tv_usec := tv_usec }

/-- The macro `timercmp(a, b, >)` of `<sys/time.h>`. -/
def timercmp_gt (a b : timeval) : Bool :=
  if a.tv_sec = b.tv_sec then decide (a.tv_usec > b.tv_usec) else decide (a.tv_sec > b.tv_sec)

/-- Source: `timer.h`, class `timer`. -/
structure timer where
  m_set_time : timeval
  m_interval : timeval
  deriving DecidableEq, Repr

namespace timer

/-- Source: `timer::restart`. -/
def restart (self : timer) (w : world) : timer × world :=
  let (now, w) := gettimeofday w
  ({ self with m_set_time := timeradd self.m_interval now }, w)

/-- Source: `timer::configure`. -/
def configure (self : timer) (w : world) (uinterval : Nat) : timer × world :=
  let self := { self with
    m_interval := { tv_sec := ((uinterval / 1000000 : Nat) : Int),
                    tv_usec := ((uinterval % 1000000 : Nat) : Int) } }
  self.restart w

/-- Source: the constructor `timer::timer(usec_t uinterval = 0)`. -/
def construct (w : world) (uinterval : Nat) : timer × world :=
  configure { m_set_time := ⟨0, 0⟩, m_interval := ⟨0, 0⟩ } w uinterval

/-- Source: `timer::check(timeval& now)`. -/
def check_at (self : timer) (now : timeval) : Bool :=
  timercmp_gt now self.m_set_time

/-- Source: `timer::check()`. -/
def check (self : timer) (w : world) : Bool × world :=
  let (now, w) := gettimeofday w
  (self.check_at now, w)

/-- Source: `timer::check_and_restart()`. -/
def check_and_restart (self : timer) (w : world) : Bool × timer × world :=
  let (expired, w) := self.check w
  if expired then
    let (self, w) := self.restart w
    (true, self, w)
  else
    (false, self, w)

end timer

end control

namespace devices

def RPDO_SERVOSILA_CHANNEL_FOR_MOTOR_CONTROL : Nat := 0x200
def RPDO_SERVOSILA_CHANNEL_FOR_LEGACY_SPEED_CONTROL : Nat := 0x300
def TPDO_SERVOSILA_CHANNEL_FOR_MOTOR_TELEMETRY_1 : Nat := 0x180
def TPDO_SERVOSILA_CHANNEL_FOR_MOTOR_TELEMETRY_2 : Nat := 0x280
def TPDO_SERVOSILA_CHANNEL_FOR_MOTOR_TELEMETRY_3 : Nat := 0x380
def TPDO_SERVOSILA_CHANNEL_FOR_MOTOR_TELEMETRY_4 : Nat := 0x480
def TELEMETRY_STATUS_FAULT_FLAGS_MASK : Nat := 0x7F00

/-- Source: `servosila_motor_controller::protocol_version_t`. -/
inductive protocol_version_t where
  | PROTOCOL_VERSION_LEGACY
  | PROTOCOL_VERSION_2_0
  deriving DecidableEq, Repr

/-- Source: `servosila_motor_controller::telemetry_state_t`. -/
inductive telemetry_state_t where
  | NO_SHAFT_TELEMETRY
  | SHAFT_TELEMETRY_COMING
  deriving DecidableEq, Repr

/-- Source: `servosila_motor_controller::operation_mode_t`. -/
inductive operation_mode_t where
  | UNDEFINED_MODE
  | POSITION_MODE
  | SPEED_MODE
  | AMPS_MODE
  deriving DecidableEq, Repr

open protocol_version_t telemetry_state_t operation_mode_t

/-- Source: class `servosila_motor_controller`, its data members in declaration order.
`m_fault_ack_counter` is a `size_t` that goes up by one per acknowledged frame; it is a plain
natural number here, the count of frames one process receives stays far below `SIZE_MAX`. -/
structure servosila_motor_controller where
  m_device_id : Nat
  m_protocol_version : protocol_version_t
  m_is_position_encoder_available : Bool
  m_state : telemetry_state_t
  m_operation_mode : operation_mode_t
  m_rpdo_timer : control.timer
  m_shaft_healthcheck_timer : control.timer
  m_position_telemetry : Nat
  m_speed_telemetry : Int
  m_amps_telemetry : Int
  m_status_telemetry : Nat
  m_faults_telemetry : Nat
  m_fault_ack_counter : Nat
  m_min_position_limit : Nat
  m_max_position_limit : Nat
  m_position_command : Nat
  m_min_speed_limit : Int
  m_max_speed_limit : Int
  m_speed_command : Int
  m_min_amps_limit : Int
  m_max_amps_limit : Int
  m_amps_command : Int
  deriving DecidableEq, Repr

namespace servosila_motor_controller

/-- Source: the constructor `servosila_motor_controller()`; the two timers are constructed with
interval 0, in declaration order. -/
def construct (w : world) : servosila_motor_controller × world :=
  let (rpdo_timer, w) := control.timer.construct w 0
  let (shaft_healthcheck_timer, w) := control.timer.construct w 0
  ({ m_device_id := 0,
     m_protocol_version := PROTOCOL_VERSION_2_0,
     m_is_position_encoder_available := false,
     m_state := NO_SHAFT_TELEMETRY,
     m_operation_mode := UNDEFINED_MODE,
     m_rpdo_timer := rpdo_timer,
     m_shaft_healthcheck_timer := shaft_healthcheck_timer,
     m_position_telemetry := 0,
     m_speed_telemetry := 0,
     m_amps_telemetry := 0,
     m_status_telemetry := 0,
     m_faults_telemetry := 0,
     m_fault_ack_counter := 0,
     m_min_position_limit := 0,
     m_max_position_limit := 0,
     m_position_command := 0,
     m_min_speed_limit := 0,
     m_max_speed_limit := 0,
     m_speed_command := 0,
     m_min_amps_limit := 0,
     m_max_amps_limit := 0,
     m_amps_command := 0 }, w)

/-- Source: `servosila_motor_controller::configure`. -/
def configure (self : servosila_motor_controller) (w : world) (device_id : Nat)
    (protocol_version : protocol_version_t) (position_encoder_available : Bool)
    (rpdo_timeout shaft_telemetry_healthcheck_timeout : Nat)
    (min_position_limit max_position_limit : Nat) (min_speed_limit max_speed_limit : Int)
    (min_amps_limit max_amps_limit : Int) : servosila_motor_controller × world :=
  let self := { self with m_device_id := device_id }
  let self := { self with m_protocol_version := protocol_version }
  let self := { self with m_is_position_encoder_available := position_encoder_available }
  let (rpdo_timer, w) := self.m_rpdo_timer.configure w rpdo_timeout
  let self := { self with m_rpdo_timer := rpdo_timer }
  let (shaft_healthcheck_timer, w) :=
    self.m_shaft_healthcheck_timer.configure w shaft_telemetry_healthcheck_timeout
  let self := { self with m_shaft_healthcheck_timer := shaft_healthcheck_timer }
  let self := { self with m_min_position_limit := min_position_limit }
  let self := { self with m_max_position_limit := max_position_limit }
  let self := { self with m_position_telemetry := min_position_limit }
  let self := { self with m_min_speed_limit := min_speed_limit }
  let self := { self with m_max_speed_limit := max_speed_limit }
  let self := { self with m_min_amps_limit := min_amps_limit }
  let self := { self with m_max_amps_limit := max_amps_limit }
  (self, w)

/-- Source: `servosila_motor_controller::change_timeouts`. -/
def change_timeouts (self : servosila_motor_controller) (w : world)
    (rpdo_timeout shaft_telemetry_healthcheck_timeout : Nat) :
    servosila_motor_controller × world :=
  let (rpdo_timer, w) := self.m_rpdo_timer.configure w rpdo_timeout
  let self := { self with m_rpdo_timer := rpdo_timer }
  let (shaft_healthcheck_timer, w) :=
    self.m_shaft_healthcheck_timer.configure w shaft_telemetry_healthcheck_timeout
  let self := { self with m_shaft_healthcheck_timer := shaft_healthcheck_timer }
  (self, w)

/-- Source: `servosila_motor_controller::get_state`. -/
def get_state (self : servosila_motor_controller) : telemetry_state_t := self.m_state

/-- Source: `servosila_motor_controller::get_operation_mode`. -/
def get_operation_mode (self : servosila_motor_controller) : operation_mode_t :=
  self.m_operation_mode

/-- Source: `servosila_motor_controller::is_operational`. -/
def is_operational (self : servosila_motor_controller) : Bool :=
  (self.m_state == SHAFT_TELEMETRY_COMING) && (self.m_device_id != 0)

/-- Source: `servosila_motor_controller::is_position_encoder_available`. -/
def is_position_encoder_available (self : servosila_motor_controller) : Bool :=
  self.m_is_position_encoder_available

/-- Source: `servosila_motor_controller::get_faults_ack_counter`. -/
def get_faults_ack_counter (self : servosila_motor_controller) : Nat := self.m_fault_ack_counter

/-- Source: `servosila_motor_controller::get_fault_ack_counter`. -/
def get_fault_ack_counter (self : servosila_motor_controller) : Nat := self.m_fault_ack_counter

/-- Source: `servosila_motor_controller::get_device_id`. -/
def get_device_id (self : servosila_motor_controller) : Nat := self.m_device_id

/-- Source: `servosila_motor_controller::_reset_to_initial_state`. -/
def _reset_to_initial_state (self : servosila_motor_controller) : servosila_motor_controller :=
  let self := { self with m_operation_mode := UNDEFINED_MODE }
  let self := { self with m_state := NO_SHAFT_TELEMETRY }
  { self with m_fault_ack_counter := 0 }

/-- Source: `servosila_motor_controller::set_position_command`.  An abort reports the
controller as it stands when the assertion fails. -/
def set_position_command (self : servosila_motor_controller) (position : Nat) :
    Except (abort × servosila_motor_controller) servosila_motor_controller := do
  assert_on self (position ≤ self.m_max_position_limit)
  assert_on self (position ≥ self.m_min_position_limit)
  let self := { self with m_operation_mode := POSITION_MODE }
  pure { self with m_position_command := position }

/-- Source: `servosila_motor_controller::set_speed_command`.  An abort reports the
controller as it stands when the assertion fails. -/
def set_speed_command (self : servosila_motor_controller) (speed : Int) :
    Except (abort × servosila_motor_controller) servosila_motor_controller := do
  assert_on self (speed ≤ self.m_max_speed_limit)
  assert_on self (speed ≥ self.m_min_speed_limit)
  let self := { self with m_operation_mode := SPEED_MODE }
  pure { self with m_speed_command := speed }

/-- Source: `servosila_motor_controller::set_amps_command`.  An abort reports the
controller as it stands when the assertion fails. -/
def set_amps_command (self : servosila_motor_controller) (amps : Int) :
    Except (abort × servosila_motor_controller) servosila_motor_controller := do
  assert_on self (amps ≤ self.m_max_amps_limit)
  assert_on self (amps ≥ self.m_min_amps_limit)
  let self := { self with m_operation_mode := AMPS_MODE }
  pure { self with m_amps_command := amps }

/-- Source: `servosila_motor_controller::set_undefined_command`. -/
def set_undefined_command (self : servosila_motor_controller) : servosila_motor_controller :=
  { self with m_operation_mode := UNDEFINED_MODE }

/-- Source: `servosila_motor_controller::get_position_telemetry`. -/
def get_position_telemetry (self : servosila_motor_controller) : Except abort Nat := do
  assert (self.m_state = SHAFT_TELEMETRY_COMING)
  pure self.m_position_telemetry

/-- Source: `servosila_motor_controller::get_speed_telemetry`. -/
def get_speed_telemetry (self : servosila_motor_controller) : Except abort Int := do
  assert (self.m_state = SHAFT_TELEMETRY_COMING)
  pure self.m_speed_telemetry

/-- Source: `servosila_motor_controller::get_amps_telemetry`. -/
def get_amps_telemetry (self : servosila_motor_controller) : Except abort Int := do
  assert (self.m_state = SHAFT_TELEMETRY_COMING)
  pure self.m_amps_telemetry

/-- Source: `servosila_motor_controller::get_status_telemetry`. -/
def get_status_telemetry (self : servosila_motor_controller) : Except abort Nat := do
  assert (self.m_state = SHAFT_TELEMETRY_COMING)
  pure self.m_status_telemetry

/-- Source: `servosila_motor_controller::_send_rpdo_as_per_current_operation_mode_protocol_2_0`.
The `default:` arm of the `switch` has no counterpart: `operation_mode_t` has four values. -/
def _send_rpdo_as_per_current_operation_mode_protocol_2_0 (self : servosila_motor_controller)
    (can : network.can_socket) (w : world) :
    Except (abort × world) (network.can_socket × world) := do
  assert_in w (self.m_protocol_version = PROTOCOL_VERSION_2_0)
  assert_in w (can.is_connected = true)
  assert_in w (self.m_device_id ≠ 0)
  match self.m_operation_mode with
  | UNDEFINED_MODE => pure (can, w)
  | POSITION_MODE =>
    let RPDO_COMMAND_POSITION := 0x0021
    let RPDO_POSITION_OFFSET_IN_PAYLOAD := 2
    let position := self.m_position_command
    let (_, can, w) ← network.canopen.send_expedited_rpdo can w self.m_device_id
      RPDO_SERVOSILA_CHANNEL_FOR_MOTOR_CONTROL RPDO_COMMAND_POSITION
      RPDO_POSITION_OFFSET_IN_PAYLOAD 2 position
    pure (can, w)
  | SPEED_MODE =>
    let RPDO_COMMAND_SPEED := 0x0005
    let RPDO_SPEED_OFFSET_IN_PAYLOAD := 4
    let speed := to_uint16 self.m_speed_command
    let (_, can, w) ← network.canopen.send_expedited_rpdo can w self.m_device_id
      RPDO_SERVOSILA_CHANNEL_FOR_MOTOR_CONTROL RPDO_COMMAND_SPEED
      RPDO_SPEED_OFFSET_IN_PAYLOAD 2 speed
    pure (can, w)
  | AMPS_MODE =>
    let RPDO_COMMAND_AMPS := 0x0001
    let RPDO_AMPS_OFFSET_IN_PAYLOAD := 6
    let amps := to_uint16 self.m_amps_command
    let (_, can, w) ← network.canopen.send_expedited_rpdo can w self.m_device_id
      RPDO_SERVOSILA_CHANNEL_FOR_MOTOR_CONTROL RPDO_COMMAND_AMPS
      RPDO_AMPS_OFFSET_IN_PAYLOAD 2 amps
    pure (can, w)

/-- Source: `servosila_motor_controller::_send_rpdo_as_per_current_operation_mode_legacy_protocol`.
The `default:` arm of the `switch` has no counterpart: `operation_mode_t` has four values. -/
def _send_rpdo_as_per_current_operation_mode_legacy_protocol (self : servosila_motor_controller)
    (can : network.can_socket) (w : world) :
    Except (abort × world) (network.can_socket × world) := do
  assert_in w (self.m_protocol_version = PROTOCOL_VERSION_LEGACY)
  assert_in w (can.is_connected = true)
  assert_in w (self.m_device_id ≠ 0)
  match self.m_operation_mode with
  | UNDEFINED_MODE => pure (can, w)
  | POSITION_MODE =>
    let command : List Nat := [0, 0, 0, 0, 0, 0, 0, 0]
    let command ← in_world w (memcpy command 0 (object_bytes 2 self.m_position_command))
    let command := command.set 4 self.m_device_id
    let (_, can, w) ← can.send w (RPDO_SERVOSILA_CHANNEL_FOR_MOTOR_CONTROL + self.m_device_id)
      command 8
    pure (can, w)
  | SPEED_MODE =>
    if self.m_is_position_encoder_available then
      let command : List Nat := [0, 0, 0, 0, 0, 0, 0, 0]
      let command ← in_world w
        (memcpy command 0 (object_bytes 2 (to_uint16 self.m_speed_command)))
      let command := command.set 4 self.m_device_id
      let (_, can, w) ← can.send w
        (RPDO_SERVOSILA_CHANNEL_FOR_LEGACY_SPEED_CONTROL + self.m_device_id) command 8
      pure (can, w)
    else
      let command : List Nat := [0, 0, 0, 0, 0, 0, 0, 0]
      let command ← in_world w
        (memcpy command 0 (object_bytes 2 (to_uint16 self.m_speed_command)))
      let command := command.set 4 self.m_device_id
      let (_, can, w) ← can.send w (RPDO_SERVOSILA_CHANNEL_FOR_MOTOR_CONTROL + self.m_device_id)
        command 8
      pure (can, w)
  | AMPS_MODE =>
    assert_in w False
    pure (can, w)

/-- Source: `servosila_motor_controller::_send_rpdo_as_per_current_operation_mode`.
The `default:` arm of the `switch` has no counterpart: `protocol_version_t` has two values. -/
def _send_rpdo_as_per_current_operation_mode (self : servosila_motor_controller)
    (can : network.can_socket) (w : world) :
    Except (abort × world) (network.can_socket × world) := do
  assert_in w (can.is_connected = true)
  assert_in w (self.m_device_id ≠ 0)
  match self.m_protocol_version with
  | PROTOCOL_VERSION_LEGACY => self._send_rpdo_as_per_current_operation_mode_legacy_protocol can w
  | PROTOCOL_VERSION_2_0 => self._send_rpdo_as_per_current_operation_mode_protocol_2_0 can w

/-- Source: `servosila_motor_controller::_parse_tpdo1_legacy_protocol`. -/
def _parse_tpdo1_legacy_protocol (self : servosila_motor_controller) (buffer : List Nat)
    (bytes_received : Nat) : Except abort servosila_motor_controller := do
  assert (self.m_protocol_version = PROTOCOL_VERSION_LEGACY)
  if bytes_received = 8 then
    if self.m_is_position_encoder_available then
      let position ← read_uint16 buffer 4
      pure { self with m_position_telemetry := position }
    else
      let speed ← read_uint16 buffer 4
      pure { self with m_speed_telemetry := to_int16 speed }
  else
    pure self

/-- Source: `servosila_motor_controller::_parse_tpdo1_protocol_2_0`. -/
def _parse_tpdo1_protocol_2_0 (self : servosila_motor_controller) (buffer : List Nat)
    (bytes_received : Nat) : Except abort servosila_motor_controller := do
  assert (self.m_protocol_version = PROTOCOL_VERSION_2_0)
  if bytes_received = 8 then
    let status ← read_uint16 buffer 0
    let position ← read_uint16 buffer 2
    let speed ← read_uint16 buffer 4
    let amps ← read_uint16 buffer 6
    let self := { self with m_status_telemetry := status }
    let self := { self with m_position_telemetry := position }
    let self := { self with m_speed_telemetry := to_int16 speed }
    pure { self with m_amps_telemetry := to_int16 amps }
  else
    pure self

/-- Source: `servosila_motor_controller::_parse_tpdo1`. -/
def _parse_tpdo1 (self : servosila_motor_controller) (buffer : List Nat) (bytes_received : Nat) :
    Except abort servosila_motor_controller :=
  match self.m_protocol_version with
  | PROTOCOL_VERSION_LEGACY => self._parse_tpdo1_legacy_protocol buffer bytes_received
  | PROTOCOL_VERSION_2_0 => self._parse_tpdo1_protocol_2_0 buffer bytes_received

/-- Source: `servosila_motor_controller::_parse_tpdo2_legacy_protocol`. -/
def _parse_tpdo2_legacy_protocol (self : servosila_motor_controller) (buffer : List Nat)
    (bytes_received : Nat) : Except abort servosila_motor_controller := do
  assert (self.m_protocol_version = PROTOCOL_VERSION_LEGACY)
  if bytes_received = 8 then
    if self.m_is_position_encoder_available then
      let speed ← read_uint16 buffer 4
      pure { self with m_speed_telemetry := to_int16 speed }
    else
      assert False
      pure self
  else
    pure self

/-- Source: `servosila_motor_controller::_parse_tpdo2`. -/
def _parse_tpdo2 (self : servosila_motor_controller) (buffer : List Nat) (bytes_received : Nat) :
    Except abort servosila_motor_controller :=
  match self.m_protocol_version with
  | PROTOCOL_VERSION_LEGACY => self._parse_tpdo2_legacy_protocol buffer bytes_received
  | PROTOCOL_VERSION_2_0 => pure self

/-- Source: `servosila_motor_controller::_parse_tpdo3_legacy_protocol`. -/
def _parse_tpdo3_legacy_protocol (self : servosila_motor_controller) (buffer : List Nat)
    (bytes_received : Nat) : Except abort servosila_motor_controller := do
  assert (self.m_protocol_version = PROTOCOL_VERSION_LEGACY)
  if bytes_received = 8 then
    let fault_and_status ← read_uint16 buffer 0
    pure { self with m_faults_telemetry := fault_and_status }
  else
    pure self

/-- Source: `servosila_motor_controller::_parse_tpdo3`. -/
def _parse_tpdo3 (self : servosila_motor_controller) (buffer : List Nat) (bytes_received : Nat) :
    Except abort servosila_motor_controller :=
  match self.m_protocol_version with
  | PROTOCOL_VERSION_LEGACY => self._parse_tpdo3_legacy_protocol buffer bytes_received
  | PROTOCOL_VERSION_2_0 => pure self

/-- Source: `servosila_motor_controller::_send_fault_ack`. -/
def _send_fault_ack (self : servosila_motor_controller) (can : network.can_socket) (w : world)
    (device_id : Nat) : Except (abort × world) (network.can_socket × world) := do
  assert_in w (self.m_protocol_version = PROTOCOL_VERSION_2_0)
  let RPDO_COMMAND_FAULT_ACK := 0x0002
  let RPDO_FAULT_ACK_OFFSET_IN_PAYLOAD := 2
  let dummy_fault_ack_command := 0
  let (_, can, w) ← network.canopen.send_expedited_rpdo can w device_id
    RPDO_SERVOSILA_CHANNEL_FOR_MOTOR_CONTROL RPDO_COMMAND_FAULT_ACK
    RPDO_FAULT_ACK_OFFSET_IN_PAYLOAD 1 dummy_fault_ack_command
  pure (can, w)

/-- Source: `servosila_motor_controller::_process_faults_protocol_2_0`. -/
def _process_faults_protocol_2_0 (self : servosila_motor_controller) (can : network.can_socket)
    (w : world) :
    Except (abort × world) (servosila_motor_controller × network.can_socket × world) := do
  let fault_flags := self.m_status_telemetry &&& TELEMETRY_STATUS_FAULT_FLAGS_MASK
  if fault_flags ≠ 0 then
    if can.is_connected then
      let (can, w) ← self._send_fault_ack can w self.m_device_id
      pure ({ self with m_fault_ack_counter := self.m_fault_ack_counter + 1 }, can, w)
    else
      pure (self, can, w)
  else
    pure (self, can, w)

/-- Source: `servosila_motor_controller::_process_faults`. -/
def _process_faults (self : servosila_motor_controller) (can : network.can_socket) (w : world) :
    Except (abort × world) (servosila_motor_controller × network.can_socket × world) :=
  match self.m_protocol_version with
  | PROTOCOL_VERSION_2_0 => self._process_faults_protocol_2_0 can w
  | PROTOCOL_VERSION_LEGACY => pure (self, can, w)

/-- Source: `servosila_motor_controller::execute`. -/
def execute (self : servosila_motor_controller) (can : network.can_socket) (w : world) :
    Except (abort × world) (servosila_motor_controller × network.can_socket × world) := do
  let self := if !can.is_connected then self._reset_to_initial_state else self
  let (expired, w) := self.m_shaft_healthcheck_timer.check w
  let self :=
    if expired then
      if self.m_state = SHAFT_TELEMETRY_COMING then self._reset_to_initial_state else self
    else self
  let (time_has_come, rpdo_timer, w) := self.m_rpdo_timer.check_and_restart w
  let self := { self with m_rpdo_timer := rpdo_timer }
  if time_has_come then
    if self.m_state = SHAFT_TELEMETRY_COMING then
      if can.is_connected then
        let (can, w) ← self._send_rpdo_as_per_current_operation_mode can w
        pure (self, can, w)
      else
        pure (self, can, w)
    else
      pure (self, can, w)
  else
    pure (self, can, w)

/-- Source: `servosila_motor_controller::process_canbus_callback`; the unnamed `timeval`
parameter is not read.  Both codec calls take a `uint16_t`, to which the 32-bit
`source_can_id` is converted. -/
def process_canbus_callback (self : servosila_motor_controller) (can : network.can_socket)
    (w : world) (buffer : List Nat) (bytes_received : Nat) (source_can_id : Nat) :
    Except (abort × world) (Bool × servosila_motor_controller × network.can_socket × world) := do
  let is_processed_flag := false
  let node_id := network.canopen.extract_node_id_from_cob_id (source_can_id % 65536)
  if node_id = self.m_device_id then
    let function_code ← in_world w
      (network.canopen.extract_function_code_from_cob_id (source_can_id % 65536))
    if function_code = TPDO_SERVOSILA_CHANNEL_FOR_MOTOR_TELEMETRY_1 then
      let self ← in_world w (self._parse_tpdo1 buffer bytes_received)
      let (self, can, w) ← self._process_faults can w
      let (shaft_healthcheck_timer, w) := self.m_shaft_healthcheck_timer.restart w
      let self := { self with m_shaft_healthcheck_timer := shaft_healthcheck_timer }
      let self := { self with m_state := SHAFT_TELEMETRY_COMING }
      pure (true, self, can, w)
    else if function_code = TPDO_SERVOSILA_CHANNEL_FOR_MOTOR_TELEMETRY_2 then
      let self ← in_world w (self._parse_tpdo2 buffer bytes_received)
      pure (true, self, can, w)
    else if function_code = TPDO_SERVOSILA_CHANNEL_FOR_MOTOR_TELEMETRY_3 then
      let self ← in_world w (self._parse_tpdo3 buffer bytes_received)
      pure (true, self, can, w)
    else if function_code = TPDO_SERVOSILA_CHANNEL_FOR_MOTOR_TELEMETRY_4 then
      pure (true, self, can, w)
    else
      pure (is_processed_flag, self, can, w)
  else
    pure (is_processed_flag, self, can, w)

/-- Source: `servosila_motor_controller::halt`.
The `default:` arm of the `switch` has no counterpart: `operation_mode_t` has four values. -/
def halt (self : servosila_motor_controller) (can : network.can_socket) (w : world) :
    Except (abort × world) (servosila_motor_controller × network.can_socket × world) := do
  let self ←
    if self.m_state = SHAFT_TELEMETRY_COMING then
      match self.m_operation_mode with
      | POSITION_MODE =>
        member_in_world w (self.set_position_command self.m_position_telemetry)
      | SPEED_MODE => member_in_world w (self.set_speed_command 0)
      | AMPS_MODE => member_in_world w (self.set_amps_command 0)
      | UNDEFINED_MODE => pure self
    else
      pure self.set_undefined_command
  if can.is_connected then
    let (can, w) ← self._send_rpdo_as_per_current_operation_mode can w
    pure (self, can, w)
  else
    pure (self, can, w)

end servosila_motor_controller

end devices

/-! ## Sample values -/

/-- A socket that is not open. -/
def closed_socket : network.can_socket := { m_socket_fd := -1 }

/-- A socket that is open. -/
def open_socket : network.can_socket := { m_socket_fd := 3 }

/-- A world whose clock stands at `sec` seconds and in which every `::write` and `::close`
succeeds. -/
def quiet_world (sec : Int) : world :=
  { time := fun _ => { tv_sec := sec, tv_usec := 0 },
    clock_reads := 0,
    wire := [],
    write_ret := fun _ => 16,
    write_errno := fun _ => 0,
    close_ret := fun _ => 0,
    closes := 0 }

/-- A controller for node 5 that speaks the 2.0 protocol, configured at second 100 with an
RPDO interval of 20000 microseconds and a health-check timeout of 100000 microseconds. -/
def sample_controller : devices.servosila_motor_controller :=
  ((devices.servosila_motor_controller.construct (quiet_world 100)).1.configure (quiet_world 100)
    5 devices.protocol_version_t.PROTOCOL_VERSION_2_0 true 20000 100000 0 1000 (-300) 300
    (-50) 50).1

/-- The sample controller while telemetry is coming, in position mode with setpoint 500 and
two acknowledged faults. -/
def sample_controller_running : devices.servosila_motor_controller :=
  { sample_controller with
    m_state := devices.telemetry_state_t.SHAFT_TELEMETRY_COMING,
    m_operation_mode := devices.operation_mode_t.POSITION_MODE,
    m_position_command := 500,
    m_fault_ack_counter := 2 }

/-- The running sample controller with the command withdrawn: telemetry is coming and the
operation mode is undefined. -/
def sample_controller_idle : devices.servosila_motor_controller :=
  { sample_controller_running with
    m_operation_mode := devices.operation_mode_t.UNDEFINED_MODE }

/-- A world whose clock stands at `sec` seconds and `usec` microseconds and in which every
`::write` and `::close` succeeds. -/
def quiet_world_at (sec usec : Int) : world :=
  { time := fun _ => { tv_sec := sec, tv_usec := usec },
    clock_reads := 0,
    wire := [],
    write_ret := fun _ => 16,
    write_errno := fun _ => 0,
    close_ret := fun _ => 0,
    closes := 0 }

/-- A legacy controller for node 3 without position encoder (a chassis drive), configured at
second 100 like the sample controller, while telemetry is coming, in speed mode with
setpoint -200. -/
def sample_legacy_chassis : devices.servosila_motor_controller :=
  { ((devices.servosila_motor_controller.construct (quiet_world 100)).1.configure
      (quiet_world 100) 3 devices.protocol_version_t.PROTOCOL_VERSION_LEGACY false 20000 100000
      0 1000 (-300) 300 (-50) 50).1 with
    m_state := devices.telemetry_state_t.SHAFT_TELEMETRY_COMING,
    m_operation_mode := devices.operation_mode_t.SPEED_MODE,
    m_speed_command := -200 }

/-- A world whose clock starts at second 100 and is 50000 microseconds further at each
reading, and in which every `::write` and `::close` succeeds. -/
def ticking_world : world :=
  { time := fun n =>
      { tv_sec := 100 + (50000 * (n : Int)) / 1000000,
        tv_usec := (50000 * (n : Int)) % 1000000 },
    clock_reads := 0,
    wire := [],
    write_ret := fun _ => 16,
    write_errno := fun _ => 0,
    close_ret := fun _ => 0,
    closes := 0 }

/-- The ticking world with the CAN adapter unplugged: every `::write` fails with `ENODEV` and
`::close` fails too. -/
def unplugged_world : world :=
  { ticking_world with
    write_ret := fun _ => -1,
    write_errno := fun _ => ENODEV,
    close_ret := fun _ => -1 }

/-- A legacy controller for node 3 as `configure` leaves it, with or without a position
encoder, configured at second 100 like the sample controller. -/
def sample_legacy_configured (encoder : Bool) : devices.servosila_motor_controller :=
  ((devices.servosila_motor_controller.construct (quiet_world 100)).1.configure
    (quiet_world 100) 3 devices.protocol_version_t.PROTOCOL_VERSION_LEGACY encoder 20000 100000
    0 1000 (-300) 300 (-50) 50).1

/-- One call of a public member function of `servosila_motor_controller` that can change
the controller, with its arguments.  A call that reads the clock or takes the socket carries
the world and the socket it is made with, so that consecutive calls may meet any clock
reading and any transport state. -/
inductive public_call where
  | configure (w : world) (device_id : Nat) (protocol_version : devices.protocol_version_t)
      (position_encoder_available : Bool)
      (rpdo_timeout shaft_telemetry_healthcheck_timeout : Nat)
      (min_position_limit max_position_limit : Nat) (min_speed_limit max_speed_limit : Int)
      (min_amps_limit max_amps_limit : Int)
  | change_timeouts (w : world) (rpdo_timeout shaft_telemetry_healthcheck_timeout : Nat)
  | set_position_command (position : Nat)
  | set_speed_command (speed : Int)
  | set_amps_command (amps : Int)
  | set_undefined_command
  | execute (can : network.can_socket) (w : world)
  | process_canbus_callback (can : network.can_socket) (w : world) (buffer : List Nat)
      (bytes_received source_can_id : Nat)
  | halt (can : network.can_socket) (w : world)

/-- The controller after the call `c`, or `none` when the call stops at an assertion. -/
def public_call.apply (c : public_call) (self : devices.servosila_motor_controller) :
    Option devices.servosila_motor_controller :=
  match c with
  | public_call.configure w device_id protocol_version position_encoder_available rpdo_timeout
      shaft_telemetry_healthcheck_timeout min_position_limit max_position_limit
      min_speed_limit max_speed_limit min_amps_limit max_amps_limit =>
    some (self.configure w device_id protocol_version position_encoder_available rpdo_timeout
      shaft_telemetry_healthcheck_timeout min_position_limit max_position_limit
      min_speed_limit max_speed_limit min_amps_limit max_amps_limit).1
  | public_call.change_timeouts w rpdo_timeout shaft_telemetry_healthcheck_timeout =>
    some (self.change_timeouts w rpdo_timeout shaft_telemetry_healthcheck_timeout).1
  | public_call.set_position_command position =>
    match self.set_position_command position with
    | Except.ok s => some s
    | Except.error _ => none
  | public_call.set_speed_command speed =>
    match self.set_speed_command speed with
    | Except.ok s => some s
    | Except.error _ => none
  | public_call.set_amps_command amps =>
    match self.set_amps_command amps with
    | Except.ok s => some s
    | Except.error _ => none
  | public_call.set_undefined_command => some self.set_undefined_command
  | public_call.execute can w =>
    match self.execute can w with
    | Except.ok r => some r.1
    | Except.error _ => none
  | public_call.process_canbus_callback can w buffer bytes_received source_can_id =>
    match self.process_canbus_callback can w buffer bytes_received source_can_id with
    | Except.ok r => some r.2.1
    | Except.error _ => none
  | public_call.halt can w =>
    match self.halt can w with
    | Except.ok r => some r.1
    | Except.error _ => none

/-- The controller after the calls of the list, made in order, or `none` when one of them
stops at an assertion. -/
def run_calls : List public_call → devices.servosila_motor_controller →
    Option devices.servosila_motor_controller
  | [], self => some self
  | c :: cs, self =>
    match c.apply self with
    | some s => run_calls cs s
    | none => none

/-- The call `c`, made on the controller `self`, does not move a limit past the stored
setpoint of the current operation mode: either `c` is not `configure`, or the mode is
`UNDEFINED_MODE`, or the new limits of the current mode contain its stored setpoint. -/
def keeps_setpoint_within (self : devices.servosila_motor_controller) (c : public_call) :
    Prop :=
  match c with
  | public_call.configure _ _ _ _ _ _ min_position_limit max_position_limit
      min_speed_limit max_speed_limit min_amps_limit max_amps_limit =>
    (self.m_operation_mode = devices.operation_mode_t.POSITION_MODE →
      min_position_limit ≤ self.m_position_command ∧
      self.m_position_command ≤ max_position_limit) ∧
    (self.m_operation_mode = devices.operation_mode_t.SPEED_MODE →
      min_speed_limit ≤ self.m_speed_command ∧ self.m_speed_command ≤ max_speed_limit) ∧
    (self.m_operation_mode = devices.operation_mode_t.AMPS_MODE →
      min_amps_limit ≤ self.m_amps_command ∧ self.m_amps_command ≤ max_amps_limit)
  | _ => True

/-- Every call of the list, made in order from the controller `self`, keeps the stored
setpoint within the limits in the sense of `keeps_setpoint_within`. -/
def calls_keep_setpoint_within : List public_call → devices.servosila_motor_controller → Prop
  | [], _ => True
  | c :: cs, self =>
    keeps_setpoint_within self c ∧
    ∀ s, c.apply self = some s → calls_keep_setpoint_within cs s

/-- The calls that configure node 5 with position limits 0..1000, set the position setpoint
500 and then configure again with position limits 0..100. -/
def sample_calls_narrowed : List public_call :=
  [public_call.configure (quiet_world 100) 5 devices.protocol_version_t.PROTOCOL_VERSION_2_0
    true 20000 100000 0 1000 (-300) 300 (-50) 50,
  public_call.set_position_command 500,
  public_call.configure (quiet_world 100) 5 devices.protocol_version_t.PROTOCOL_VERSION_2_0
    true 20000 100000 0 100 (-300) 300 (-50) 50]

/-- The calls that configure node 5 with position limits 0..1000, set the position setpoint
500, configure again with position limits 100..900 and then run `execute`. -/
def sample_calls_kept : List public_call :=
  [public_call.configure (quiet_world 100) 5 devices.protocol_version_t.PROTOCOL_VERSION_2_0
    true 20000 100000 0 1000 (-300) 300 (-50) 50,
  public_call.set_position_command 500,
  public_call.configure (quiet_world 100) 5 devices.protocol_version_t.PROTOCOL_VERSION_2_0
    true 20000 100000 100 900 (-300) 300 (-50) 50,
  public_call.execute open_socket (quiet_world 100)]

/-! ## Lemmas on bytes and on the transport -/

open devices devices.servosila_motor_controller
open devices.telemetry_state_t devices.operation_mode_t devices.protocol_version_t

theorem and_255_eq_mod (x : Nat) : x &&& 255 = x % 256 := by
  have h := Nat.and_pow_two_sub_one_eq_mod x 8
  simpa using h

theorem shiftRight_8_eq (x : Nat) (h : x < 65536) : x >>> 8 = x / 256 % 256 := by
  rw [Nat.shiftRight_eq_div_pow]
  have h2 : x / 2 ^ 8 < 256 := by omega
  omega

theorem get_low_eq (x : Nat) : ftl.get_low x = x &&& 0xFF := by
  unfold ftl.get_low
  rw [and_255_eq_mod, Nat.shiftLeft_eq, Nat.shiftRight_eq_div_pow]
  omega

theorem get_high_eq (x : Nat) (h : x < 65536) : ftl.get_high x = x >>> 8 := by
  unfold ftl.get_high
  rw [Nat.shiftRight_eq_div_pow]
  have h2 : x / 2 ^ 8 < 256 := by omega
  omega

theorem send_disconnected (can : network.can_socket) (w : world) (dest : Nat)
    (payload : List Nat) (size : Nat) (hc : can.is_connected = false) (hs : size ≤ 8) :
    can.send w dest payload size = Except.ok (false, can, w) := by
  simp [network.can_socket.send, assert, assert_in, in_world, hc, hs, bind, Except.bind, pure, Except.pure]

theorem send_connected (can : network.can_socket) (w : world) (dest : Nat) (payload : List Nat)
    (size : Nat) (hc : can.is_connected = true) (hs : size ≤ 8) (hp : size ≤ payload.length)
    (hclose : 0 ≤ w.close_ret w.closes) :
    ∃ r can' w', can.send w dest payload size = Except.ok (r, can', w') ∧
      w'.wire = w.wire ++ [⟨dest, size, payload.take size⟩] ∧
      w'.time = w.time ∧ w'.clock_reads = w.clock_reads ∧
      (r = true ↔ w.write_ret w.wire.length ≠ -1) := by
  have hfd : can.m_socket_fd ≠ -1 := by
    simpa [network.can_socket.is_connected] using hc
  by_cases hw : w.write_ret w.wire.length = -1
  · by_cases he : w.write_errno w.wire.length = ENODEV ∨ w.write_errno w.wire.length = ENXIO
    · refine ⟨false, { can with m_socket_fd := -1 },
        { w with wire := w.wire ++ [⟨dest, size, payload.take size⟩], closes := w.closes + 1 },
        ?_, rfl, rfl, rfl, by simp [hw]⟩
      simp [network.can_socket.send, network.can_socket.shutdown, assert, assert_in, in_world, hc, hs, bind,
        Except.bind, pure, Except.pure, Nat.not_lt.mpr hp, hfd, Int.not_lt.mpr hclose, hw, he]
    · refine ⟨false, can, { w with wire := w.wire ++ [⟨dest, size, payload.take size⟩] },
        ?_, rfl, rfl, rfl, by simp [hw]⟩
      simp [network.can_socket.send, assert, assert_in, in_world, hc, hs, bind,
        Except.bind, pure, Except.pure, Nat.not_lt.mpr hp, hw, he]
  · refine ⟨true, can, { w with wire := w.wire ++ [⟨dest, size, payload.take size⟩] },
      ?_, rfl, rfl, rfl, by simp [hw]⟩
    simp [network.can_socket.send, assert, assert_in, in_world, hc, hs, bind,
        Except.bind, pure, Except.pure, Nat.not_lt.mpr hp, hw]

theorem send_expedited_rpdo_eq_send (_can : network.can_socket) (w : world)
    (node_id channel command offset sizeof_data data : Nat)
    (hsize : sizeof_data = 1 ∨ sizeof_data = 2 ∨ sizeof_data = 4)
    (hcmd : command < 65536) (hlo : 2 ≤ offset) (hhi : offset + sizeof_data ≤ 8) :
    network.canopen.send_expedited_rpdo _can w node_id channel command offset sizeof_data data =
      _can.send w (channel + node_id)
        ((List.range 8).map fun i =>
          if i = 0 then command &&& 0xFF
          else if i = 1 then command >>> 8
          else if offset ≤ i ∧ i < offset + sizeof_data then data / 256 ^ (i - offset) % 256
          else 0) 8 := by
  have h8 : offset < 8 := by omega
  rcases hsize with rfl | rfl | rfl <;> interval_cases offset <;> first | (exfalso; omega) |
    simp [network.canopen.send_expedited_rpdo, assert, assert_in, in_world, memcpy, object_bytes, bind, Except.bind,
      pure, Except.pure, List.range, List.range.loop, and_255_eq_mod, shiftRight_8_eq _ hcmd,
      Nat.div_div_eq_div_mul]

theorem send_rpdo_completes (self : servosila_motor_controller) (can : network.can_socket)
    (w : world) (hc : can.is_connected = true) (hid : self.m_device_id ≠ 0)
    (hmode : self.m_protocol_version = PROTOCOL_VERSION_LEGACY →
      self.m_operation_mode ≠ AMPS_MODE)
    (hclose : 0 ≤ w.close_ret w.closes) :
    ∃ can' w', self._send_rpdo_as_per_current_operation_mode can w = Except.ok (can', w') ∧
      w'.time = w.time ∧ w'.clock_reads = w.clock_reads := by
  cases hv : self.m_protocol_version <;> cases hm : self.m_operation_mode
  case PROTOCOL_VERSION_LEGACY.AMPS_MODE => exact absurd hm (hmode hv)
  case PROTOCOL_VERSION_LEGACY.SPEED_MODE =>
    cases he : self.m_is_position_encoder_available <;>
    · obtain ⟨r, can', w', h, -, ht, hr, -⟩ := send_connected can w
        ((if self.m_is_position_encoder_available then
            RPDO_SERVOSILA_CHANNEL_FOR_LEGACY_SPEED_CONTROL
          else RPDO_SERVOSILA_CHANNEL_FOR_MOTOR_CONTROL) + self.m_device_id)
        ([to_uint16 self.m_speed_command % 256, to_uint16 self.m_speed_command / 256 % 256,
          0, 0, self.m_device_id, 0, 0, 0]) 8 hc (by decide) (by simp) hclose
      refine ⟨can', w', ?_, ht, hr⟩
      simp only [he] at h
      simp [_send_rpdo_as_per_current_operation_mode,
        _send_rpdo_as_per_current_operation_mode_legacy_protocol, assert, assert_in, in_world, hc, hid, hv, hm, he,
        memcpy, object_bytes, bind, Except.bind, pure, Except.pure] at h ⊢
      rw [h]
  case PROTOCOL_VERSION_LEGACY.POSITION_MODE =>
    obtain ⟨r, can', w', h, -, ht, hr, -⟩ := send_connected can w
      (RPDO_SERVOSILA_CHANNEL_FOR_MOTOR_CONTROL + self.m_device_id)
      ([self.m_position_command % 256, self.m_position_command / 256 % 256,
        0, 0, self.m_device_id, 0, 0, 0]) 8 hc (by decide) (by simp) hclose
    refine ⟨can', w', ?_, ht, hr⟩
    simp [_send_rpdo_as_per_current_operation_mode,
      _send_rpdo_as_per_current_operation_mode_legacy_protocol, assert, assert_in, in_world, hc, hid, hv, hm,
      memcpy, object_bytes, bind, Except.bind, pure, Except.pure] at h ⊢
    rw [h]
  case PROTOCOL_VERSION_LEGACY.UNDEFINED_MODE =>
    exact ⟨can, w, by
      simp [_send_rpdo_as_per_current_operation_mode,
        _send_rpdo_as_per_current_operation_mode_legacy_protocol, assert, assert_in, in_world, hc, hid, hv, hm,
        bind, Except.bind, pure, Except.pure], rfl, rfl⟩
  case PROTOCOL_VERSION_2_0.UNDEFINED_MODE =>
    exact ⟨can, w, by
      simp [_send_rpdo_as_per_current_operation_mode,
        _send_rpdo_as_per_current_operation_mode_protocol_2_0, assert, assert_in, in_world, hc, hid, hv, hm,
        bind, Except.bind, pure, Except.pure], rfl, rfl⟩
  all_goals
    simp only [_send_rpdo_as_per_current_operation_mode,
      _send_rpdo_as_per_current_operation_mode_protocol_2_0, assert, assert_in, in_world, hc, hid, hv, hm,
      bind, Except.bind, pure, Except.pure, ne_eq, not_false_eq_true, if_true]
    rw [send_expedited_rpdo_eq_send _ _ _ _ _ _ _ _ (by decide) (by decide) (by decide)
      (by decide)]
    have hlen : ∀ f : Nat → Nat, 8 ≤ ((List.range 8).map f).length := by
      intro f
      simp
    obtain ⟨r, can', w', h, -, ht, hr, -⟩ := send_connected can w
      (RPDO_SERVOSILA_CHANNEL_FOR_MOTOR_CONTROL + self.m_device_id) _ 8 hc (by decide)
      (hlen _) hclose
    rw [h]
    exact ⟨can', w', rfl, ht, hr⟩


theorem map_mk_eq_ok {ε α β : Type} {a a' : α} {x : Except ε β} {b : β}
    (h : Prod.mk a <$> x = Except.ok (a', b)) : a' = a ∧ x = Except.ok b := by
  cases x with
  | error e => simp [Functor.map, Except.map] at h
  | ok y =>
    simp only [Functor.map, Except.map, Except.ok.injEq, Prod.mk.injEq] at h
    exact ⟨h.1.symm, by rw [h.2]⟩

theorem execute_healthcheck_reset (self : servosila_motor_controller)
    (can : network.can_socket) (w : world) (hconn : can.is_connected = true)
    (hexp : self.m_shaft_healthcheck_timer.check_at (w.time w.clock_reads) = true)
    (hstate : self.m_state = SHAFT_TELEMETRY_COMING) :
    ∃ self' w', self.execute can w = Except.ok (self', can, w') ∧
      self'.m_state = NO_SHAFT_TELEMETRY ∧ self'.m_operation_mode = UNDEFINED_MODE ∧
      self'.m_fault_ack_counter = 0 ∧ w'.wire = w.wire := by
  by_cases hfire : (self.m_rpdo_timer.check_at (w.time (w.clock_reads + 1))) = true <;>
  · simp only [execute, hconn]
    simp [_reset_to_initial_state, control.timer.check, control.timer.check_and_restart,
      gettimeofday, control.timer.restart, hexp, hstate, hfire, pure, Except.pure]
    exact ⟨_, _, ⟨rfl, rfl⟩, rfl, rfl, rfl, rfl⟩

/-! ## The tick `execute` -/

/-- C1: `execute` called with a transport that reports disconnected completes, leaves the
controller in `NO_SHAFT_TELEMETRY` with `UNDEFINED_MODE` and fault counter 0, whatever the
state, mode and counter were, and gives no frame to the transport (socket and wire unchanged). -/
theorem execute_disconnected_resets (self : servosila_motor_controller)
    (can : network.can_socket) (w : world) (h : can.is_connected = false) :
    ∃ self' w', self.execute can w = Except.ok (self', can, w') ∧
      self'.m_state = NO_SHAFT_TELEMETRY ∧ self'.m_operation_mode = UNDEFINED_MODE ∧
      self'.m_fault_ack_counter = 0 ∧ w'.wire = w.wire := by
  by_cases hfire : (self.m_rpdo_timer.check_at (w.time (w.clock_reads + 1))) = true <;>
  · simp only [execute, h]
    simp [_reset_to_initial_state, control.timer.check, control.timer.check_and_restart,
      gettimeofday, control.timer.restart, hfire, pure, Except.pure]
    exact ⟨_, _, ⟨rfl, rfl⟩, rfl, rfl, rfl, rfl⟩

theorem execute_disconnected_resets_witness :
    closed_socket.is_connected = false ∧
    ∃ self' w', sample_controller_running.execute closed_socket (quiet_world 200) =
        Except.ok (self', closed_socket, w') ∧
      self'.m_state = NO_SHAFT_TELEMETRY ∧ self'.m_operation_mode = UNDEFINED_MODE ∧
      self'.m_fault_ack_counter = 0 ∧ w'.wire = (quiet_world 200).wire :=
  ⟨by decide,
    execute_disconnected_resets sample_controller_running closed_socket (quiet_world 200)
      (by decide)⟩

/-- C2: with a connected transport, (1) if the health-check timer has expired and the state is
`SHAFT_TELEMETRY_COMING`, `execute` completes in `NO_SHAFT_TELEMETRY` with `UNDEFINED_MODE` and
fault counter 0 and gives no frame to the transport, whether or not the RPDO timer has expired;
(2) if the health-check timer has not expired, every result of `execute` has the telemetry
state, operation mode and fault counter it started with, and (3) `execute` does complete then,
whenever the RPDO encoder it may run has a non-zero node id, a mode the protocol supports and a
kernel that closes the socket without error. -/
theorem execute_healthcheck (self : servosila_motor_controller) (can : network.can_socket)
    (w : world) (hconn : can.is_connected = true) :
    ((self.m_shaft_healthcheck_timer.check w).1 = true →
      self.m_state = SHAFT_TELEMETRY_COMING →
      ∃ self' w', self.execute can w = Except.ok (self', can, w') ∧
        self'.m_state = NO_SHAFT_TELEMETRY ∧ self'.m_operation_mode = UNDEFINED_MODE ∧
        self'.m_fault_ack_counter = 0 ∧ w'.wire = w.wire) ∧
    ((self.m_shaft_healthcheck_timer.check w).1 = false →
      ∀ self' can' w', self.execute can w = Except.ok (self', can', w') →
        self'.m_state = self.m_state ∧ self'.m_operation_mode = self.m_operation_mode ∧
        self'.m_fault_ack_counter = self.m_fault_ack_counter) ∧
    ((self.m_shaft_healthcheck_timer.check w).1 = false →
      self.m_device_id ≠ 0 →
      (self.m_protocol_version = PROTOCOL_VERSION_LEGACY → self.m_operation_mode ≠ AMPS_MODE) →
      0 ≤ w.close_ret w.closes →
      ∃ r, self.execute can w = Except.ok r) := by
  refine ⟨?_, ?_, ?_⟩
  · intro hexp hstate
    simp only [control.timer.check, gettimeofday] at hexp
    exact execute_healthcheck_reset self can w hconn hexp hstate
  · intro hexp self' can' w'
    simp only [control.timer.check, gettimeofday] at hexp
    by_cases hfire : (self.m_rpdo_timer.check_at (w.time (w.clock_reads + 1))) = true
    · by_cases hstate : self.m_state = SHAFT_TELEMETRY_COMING
      · simp only [execute, hconn]
        simp [control.timer.check, control.timer.check_and_restart,
          gettimeofday, control.timer.restart, hexp, hfire, hstate]
        intro h
        obtain ⟨rfl, -⟩ := map_mk_eq_ok h
        exact ⟨rfl, rfl, rfl⟩
      · simp only [execute, hconn]
        simp [control.timer.check, control.timer.check_and_restart,
          gettimeofday, control.timer.restart, hexp, hfire, hstate, pure, Except.pure]
        rintro rfl - -
        exact ⟨rfl, rfl, rfl⟩
    · simp only [execute, hconn]
      simp [control.timer.check, control.timer.check_and_restart,
        gettimeofday, control.timer.restart, hexp, hfire, pure, Except.pure]
      rintro rfl - -
      exact ⟨rfl, rfl, rfl⟩
  · intro hexp hid hmode hclose
    simp only [control.timer.check, gettimeofday] at hexp
    by_cases hfire : (self.m_rpdo_timer.check_at (w.time (w.clock_reads + 1))) = true
    · by_cases hstate : self.m_state = SHAFT_TELEMETRY_COMING
      · obtain ⟨can', w', h, -, -⟩ := send_rpdo_completes
          { self with m_rpdo_timer := ⟨control.timeradd self.m_rpdo_timer.m_interval
              (w.time (w.clock_reads + 1 + 1)), self.m_rpdo_timer.m_interval⟩ }
          can { w with clock_reads := w.clock_reads + 1 + 1 + 1 } hconn hid hmode hclose
        simp only [execute, hconn]
        simp [control.timer.check, control.timer.check_and_restart,
          gettimeofday, control.timer.restart, hexp, hfire, hstate] at h ⊢
        simp [h, bind, Except.bind, pure, Except.pure]
      · simp only [execute, hconn]
        simp [control.timer.check, control.timer.check_and_restart,
          gettimeofday, control.timer.restart, hexp, hfire, hstate, pure, Except.pure]
    · simp only [execute, hconn]
      simp [control.timer.check, control.timer.check_and_restart,
        gettimeofday, control.timer.restart, hexp, hfire, pure, Except.pure]

theorem execute_healthcheck_witness :
    open_socket.is_connected = true ∧
    (∃ self' w', sample_controller_running.execute open_socket (quiet_world 200) =
        Except.ok (self', open_socket, w') ∧
      self'.m_state = NO_SHAFT_TELEMETRY ∧ self'.m_operation_mode = UNDEFINED_MODE ∧
      self'.m_fault_ack_counter = 0 ∧ w'.wire = (quiet_world 200).wire) ∧
    (∀ self' can' w', sample_controller_running.execute open_socket (quiet_world 100) =
        Except.ok (self', can', w') →
      self'.m_state = sample_controller_running.m_state ∧
      self'.m_operation_mode = sample_controller_running.m_operation_mode ∧
      self'.m_fault_ack_counter = sample_controller_running.m_fault_ack_counter) ∧
    ∃ r, sample_controller_running.execute open_socket (quiet_world 100) = Except.ok r :=
  ⟨by decide,
    (execute_healthcheck sample_controller_running open_socket (quiet_world 200)
      (by decide)).1 (by decide) (by decide),
    (execute_healthcheck sample_controller_running open_socket (quiet_world 100)
      (by decide)).2.1 (by decide),
    (execute_healthcheck sample_controller_running open_socket (quiet_world 100)
      (by decide)).2.2 (by decide) (by decide) (by decide) (by decide)⟩

/-- C3: whenever the telemetry state is `NO_SHAFT_TELEMETRY` at the point of RPDO emission,
because it was so on entry or because the tick reset it (transport disconnected, or
health-check timer expired), `execute` completes with the socket and the wire unchanged: no
frame is given to the transport, for every mode, setpoint, protocol version and state of the
RPDO timer. -/
theorem execute_no_frame_without_telemetry (self : servosila_motor_controller)
    (can : network.can_socket) (w : world)
    (h : self.m_state = NO_SHAFT_TELEMETRY ∨ can.is_connected = false ∨
      (self.m_shaft_healthcheck_timer.check w).1 = true) :
    ∃ self' w', self.execute can w = Except.ok (self', can, w') ∧
      self'.m_state = NO_SHAFT_TELEMETRY ∧ w'.wire = w.wire := by
  by_cases hconn : can.is_connected = true
  · by_cases hexp : self.m_shaft_healthcheck_timer.check_at (w.time w.clock_reads) = true
    · by_cases hstate : self.m_state = SHAFT_TELEMETRY_COMING
      · obtain ⟨s, w', h1, h2, -, -, h3⟩ :=
          (execute_healthcheck_reset self can w hconn hexp hstate)
        exact ⟨s, w', h1, h2, h3⟩
      · have hno : self.m_state = NO_SHAFT_TELEMETRY := by
          cases hs : self.m_state
          · rfl
          · exact absurd hs hstate
        by_cases hfire : (self.m_rpdo_timer.check_at (w.time (w.clock_reads + 1))) = true <;>
        · simp only [execute, hconn]
          simp [control.timer.check, control.timer.check_and_restart,
            gettimeofday, control.timer.restart, hexp, hno, hfire, pure, Except.pure]
          exact ⟨_, _, ⟨rfl, rfl⟩, rfl, rfl⟩
    · have hno : self.m_state = NO_SHAFT_TELEMETRY := by
        rcases h with h | h | h
        · exact h
        · rw [hconn] at h
          exact absurd h (by decide)
        · exact absurd h hexp
      by_cases hfire : (self.m_rpdo_timer.check_at (w.time (w.clock_reads + 1))) = true <;>
      · simp only [execute, hconn]
        simp [control.timer.check, control.timer.check_and_restart,
          gettimeofday, control.timer.restart, hexp, hno, hfire, pure, Except.pure]
        exact ⟨_, _, ⟨rfl, rfl⟩, rfl, rfl⟩
  · have hd : can.is_connected = false := by
      cases hc : can.is_connected
      · rfl
      · exact absurd hc hconn
    by_cases hfire : (self.m_rpdo_timer.check_at (w.time (w.clock_reads + 1))) = true <;>
    · simp only [execute, hd]
      simp [_reset_to_initial_state, control.timer.check, control.timer.check_and_restart,
        gettimeofday, control.timer.restart, hfire, pure, Except.pure]
      exact ⟨_, _, ⟨rfl, rfl⟩, rfl, rfl⟩

theorem execute_no_frame_without_telemetry_witness :
    (sample_controller.m_state = NO_SHAFT_TELEMETRY ∨ open_socket.is_connected = false ∨
      (sample_controller.m_shaft_healthcheck_timer.check (quiet_world 200)).1 = true) ∧
    ∃ self' w', sample_controller.execute open_socket (quiet_world 200) =
        Except.ok (self', open_socket, w') ∧
      self'.m_state = NO_SHAFT_TELEMETRY ∧ w'.wire = (quiet_world 200).wire :=
  ⟨Or.inl (by decide),
    execute_no_frame_without_telemetry sample_controller open_socket (quiet_world 200)
      (Or.inl (by decide))⟩

/-! ## Frame ingestion `process_canbus_callback` -/

theorem tpdo1_cob_id (n : Nat) (h : n ≤ 127) :
    network.canopen.extract_node_id_from_cob_id ((0x180 + n) % 65536) = n ∧
    network.canopen.extract_function_code_from_cob_id ((0x180 + n) % 65536) =
      Except.ok 0x180 := by
  interval_cases n <;> exact ⟨rfl, rfl⟩

theorem parse_tpdo1_completes (self : servosila_motor_controller) (buffer : List Nat)
    (bytes_received : Nat) (hbuf : bytes_received = 8 → 8 ≤ buffer.length) :
    ∃ position speed amps status, self._parse_tpdo1 buffer bytes_received =
      Except.ok { self with
        m_position_telemetry := position, m_speed_telemetry := speed,
        m_amps_telemetry := amps, m_status_telemetry := status } := by
  by_cases h8 : bytes_received = 8
  · have hlen := hbuf h8
    cases hv : self.m_protocol_version
    · cases he : self.m_is_position_encoder_available
      · exact ⟨self.m_position_telemetry, to_int16 (buffer.getD 4 0 + 256 * buffer.getD 5 0),
          self.m_amps_telemetry, self.m_status_telemetry, by
            simp [_parse_tpdo1, _parse_tpdo1_legacy_protocol, assert, assert_in, in_world, hv, he, h8, read_uint16,
              bind, Except.bind, pure, Except.pure, show 4 + 2 ≤ buffer.length by omega]⟩
      · exact ⟨buffer.getD 4 0 + 256 * buffer.getD 5 0, self.m_speed_telemetry,
          self.m_amps_telemetry, self.m_status_telemetry, by
            simp [_parse_tpdo1, _parse_tpdo1_legacy_protocol, assert, assert_in, in_world, hv, he, h8, read_uint16,
              bind, Except.bind, pure, Except.pure, show 4 + 2 ≤ buffer.length by omega]⟩
    · exact ⟨buffer.getD 2 0 + 256 * buffer.getD 3 0,
        to_int16 (buffer.getD 4 0 + 256 * buffer.getD 5 0),
        to_int16 (buffer.getD 6 0 + 256 * buffer.getD 7 0),
        buffer.getD 0 0 + 256 * buffer.getD 1 0, by
          simp [_parse_tpdo1, _parse_tpdo1_protocol_2_0, assert, assert_in, in_world, hv, h8, read_uint16,
            bind, Except.bind, pure, Except.pure, show 2 ≤ buffer.length by omega,
            show 2 + 2 ≤ buffer.length by omega, show 4 + 2 ≤ buffer.length by omega,
            show 6 + 2 ≤ buffer.length by omega]⟩
  · refine ⟨self.m_position_telemetry, self.m_speed_telemetry, self.m_amps_telemetry,
      self.m_status_telemetry, ?_⟩
    cases hv : self.m_protocol_version <;>
      simp [_parse_tpdo1, _parse_tpdo1_legacy_protocol, _parse_tpdo1_protocol_2_0, assert, assert_in, in_world, hv,
        h8, bind, Except.bind, pure, Except.pure] <;>
      rw [← hv]

theorem process_faults_ack (self : servosila_motor_controller) (can : network.can_socket)
    (w : world) (hv : self.m_protocol_version = PROTOCOL_VERSION_2_0)
    (hflags : self.m_status_telemetry &&& 0x7F00 ≠ 0) (hconn : can.is_connected = true)
    (hclose : 0 ≤ w.close_ret w.closes) :
    ∃ can' w', self._process_faults can w =
        Except.ok ({ self with m_fault_ack_counter := self.m_fault_ack_counter + 1 }, can', w') ∧
      w'.wire = w.wire ++ [⟨0x200 + self.m_device_id, 8, [0x02, 0x00, 0, 0, 0, 0, 0, 0]⟩] ∧
      w'.time = w.time ∧ w'.clock_reads = w.clock_reads := by
  obtain ⟨r, can', w', h, hw, ht, hr, -⟩ := send_connected can w
    (0x200 + self.m_device_id) [0x02, 0x00, 0, 0, 0, 0, 0, 0] 8 hconn (by decide) (by simp) hclose
  refine ⟨can', w', ?_, by simpa using hw, ht, hr⟩
  have hflags' : ¬ (self.m_status_telemetry &&& TELEMETRY_STATUS_FAULT_FLAGS_MASK = 0) := hflags
  simp only [_process_faults, hv, _process_faults_protocol_2_0, _send_fault_ack, assert, assert_in, in_world, hconn]
  rw [send_expedited_rpdo_eq_send _ _ _ _ _ _ _ _ (by decide) (by decide) (by decide)
      (by decide)]
  simp [hflags', bind, Except.bind, pure, Except.pure, List.range, List.range.loop,
    RPDO_SERVOSILA_CHANNEL_FOR_MOTOR_CONTROL, and_255_eq_mod] at h ⊢
  simp [h]

theorem process_faults_none (self : servosila_motor_controller) (can : network.can_socket)
    (w : world)
    (h : self.m_protocol_version = PROTOCOL_VERSION_LEGACY ∨
      self.m_status_telemetry &&& 0x7F00 = 0 ∨ can.is_connected = false) :
    self._process_faults can w = Except.ok (self, can, w) := by
  cases hv : self.m_protocol_version
  · simp [_process_faults, hv, pure, Except.pure]
  · rcases h with h | h | h
    · rw [hv] at h
      exact absurd h (by decide)
    · simp [_process_faults, hv, _process_faults_protocol_2_0,
        TELEMETRY_STATUS_FAULT_FLAGS_MASK, h, pure, Except.pure]
    · simp [_process_faults, hv, _process_faults_protocol_2_0, h, pure, Except.pure]

theorem callback_tpdo1_eq (self : servosila_motor_controller) (can : network.can_socket)
    (w : world) (buffer : List Nat) (bytes_received : Nat) (hid : self.m_device_id ≤ 127) :
    self.process_canbus_callback can w buffer bytes_received (0x180 + self.m_device_id) =
      (in_world w (self._parse_tpdo1 buffer bytes_received) >>= fun s =>
        s._process_faults can w >>= fun r =>
          Except.ok (true,
            { r.1 with
              m_shaft_healthcheck_timer := (r.1.m_shaft_healthcheck_timer.restart r.2.2).1,
              m_state := SHAFT_TELEMETRY_COMING },
            r.2.1, (r.1.m_shaft_healthcheck_timer.restart r.2.2).2)) := by
  obtain ⟨h1, h2⟩ := tpdo1_cob_id self.m_device_id hid
  simp only [process_canbus_callback, h1, h2, if_true, TPDO_SERVOSILA_CHANNEL_FOR_MOTOR_TELEMETRY_1]
  rfl

theorem sdo_write_eq_send (_can : network.can_socket) (w : world)
    (node_id index subindex data : Nat) (hindex : index < 65536) :
    network.canopen.send_expedited_sdo_write _can w node_id index subindex 1 data =
      _can.send w (0x600 + node_id)
        [0x2F, index &&& 0xFF, index >>> 8, subindex, data % 256, 0, 0, 0] 8 ∧
    network.canopen.send_expedited_sdo_write _can w node_id index subindex 2 data =
      _can.send w (0x600 + node_id)
        [0x2B, index &&& 0xFF, index >>> 8, subindex, data % 256, data / 256 % 256, 0, 0] 8 ∧
    network.canopen.send_expedited_sdo_write _can w node_id index subindex 4 data =
      _can.send w (0x600 + node_id)
        [0x23, index &&& 0xFF, index >>> 8, subindex, data % 256, data / 256 % 256,
          data / 65536 % 256, data / 16777216 % 256] 8 := by
  refine ⟨?_, ?_, ?_⟩ <;>
    simp [network.canopen.send_expedited_sdo_write, assert_in, in_world, memcpy, object_bytes,
      bind, Except.bind, pure, Except.pure, get_low_eq, get_high_eq index hindex,
      network.canopen.WRITE_COMMAND_BYTE_1_BYTES_PAYLOAD,
      network.canopen.WRITE_COMMAND_BYTE_2_BYTES_PAYLOAD,
      network.canopen.WRITE_COMMAND_BYTE_4_BYTES_PAYLOAD,
      network.canopen.PREDEFINED_SDO_CHANNEL, Nat.div_div_eq_div_mul]

theorem sdo_read_eq_send (_can : network.can_socket) (w : world)
    (node_id index subindex : Nat) (hindex : index < 65536) :
    network.canopen.send_expedited_sdo_read _can w node_id index subindex 1 =
      _can.send w (0x600 + node_id)
        [0x4F, index &&& 0xFF, index >>> 8, subindex, 0, 0, 0, 0] 8 ∧
    network.canopen.send_expedited_sdo_read _can w node_id index subindex 2 =
      _can.send w (0x600 + node_id)
        [0x4B, index &&& 0xFF, index >>> 8, subindex, 0, 0, 0, 0] 8 ∧
    network.canopen.send_expedited_sdo_read _can w node_id index subindex 4 =
      _can.send w (0x600 + node_id)
        [0x43, index &&& 0xFF, index >>> 8, subindex, 0, 0, 0, 0] 8 := by
  refine ⟨?_, ?_, ?_⟩ <;>
    simp [network.canopen.send_expedited_sdo_read, assert_in, bind, Except.bind, pure,
      Except.pure, get_low_eq, get_high_eq index hindex,
      network.canopen.READ_COMMAND_BYTE_1_BYTES_PAYLOAD,
      network.canopen.READ_COMMAND_BYTE_2_BYTES_PAYLOAD,
      network.canopen.READ_COMMAND_BYTE_4_BYTES_PAYLOAD,
      network.canopen.PREDEFINED_SDO_CHANNEL]

theorem index_bytes_roundtrip (index : Nat) :
    (index &&& 0xFF) + 256 * (index >>> 8) = index := by
  rw [and_255_eq_mod, Nat.shiftRight_eq_div_pow]
  omega

/-- C6: for every node id, 16-bit index, subindex and data value, `send_expedited_sdo_write`
with a datatype of 1, 2 or 4 bytes does exactly what one call of `can_socket::send` does with
destination `0x600 + node_id`, length 8 and the payload: byte 0 = `0x2F` / `0x2B` / `0x23`,
byte 1 = `index & 0xFF`, byte 2 = `index >> 8`, byte 3 = subindex, then the data low byte
first, then zeros.  So one frame is given to the transport and the result (return value
included) is the result of that send: on a connected socket the wire grows by that one frame
and the call returns `false` exactly when `::write` fails; on a socket that is not connected
the send fails and the call returns `false`. -/
theorem sdo_write_frame (_can : network.can_socket) (w : world)
    (node_id index subindex data : Nat) (hindex : index < 65536) :
    network.canopen.send_expedited_sdo_write _can w node_id index subindex 1 data =
      _can.send w (0x600 + node_id)
        [0x2F, index &&& 0xFF, index >>> 8, subindex, data % 256, 0, 0, 0] 8 ∧
    network.canopen.send_expedited_sdo_write _can w node_id index subindex 2 data =
      _can.send w (0x600 + node_id)
        [0x2B, index &&& 0xFF, index >>> 8, subindex, data % 256, data / 256 % 256, 0, 0] 8 ∧
    network.canopen.send_expedited_sdo_write _can w node_id index subindex 4 data =
      _can.send w (0x600 + node_id)
        [0x23, index &&& 0xFF, index >>> 8, subindex, data % 256, data / 256 % 256,
          data / 65536 % 256, data / 16777216 % 256] 8 ∧
    (∀ sizeof_data, sizeof_data = 1 ∨ sizeof_data = 2 ∨ sizeof_data = 4 →
      (_can.is_connected = true → 0 ≤ w.close_ret w.closes →
        ∃ r can' w' frame,
          network.canopen.send_expedited_sdo_write _can w node_id index subindex sizeof_data
            data = Except.ok (r, can', w') ∧
          w'.wire = w.wire ++ [frame] ∧ frame.can_id = 0x600 + node_id ∧ frame.can_dlc = 8 ∧
          (r = false ↔ w.write_ret w.wire.length = -1)) ∧
      (_can.is_connected = false →
        network.canopen.send_expedited_sdo_write _can w node_id index subindex sizeof_data
          data = Except.ok (false, _can, w))) := by
  have h3 := sdo_write_eq_send _can w node_id index subindex data hindex
  refine ⟨h3.1, h3.2.1, h3.2.2, ?_⟩
  intro sizeof_data hsize
  refine ⟨?_, ?_⟩
  · intro hconn hclose
    rcases hsize with rfl | rfl | rfl
    · obtain ⟨r, can', w', h, hw, -, -, hr⟩ := send_connected _can w (0x600 + node_id)
        [0x2F, index &&& 0xFF, index >>> 8, subindex, data % 256, 0, 0, 0] 8 hconn
        (by decide) (by simp) hclose
      exact ⟨r, can', w', _, by rw [h3.1, h], hw, rfl, rfl, by
        cases r <;> simp_all⟩
    · obtain ⟨r, can', w', h, hw, -, -, hr⟩ := send_connected _can w (0x600 + node_id)
        [0x2B, index &&& 0xFF, index >>> 8, subindex, data % 256, data / 256 % 256, 0, 0] 8
        hconn (by decide) (by simp) hclose
      exact ⟨r, can', w', _, by rw [h3.2.1, h], hw, rfl, rfl, by
        cases r <;> simp_all⟩
    · obtain ⟨r, can', w', h, hw, -, -, hr⟩ := send_connected _can w (0x600 + node_id)
        [0x23, index &&& 0xFF, index >>> 8, subindex, data % 256, data / 256 % 256,
          data / 65536 % 256, data / 16777216 % 256] 8 hconn (by decide) (by simp) hclose
      exact ⟨r, can', w', _, by rw [h3.2.2, h], hw, rfl, rfl, by
        cases r <;> simp_all⟩
  · intro hconn
    rcases hsize with rfl | rfl | rfl
    · rw [h3.1, send_disconnected _ _ _ _ _ hconn (by decide)]
    · rw [h3.2.1, send_disconnected _ _ _ _ _ hconn (by decide)]
    · rw [h3.2.2, send_disconnected _ _ _ _ _ hconn (by decide)]

theorem sdo_write_frame_witness :
    (0x6040 : Nat) < 65536 ∧
    network.canopen.send_expedited_sdo_write open_socket (quiet_world 100) 5 0x6040 2 2 0x1234 =
      open_socket.send (quiet_world 100) (0x600 + 5)
        [0x2B, 0x6040 &&& 0xFF, 0x6040 >>> 8, 2, 0x1234 % 256, 0x1234 / 256 % 256, 0, 0] 8 :=
  ⟨by decide,
    (sdo_write_frame open_socket (quiet_world 100) 5 0x6040 2 0x1234 (by decide)).2.1⟩

/-- C7: for every width 1, 2 or 4, every 16-bit index, every subindex and every data value,
the payload that `send_expedited_sdo_write` hands to `can_socket::send` (the same for every
socket, world and node id) decodes with `extract_index_from_payload` to the index and with
`extract_subindex_from_payload` to the subindex; likewise the payload that
`send_expedited_sdo_read` hands over, whatever the command byte. -/
theorem sdo_index_subindex_roundtrip (index subindex data sizeof_data : Nat)
    (hindex : index < 65536) (hsize : sizeof_data = 1 ∨ sizeof_data = 2 ∨ sizeof_data = 4) :
    (∃ payload : List Nat,
      (∀ (_can : network.can_socket) (w : world) (node_id : Nat),
        network.canopen.send_expedited_sdo_write _can w node_id index subindex sizeof_data data =
          _can.send w (0x600 + node_id) payload 8) ∧
      network.canopen.extract_index_from_payload payload = Except.ok index ∧
      network.canopen.extract_subindex_from_payload payload = Except.ok subindex) ∧
    (∃ payload : List Nat,
      (∀ (_can : network.can_socket) (w : world) (node_id : Nat),
        network.canopen.send_expedited_sdo_read _can w node_id index subindex sizeof_data =
          _can.send w (0x600 + node_id) payload 8) ∧
      network.canopen.extract_index_from_payload payload = Except.ok index ∧
      network.canopen.extract_subindex_from_payload payload = Except.ok subindex) := by
  have hrt := index_bytes_roundtrip index
  refine ⟨?_, ?_⟩
  · rcases hsize with rfl | rfl | rfl
    · exact ⟨_, fun c w n => (sdo_write_eq_send c w n index subindex data hindex).1,
        by simpa [network.canopen.extract_index_from_payload, read_uint16] using hrt,
        by simp [network.canopen.extract_subindex_from_payload]⟩
    · exact ⟨_, fun c w n => (sdo_write_eq_send c w n index subindex data hindex).2.1,
        by simpa [network.canopen.extract_index_from_payload, read_uint16] using hrt,
        by simp [network.canopen.extract_subindex_from_payload]⟩
    · exact ⟨_, fun c w n => (sdo_write_eq_send c w n index subindex data hindex).2.2,
        by simpa [network.canopen.extract_index_from_payload, read_uint16] using hrt,
        by simp [network.canopen.extract_subindex_from_payload]⟩
  · rcases hsize with rfl | rfl | rfl
    · exact ⟨_, fun c w n => (sdo_read_eq_send c w n index subindex hindex).1,
        by simpa [network.canopen.extract_index_from_payload, read_uint16] using hrt,
        by simp [network.canopen.extract_subindex_from_payload]⟩
    · exact ⟨_, fun c w n => (sdo_read_eq_send c w n index subindex hindex).2.1,
        by simpa [network.canopen.extract_index_from_payload, read_uint16] using hrt,
        by simp [network.canopen.extract_subindex_from_payload]⟩
    · exact ⟨_, fun c w n => (sdo_read_eq_send c w n index subindex hindex).2.2,
        by simpa [network.canopen.extract_index_from_payload, read_uint16] using hrt,
        by simp [network.canopen.extract_subindex_from_payload]⟩

theorem sdo_index_subindex_roundtrip_witness :
    (0x6040 : Nat) < 65536 ∧ ((2 : Nat) = 1 ∨ (2 : Nat) = 2 ∨ (2 : Nat) = 4) ∧
    (∃ payload : List Nat,
      (∀ (_can : network.can_socket) (w : world) (node_id : Nat),
        network.canopen.send_expedited_sdo_write _can w node_id 0x6040 7 2 0x1234 =
          _can.send w (0x600 + node_id) payload 8) ∧
      network.canopen.extract_index_from_payload payload = Except.ok 0x6040 ∧
      network.canopen.extract_subindex_from_payload payload = Except.ok 7) :=
  ⟨by decide, by decide,
    (sdo_index_subindex_roundtrip 0x6040 7 0x1234 2 (by decide) (by decide)).1⟩

/-- C8: for every node id, 16-bit index and subindex, `send_expedited_sdo_read` with an
expected size of 1, 2 or 4 does exactly what one call of `can_socket::send` does with
destination `0x600 + node_id`, length 8 and the payload: byte 0 = `0x4F` / `0x4B` / `0x43`,
bytes 1-2 the index low byte first, byte 3 the subindex, bytes 4-7 zero (so it returns the
result of that send); with any other expected size the call stops at its first assertion, in
the world it was called in: nothing has been given to the transport. -/
theorem sdo_read_frame (_can : network.can_socket) (w : world)
    (node_id index subindex : Nat) (hindex : index < 65536) :
    network.canopen.send_expedited_sdo_read _can w node_id index subindex 1 =
      _can.send w (0x600 + node_id)
        [0x4F, index &&& 0xFF, index >>> 8, subindex, 0, 0, 0, 0] 8 ∧
    network.canopen.send_expedited_sdo_read _can w node_id index subindex 2 =
      _can.send w (0x600 + node_id)
        [0x4B, index &&& 0xFF, index >>> 8, subindex, 0, 0, 0, 0] 8 ∧
    network.canopen.send_expedited_sdo_read _can w node_id index subindex 4 =
      _can.send w (0x600 + node_id)
        [0x43, index &&& 0xFF, index >>> 8, subindex, 0, 0, 0, 0] 8 ∧
    (∀ expected_data_size,
      ¬(expected_data_size = 1 ∨ expected_data_size = 2 ∨ expected_data_size = 4) →
      network.canopen.send_expedited_sdo_read _can w node_id index subindex expected_data_size =
        Except.error (abort.assertion_failed, w)) := by
  have h3 := sdo_read_eq_send _can w node_id index subindex hindex
  refine ⟨h3.1, h3.2.1, h3.2.2, ?_⟩
  intro expected_data_size hsize
  simp [network.canopen.send_expedited_sdo_read, assert_in, hsize, bind, Except.bind]

theorem sdo_read_frame_witness :
    (0x6041 : Nat) < 65536 ∧
    network.canopen.send_expedited_sdo_read open_socket (quiet_world 100) 5 0x6041 0 2 =
      open_socket.send (quiet_world 100) (0x600 + 5)
        [0x4B, 0x6041 &&& 0xFF, 0x6041 >>> 8, 0, 0, 0, 0, 0] 8 ∧
    network.canopen.send_expedited_sdo_read open_socket (quiet_world 100) 5 0x6041 0 3 =
      Except.error (abort.assertion_failed, quiet_world 100) :=
  ⟨by decide,
    (sdo_read_frame open_socket (quiet_world 100) 5 0x6041 0 (by decide)).2.1,
    (sdo_read_frame open_socket (quiet_world 100) 5 0x6041 0 (by decide)).2.2.2 3
      (by decide)⟩

/-- C9: for every node id, channel base, 16-bit command code, data value of width 1, 2 or 4
and byte offset with `2 <= offset` and `offset + width <= 8`, `send_expedited_rpdo` does
exactly what one call of `can_socket::send` does with destination `channel + node_id`, length
8 and the payload whose byte 0 is `command & 0xFF`, byte 1 is `command >> 8`, bytes
`offset .. offset + width - 1` are the data low byte first, and every other byte is 0; on a
connected socket the wire grows by exactly that frame. -/
theorem rpdo_frame (_can : network.can_socket) (w : world)
    (node_id channel command offset sizeof_data data : Nat)
    (hsize : sizeof_data = 1 ∨ sizeof_data = 2 ∨ sizeof_data = 4)
    (hcmd : command < 65536) (hlo : 2 ≤ offset) (hhi : offset + sizeof_data ≤ 8) :
    network.canopen.send_expedited_rpdo _can w node_id channel command offset sizeof_data data =
      _can.send w (channel + node_id)
        ((List.range 8).map fun i =>
          if i = 0 then command &&& 0xFF
          else if i = 1 then command >>> 8
          else if offset ≤ i ∧ i < offset + sizeof_data then data / 256 ^ (i - offset) % 256
          else 0) 8 ∧
    (_can.is_connected = true → 0 ≤ w.close_ret w.closes →
      ∃ r can' w',
        network.canopen.send_expedited_rpdo _can w node_id channel command offset sizeof_data
          data = Except.ok (r, can', w') ∧
        w'.wire = w.wire ++ [⟨channel + node_id, 8,
          (List.range 8).map fun i =>
            if i = 0 then command &&& 0xFF
            else if i = 1 then command >>> 8
            else if offset ≤ i ∧ i < offset + sizeof_data then data / 256 ^ (i - offset) % 256
            else 0⟩]) := by
  have heq := send_expedited_rpdo_eq_send _can w node_id channel command offset sizeof_data data
    hsize hcmd hlo hhi
  refine ⟨heq, ?_⟩
  intro hconn hclose
  obtain ⟨r, can', w', h, hw, -, -, -⟩ := send_connected _can w (channel + node_id)
    ((List.range 8).map fun i =>
      if i = 0 then command &&& 0xFF
      else if i = 1 then command >>> 8
      else if offset ≤ i ∧ i < offset + sizeof_data then data / 256 ^ (i - offset) % 256
      else 0) 8 hconn (by decide) (by simp) hclose
  refine ⟨r, can', w', by rw [heq, h], ?_⟩
  rw [hw, List.take_of_length_le (by simp)]

theorem rpdo_frame_witness :
    ((2 : Nat) = 1 ∨ (2 : Nat) = 2 ∨ (2 : Nat) = 4) ∧ (0x21 : Nat) < 65536 ∧ 2 ≤ 2 ∧
    2 + 2 ≤ 8 ∧ open_socket.is_connected = true ∧
    0 ≤ (quiet_world 100).close_ret (quiet_world 100).closes ∧
    ∃ r can' w',
      network.canopen.send_expedited_rpdo open_socket (quiet_world 100) 5 0x200 0x21 2 2 500 =
        Except.ok (r, can', w') ∧
      w'.wire = (quiet_world 100).wire ++ [⟨0x200 + 5, 8,
        (List.range 8).map fun i =>
          if i = 0 then 0x21 &&& 0xFF
          else if i = 1 then 0x21 >>> 8
          else if 2 ≤ i ∧ i < 2 + 2 then 500 / 256 ^ (i - 2) % 256
          else 0⟩] :=
  ⟨by decide, by decide, by decide, by decide, by decide, by decide,
    (rpdo_frame open_socket (quiet_world 100) 5 0x200 0x21 2 2 500 (by decide) (by decide)
      (by decide) (by decide)).2 (by decide) (by decide)⟩

/-- C10 (the code does not enforce the contract): `send_expedited_rpdo` asserts only
`offset < 8`.  Called with offset 7 and a 2-byte value (`7 + 2 > 8`) it passes every assertion
and `memcpy` writes `payload[7]` and `payload[8]`, one byte past the 8-byte array; the call is
rejected by an assertion only from offset 8 on. -/
theorem rpdo_offset_overrun :
    network.canopen.send_expedited_rpdo open_socket (quiet_world 100) 5 0x200 0x21 7 2 0x1234 =
      Except.error (abort.out_of_bounds, quiet_world 100) ∧
    network.canopen.send_expedited_rpdo open_socket (quiet_world 100) 5 0x200 0x21 8 2 0x1234 =
      Except.error (abort.assertion_failed, quiet_world 100) :=
  ⟨rfl, rfl⟩

/-! ## COB-ID decomposition -/

theorem cob_id_split : ∀ q < 16, ∀ r < 128,
    (128 * q + r) &&& 0x780 = 128 * q ∧ (128 * q + r) &&& 0x7F = r := by
  decide

theorem cob_id_masks (cob_id : Nat) (h : cob_id ≤ 2047) :
    cob_id &&& 0x780 = cob_id / 128 * 128 ∧ cob_id &&& 0x7F = cob_id % 128 := by
  have h1 := cob_id_split (cob_id / 128) (by omega) (cob_id % 128) (by omega)
  have h2 : 128 * (cob_id / 128) + cob_id % 128 = cob_id := by omega
  rw [h2] at h1
  omega

theorem extract_node_id_eq (cob_id : Nat) :
    network.canopen.extract_node_id_from_cob_id cob_id = cob_id &&& 0x7F := by
  have h := Nat.and_pow_two_sub_one_eq_mod cob_id 7
  simp only [network.canopen.extract_node_id_from_cob_id]
  have h2 : cob_id &&& 127 = cob_id % 128 := by simpa using h
  rw [h2]
  omega

theorem extract_function_code_eq (cob_id : Nat) (h : cob_id ≤ 2047) :
    network.canopen.extract_function_code_from_cob_id cob_id = Except.ok (cob_id &&& 0x780) := by
  simp [network.canopen.extract_function_code_from_cob_id, assert, h, bind, Except.bind, pure,
    Except.pure]

/-- C11: for every `cob_id <= 2047`, `extract_function_code_from_cob_id` returns
`cob_id & 0x780` and `extract_node_id_from_cob_id` returns `cob_id & 0x7F`. -/
theorem cob_id_decode (cob_id : Nat) (h : cob_id ≤ 2047) :
    network.canopen.extract_function_code_from_cob_id cob_id = Except.ok (cob_id &&& 0x780) ∧
    network.canopen.extract_node_id_from_cob_id cob_id = cob_id &&& 0x7F :=
  ⟨extract_function_code_eq cob_id h, extract_node_id_eq cob_id⟩

theorem cob_id_decode_witness :
    (0x185 : Nat) ≤ 2047 ∧
    network.canopen.extract_function_code_from_cob_id 0x185 = Except.ok (0x185 &&& 0x780) ∧
    network.canopen.extract_node_id_from_cob_id 0x185 = 0x185 &&& 0x7F :=
  ⟨by decide, cob_id_decode 0x185 (by decide)⟩

/-- C12: the decomposition is lossless on 11-bit identifiers.  For every `cob_id <= 2047` the
function code and the node id that the two extractors return add up to `cob_id`; and for every
channel base `b` that is a multiple of `0x80` with `b <= 0x780` and every node id `n <= 127`,
decoding `b + n` returns function code `b` and node id `n`. -/
theorem cob_id_lossless (cob_id b n : Nat) (h : cob_id ≤ 2047)
    (hb : b % 0x80 = 0) (hb2 : b ≤ 0x780) (hn : n ≤ 127) :
    (∃ function_code,
      network.canopen.extract_function_code_from_cob_id cob_id = Except.ok function_code ∧
      function_code + network.canopen.extract_node_id_from_cob_id cob_id = cob_id) ∧
    network.canopen.extract_function_code_from_cob_id (b + n) = Except.ok b ∧
    network.canopen.extract_node_id_from_cob_id (b + n) = n := by
  have hm := cob_id_masks cob_id h
  have hbn : b + n ≤ 2047 := by omega
  have hm2 := cob_id_masks (b + n) hbn
  refine ⟨⟨cob_id &&& 0x780, extract_function_code_eq cob_id h, ?_⟩, ?_, ?_⟩
  · rw [extract_node_id_eq]
    omega
  · rw [extract_function_code_eq _ hbn]
    congr 1
    omega
  · rw [extract_node_id_eq]
    omega

theorem cob_id_lossless_witness :
    (0x2FF : Nat) ≤ 2047 ∧ 0x180 % 0x80 = 0 ∧ 0x180 ≤ 0x780 ∧ 5 ≤ 127 ∧
    (∃ function_code,
      network.canopen.extract_function_code_from_cob_id 0x2FF = Except.ok function_code ∧
      function_code + network.canopen.extract_node_id_from_cob_id 0x2FF = 0x2FF) ∧
    network.canopen.extract_function_code_from_cob_id (0x180 + 5) = Except.ok 0x180 ∧
    network.canopen.extract_node_id_from_cob_id (0x180 + 5) = 5 :=
  ⟨by decide, by decide, by decide, by decide,
    cob_id_lossless 0x2FF 0x180 5 (by decide) (by decide) (by decide) (by decide)⟩

/-! ## Routing of incoming frames -/

theorem low7_of_truncated (source_can_id : Nat) :
    (source_can_id % 65536) &&& 0x7F = source_can_id &&& 0x7F := by
  have h1 := Nat.and_pow_two_sub_one_eq_mod (source_can_id % 65536) 7
  have h2 := Nat.and_pow_two_sub_one_eq_mod source_can_id 7
  have h3 : (source_can_id % 65536) &&& 127 = source_can_id % 65536 % 128 := by simpa using h1
  have h4 : source_can_id &&& 127 = source_can_id % 128 := by simpa using h2
  rw [h3, h4]
  omega

theorem callback_other_node (self : servosila_motor_controller) (can : network.can_socket)
    (w : world) (buffer : List Nat) (bytes_received source_can_id : Nat)
    (hnode : source_can_id &&& 0x7F ≠ self.m_device_id) :
    self.process_canbus_callback can w buffer bytes_received source_can_id =
      Except.ok (false, self, can, w) := by
  have h : network.canopen.extract_node_id_from_cob_id (source_can_id % 65536) ≠
      self.m_device_id := by
    rw [extract_node_id_eq, low7_of_truncated]
    exact hnode
  simp [process_canbus_callback, h, pure, Except.pure]

theorem callback_routed (self : servosila_motor_controller) (can : network.can_socket)
    (w : world) (buffer : List Nat) (bytes_received source_can_id : Nat)
    (hnode : source_can_id &&& 0x7F = self.m_device_id) (hid : source_can_id ≤ 2047) :
    self.process_canbus_callback can w buffer bytes_received source_can_id =
      if source_can_id &&& 0x780 = 0x180 then
        (in_world w (self._parse_tpdo1 buffer bytes_received) >>= fun s =>
          s._process_faults can w >>= fun r =>
            Except.ok (true,
              { r.1 with
                m_shaft_healthcheck_timer := (r.1.m_shaft_healthcheck_timer.restart r.2.2).1,
                m_state := SHAFT_TELEMETRY_COMING },
              r.2.1, (r.1.m_shaft_healthcheck_timer.restart r.2.2).2))
      else if source_can_id &&& 0x780 = 0x280 then
        (in_world w (self._parse_tpdo2 buffer bytes_received) >>= fun s =>
          Except.ok (true, s, can, w))
      else if source_can_id &&& 0x780 = 0x380 then
        (in_world w (self._parse_tpdo3 buffer bytes_received) >>= fun s =>
          Except.ok (true, s, can, w))
      else if source_can_id &&& 0x780 = 0x480 then Except.ok (true, self, can, w)
      else Except.ok (false, self, can, w) := by
  have hmod : source_can_id % 65536 = source_can_id := by omega
  have h1 : network.canopen.extract_node_id_from_cob_id (source_can_id % 65536) =
      self.m_device_id := by
    rw [extract_node_id_eq, low7_of_truncated]
    exact hnode
  have h2 : network.canopen.extract_function_code_from_cob_id (source_can_id % 65536) =
      Except.ok (source_can_id &&& 0x780) := by
    rw [hmod]
    exact extract_function_code_eq source_can_id hid
  simp only [process_canbus_callback, h1, h2, if_true, in_world,
    TPDO_SERVOSILA_CHANNEL_FOR_MOTOR_TELEMETRY_1, TPDO_SERVOSILA_CHANNEL_FOR_MOTOR_TELEMETRY_2,
    TPDO_SERVOSILA_CHANNEL_FOR_MOTOR_TELEMETRY_3, TPDO_SERVOSILA_CHANNEL_FOR_MOTOR_TELEMETRY_4]
  rfl

theorem callback_wide_id (self : servosila_motor_controller) (can : network.can_socket)
    (w : world) (buffer : List Nat) (bytes_received source_can_id : Nat)
    (hnode : source_can_id &&& 0x7F = self.m_device_id)
    (hid : 2047 < source_can_id % 65536) :
    self.process_canbus_callback can w buffer bytes_received source_can_id =
      Except.error (abort.assertion_failed, w) := by
  have h1 : network.canopen.extract_node_id_from_cob_id (source_can_id % 65536) =
      self.m_device_id := by
    rw [extract_node_id_eq, low7_of_truncated]
    exact hnode
  have h2 : ¬ source_can_id % 65536 ≤ 2047 := by omega
  simp [process_canbus_callback, h1, network.canopen.extract_function_code_from_cob_id, assert,
    h2, in_world, bind, Except.bind]

theorem bind_eq_ok {ε α β : Type} {x : Except ε α} {f : α → Except ε β} {b : β}
    (h : x >>= f = Except.ok b) : ∃ a, x = Except.ok a ∧ f a = Except.ok b := by
  cases x with
  | error e => simp [bind, Except.bind] at h
  | ok a => exact ⟨a, rfl, h⟩

theorem process_faults_completes (self : servosila_motor_controller)
    (can : network.can_socket) (w : world) (hclose : 0 ≤ w.close_ret w.closes) :
    ∃ r, self._process_faults can w = Except.ok r := by
  by_cases hack : self.m_protocol_version = PROTOCOL_VERSION_2_0 ∧
      self.m_status_telemetry &&& 0x7F00 ≠ 0 ∧ can.is_connected = true
  · obtain ⟨can', w', h, -⟩ := process_faults_ack self can w hack.1 hack.2.1 hack.2.2 hclose
    exact ⟨_, h⟩
  · refine ⟨_, process_faults_none self can w ?_⟩
    by_cases hv : self.m_protocol_version = PROTOCOL_VERSION_LEGACY
    · exact Or.inl hv
    · by_cases hf : self.m_status_telemetry &&& 0x7F00 = 0
      · exact Or.inr (Or.inl hf)
      · refine Or.inr (Or.inr ?_)
        have hv2 : self.m_protocol_version = PROTOCOL_VERSION_2_0 := by
          cases h : self.m_protocol_version
          · exact absurd h hv
          · rfl
        cases hc : can.is_connected
        · rfl
        · exact absurd ⟨hv2, hf, hc⟩ hack

theorem parse_tpdo2_completes (self : servosila_motor_controller) (buffer : List Nat)
    (bytes_received : Nat) (hbuf : bytes_received = 8 → 8 ≤ buffer.length)
    (henc : ¬(self.m_protocol_version = PROTOCOL_VERSION_LEGACY ∧ bytes_received = 8 ∧
      self.m_is_position_encoder_available = false)) :
    ∃ speed, self._parse_tpdo2 buffer bytes_received =
      Except.ok { self with m_speed_telemetry := speed } := by
  cases hv : self.m_protocol_version
  · by_cases h8 : bytes_received = 8
    · have hlen := hbuf h8
      cases he : self.m_is_position_encoder_available
      · exact absurd ⟨hv, h8, he⟩ henc
      · exact ⟨to_int16 (buffer.getD 4 0 + 256 * buffer.getD 5 0), by
          simp [_parse_tpdo2, _parse_tpdo2_legacy_protocol, assert, hv, he, h8, read_uint16,
            bind, Except.bind, pure, Except.pure, show 4 + 2 ≤ buffer.length by omega]⟩
    · refine ⟨self.m_speed_telemetry, ?_⟩
      simp [_parse_tpdo2, _parse_tpdo2_legacy_protocol, assert, hv, h8, bind, Except.bind,
        pure, Except.pure]
      rw [← hv]
  · refine ⟨self.m_speed_telemetry, ?_⟩
    simp [_parse_tpdo2, hv, pure, Except.pure]
    rw [← hv]

theorem parse_tpdo3_completes (self : servosila_motor_controller) (buffer : List Nat)
    (bytes_received : Nat) (hbuf : bytes_received = 8 → 8 ≤ buffer.length) :
    ∃ faults, self._parse_tpdo3 buffer bytes_received =
      Except.ok { self with m_faults_telemetry := faults } := by
  cases hv : self.m_protocol_version
  · by_cases h8 : bytes_received = 8
    · have hlen := hbuf h8
      exact ⟨buffer.getD 0 0 + 256 * buffer.getD 1 0, by
        simp [_parse_tpdo3, _parse_tpdo3_legacy_protocol, assert, hv, h8, read_uint16,
          bind, Except.bind, pure, Except.pure, show 2 ≤ buffer.length by omega]⟩
    · refine ⟨self.m_faults_telemetry, ?_⟩
      simp [_parse_tpdo3, _parse_tpdo3_legacy_protocol, assert, hv, h8, bind, Except.bind,
        pure, Except.pure]
      rw [← hv]
  · refine ⟨self.m_faults_telemetry, ?_⟩
    simp [_parse_tpdo3, hv, pure, Except.pure]
    rw [← hv]

/-- C13: `process_canbus_callback` changes nothing and sends nothing unless it consumes a frame
on a channel that carries fields.  The call returns the controller, the socket and the world
it was given (1) for every source identifier whose low 7 bits differ from the configured node
id, and, on an 11-bit identifier of the configured node, (2) when the function code is none of
`0x180`, `0x280`, `0x380`, `0x480`, (3) on the quaternary channel `0x480`, (4) on the secondary
`0x280` and tertiary `0x380` channels under the 2.0 protocol.  (5) An identifier of the
configured node whose 16 low bits exceed 2047 stops at the assertion of
`extract_function_code_from_cob_id`, with the world as it was. -/
theorem callback_frame_effect (self : servosila_motor_controller) (can : network.can_socket)
    (w : world) (buffer : List Nat) (bytes_received source_can_id : Nat) :
    (source_can_id &&& 0x7F ≠ self.m_device_id →
      self.process_canbus_callback can w buffer bytes_received source_can_id =
        Except.ok (false, self, can, w)) ∧
    (source_can_id &&& 0x7F = self.m_device_id → source_can_id ≤ 2047 →
      source_can_id &&& 0x780 ≠ 0x180 → source_can_id &&& 0x780 ≠ 0x280 →
      source_can_id &&& 0x780 ≠ 0x380 → source_can_id &&& 0x780 ≠ 0x480 →
      self.process_canbus_callback can w buffer bytes_received source_can_id =
        Except.ok (false, self, can, w)) ∧
    (source_can_id &&& 0x7F = self.m_device_id → source_can_id ≤ 2047 →
      source_can_id &&& 0x780 = 0x480 →
      self.process_canbus_callback can w buffer bytes_received source_can_id =
        Except.ok (true, self, can, w)) ∧
    (source_can_id &&& 0x7F = self.m_device_id → source_can_id ≤ 2047 →
      self.m_protocol_version = PROTOCOL_VERSION_2_0 →
      source_can_id &&& 0x780 = 0x280 ∨ source_can_id &&& 0x780 = 0x380 →
      self.process_canbus_callback can w buffer bytes_received source_can_id =
        Except.ok (true, self, can, w)) ∧
    (source_can_id &&& 0x7F = self.m_device_id → 2047 < source_can_id % 65536 →
      self.process_canbus_callback can w buffer bytes_received source_can_id =
        Except.error (abort.assertion_failed, w)) := by
  refine ⟨callback_other_node self can w buffer bytes_received source_can_id, ?_, ?_, ?_,
    callback_wide_id self can w buffer bytes_received source_can_id⟩
  · intro hnode hid h1 h2 h3 h4
    rw [callback_routed self can w buffer bytes_received source_can_id hnode hid]
    simp [h1, h2, h3, h4]
  · intro hnode hid h4
    rw [callback_routed self can w buffer bytes_received source_can_id hnode hid]
    simp [h4]
  · intro hnode hid hv hfc
    rw [callback_routed self can w buffer bytes_received source_can_id hnode hid]
    rcases hfc with h | h
    · simp [h, _parse_tpdo2, hv, in_world, pure, Except.pure, bind, Except.bind]
    · simp [h, _parse_tpdo3, hv, in_world, pure, Except.pure, bind, Except.bind]

theorem callback_frame_effect_witness :
    ((0x186 : Nat) &&& 0x7F ≠ sample_controller_running.m_device_id ∧
      sample_controller_running.process_canbus_callback open_socket (quiet_world 100)
        [0x00, 0x01, 0xF4, 0x01, 0, 0, 0, 0] 8 0x186 =
        Except.ok (false, sample_controller_running, open_socket, quiet_world 100)) ∧
    ((0x705 : Nat) &&& 0x7F = sample_controller_running.m_device_id ∧ (0x705 : Nat) ≤ 2047 ∧
      sample_controller_running.process_canbus_callback open_socket (quiet_world 100)
        [0x00, 0x01, 0xF4, 0x01, 0, 0, 0, 0] 8 0x705 =
        Except.ok (false, sample_controller_running, open_socket, quiet_world 100)) ∧
    ((0x485 : Nat) &&& 0x780 = 0x480 ∧
      sample_controller_running.process_canbus_callback open_socket (quiet_world 100)
        [0x00, 0x01, 0xF4, 0x01, 0, 0, 0, 0] 8 0x485 =
        Except.ok (true, sample_controller_running, open_socket, quiet_world 100)) ∧
    (sample_controller_running.m_protocol_version = PROTOCOL_VERSION_2_0 ∧
      sample_controller_running.process_canbus_callback open_socket (quiet_world 100)
        [0x00, 0x01, 0xF4, 0x01, 0, 0, 0, 0] 8 0x285 =
        Except.ok (true, sample_controller_running, open_socket, quiet_world 100)) ∧
    (2047 < (0x885 : Nat) % 65536 ∧
      sample_controller_running.process_canbus_callback open_socket (quiet_world 100)
        [0x00, 0x01, 0xF4, 0x01, 0, 0, 0, 0] 8 0x885 =
        Except.error (abort.assertion_failed, quiet_world 100)) :=
  ⟨⟨by decide, (callback_frame_effect sample_controller_running open_socket (quiet_world 100)
      [0x00, 0x01, 0xF4, 0x01, 0, 0, 0, 0] 8 0x186).1 (by decide)⟩,
    ⟨by decide, by decide, (callback_frame_effect sample_controller_running open_socket
      (quiet_world 100) [0x00, 0x01, 0xF4, 0x01, 0, 0, 0, 0] 8 0x705).2.1 (by decide)
      (by decide) (by decide) (by decide) (by decide) (by decide)⟩,
    ⟨by decide, (callback_frame_effect sample_controller_running open_socket (quiet_world 100)
      [0x00, 0x01, 0xF4, 0x01, 0, 0, 0, 0] 8 0x485).2.2.1 (by decide) (by decide)
      (by decide)⟩,
    ⟨by decide, (callback_frame_effect sample_controller_running open_socket (quiet_world 100)
      [0x00, 0x01, 0xF4, 0x01, 0, 0, 0, 0] 8 0x285).2.2.2.1 (by decide) (by decide)
      (by decide) (Or.inl (by decide))⟩,
    ⟨by decide, (callback_frame_effect sample_controller_running open_socket (quiet_world 100)
      [0x00, 0x01, 0xF4, 0x01, 0, 0, 0, 0] 8 0x885).2.2.2.2 (by decide) (by decide)⟩⟩

/-- C14: for every source COB-ID `<= 2047`, every result with which `process_canbus_callback`
completes has the flag `true` if and only if `cob_id & 0x7F` is the configured node id and
`cob_id & 0x780` is one of `0x180`, `0x280`, `0x380`, `0x480`: neither the payload bytes, the
payload length nor the protocol version enter.  The call does complete whenever a length of 8
comes with 8 bytes, the kernel closes the socket without error, and the frame is not a
secondary frame of 8 bytes for a legacy controller without position encoder. -/
theorem callback_processed_iff (self : servosila_motor_controller) (can : network.can_socket)
    (w : world) (buffer : List Nat) (bytes_received source_can_id : Nat)
    (hid : source_can_id ≤ 2047) :
    (∀ flag self' can' w',
      self.process_canbus_callback can w buffer bytes_received source_can_id =
        Except.ok (flag, self', can', w') →
      (flag = true ↔
        source_can_id &&& 0x7F = self.m_device_id ∧
        (source_can_id &&& 0x780 = 0x180 ∨ source_can_id &&& 0x780 = 0x280 ∨
          source_can_id &&& 0x780 = 0x380 ∨ source_can_id &&& 0x780 = 0x480))) ∧
    ((bytes_received = 8 → 8 ≤ buffer.length) → 0 ≤ w.close_ret w.closes →
      ¬(source_can_id &&& 0x7F = self.m_device_id ∧ source_can_id &&& 0x780 = 0x280 ∧
        self.m_protocol_version = PROTOCOL_VERSION_LEGACY ∧ bytes_received = 8 ∧
        self.m_is_position_encoder_available = false) →
      ∃ r, self.process_canbus_callback can w buffer bytes_received source_can_id =
        Except.ok r) := by
  by_cases hnode : source_can_id &&& 0x7F = self.m_device_id
  · rw [callback_routed self can w buffer bytes_received source_can_id hnode hid]
    by_cases h1 : source_can_id &&& 0x780 = 0x180
    · refine ⟨?_, ?_⟩
      · intro flag self' can' w' h
        simp only [h1, if_true] at h
        obtain ⟨s, -, h⟩ := bind_eq_ok h
        obtain ⟨r, -, h⟩ := bind_eq_ok h
        simp only [Except.ok.injEq, Prod.mk.injEq] at h
        simp [← h.1, hnode, h1]
      · intro hbuf hclose _
        obtain ⟨s, hparse⟩ : ∃ s, self._parse_tpdo1 buffer bytes_received = Except.ok s := by
          obtain ⟨p, v, a, st, h⟩ := parse_tpdo1_completes self buffer bytes_received hbuf
          exact ⟨_, h⟩
        obtain ⟨r, hr⟩ := process_faults_completes s can w hclose
        exact ⟨_, by simp only [h1, if_true, hparse, in_world, bind, Except.bind, hr]; rfl⟩
    · by_cases h2 : source_can_id &&& 0x780 = 0x280
      · refine ⟨?_, ?_⟩
        · intro flag self' can' w' h
          simp only [h2, if_true] at h
          simp only [show ¬ (640 = 384) by decide, if_false] at h
          obtain ⟨s, -, h⟩ := bind_eq_ok h
          simp only [Except.ok.injEq, Prod.mk.injEq] at h
          simp [← h.1, hnode, h2]
        · intro hbuf hclose henc
          obtain ⟨v, hparse⟩ := parse_tpdo2_completes self buffer bytes_received hbuf
            (fun h => henc ⟨hnode, h2, h.1, h.2.1, h.2.2⟩)
          exact ⟨_, by simp only [h1, h2, if_true, if_false, hparse, in_world, bind,
            Except.bind]; rfl⟩
      · by_cases h3 : source_can_id &&& 0x780 = 0x380
        · refine ⟨?_, ?_⟩
          · intro flag self' can' w' h
            simp only [h3, if_true] at h
            simp only [show ¬ (896 = 384) by decide, show ¬ (896 = 640) by decide,
              if_false] at h
            obtain ⟨s, -, h⟩ := bind_eq_ok h
            simp only [Except.ok.injEq, Prod.mk.injEq] at h
            simp [← h.1, hnode, h3]
          · intro hbuf hclose _
            obtain ⟨f, hparse⟩ := parse_tpdo3_completes self buffer bytes_received hbuf
            exact ⟨_, by simp only [h1, h2, h3, if_true, if_false, hparse, in_world, bind,
              Except.bind]; rfl⟩
        · by_cases h4 : source_can_id &&& 0x780 = 0x480
          · simp [h4, hnode]
          · simp [h1, h2, h3, h4, hnode]
  · rw [callback_other_node self can w buffer bytes_received source_can_id hnode]
    simp [hnode]

theorem callback_processed_iff_witness :
    (0x185 : Nat) ≤ 2047 ∧
    (true = true ↔
      (0x185 : Nat) &&& 0x7F = sample_controller.m_device_id ∧
      ((0x185 : Nat) &&& 0x780 = 0x180 ∨ (0x185 : Nat) &&& 0x780 = 0x280 ∨
        (0x185 : Nat) &&& 0x780 = 0x380 ∨ (0x185 : Nat) &&& 0x780 = 0x480)) ∧
    ∃ r, sample_controller.process_canbus_callback open_socket (quiet_world 100)
      [0x00, 0x00, 0xF4, 0x01, 0, 0, 0, 0] 8 0x185 = Except.ok r :=
  ⟨by decide,
    (callback_processed_iff sample_controller open_socket (quiet_world 100)
      [0x00, 0x00, 0xF4, 0x01, 0, 0, 0, 0] 8 0x185 (by decide)).1 true _ _ _ rfl,
    (callback_processed_iff sample_controller open_socket (quiet_world 100)
      [0x00, 0x00, 0xF4, 0x01, 0, 0, 0, 0] 8 0x185 (by decide)).2 (by decide) (by decide)
      (by decide)⟩

/-! ## The RPDO encoders -/

theorem rpdo_2_0_eq (self : servosila_motor_controller) (can : network.can_socket) (w : world)
    (hv : self.m_protocol_version = PROTOCOL_VERSION_2_0) (hc : can.is_connected = true)
    (hid : self.m_device_id ≠ 0) :
    (self.m_operation_mode = POSITION_MODE →
      self._send_rpdo_as_per_current_operation_mode_protocol_2_0 can w =
        Except.map (fun r => r.2) (can.send w (0x200 + self.m_device_id)
          [0x21, 0x00, self.m_position_command % 256, self.m_position_command / 256 % 256,
            0, 0, 0, 0] 8)) ∧
    (self.m_operation_mode = SPEED_MODE →
      self._send_rpdo_as_per_current_operation_mode_protocol_2_0 can w =
        Except.map (fun r => r.2) (can.send w (0x200 + self.m_device_id)
          [0x05, 0x00, 0, 0, to_uint16 self.m_speed_command % 256,
            to_uint16 self.m_speed_command / 256 % 256, 0, 0] 8)) ∧
    (self.m_operation_mode = AMPS_MODE →
      self._send_rpdo_as_per_current_operation_mode_protocol_2_0 can w =
        Except.map (fun r => r.2) (can.send w (0x200 + self.m_device_id)
          [0x01, 0x00, 0, 0, 0, 0, to_uint16 self.m_amps_command % 256,
            to_uint16 self.m_amps_command / 256 % 256] 8)) ∧
    (self.m_operation_mode = UNDEFINED_MODE →
      self._send_rpdo_as_per_current_operation_mode_protocol_2_0 can w =
        Except.ok (can, w)) := by
  refine ⟨?_, ?_, ?_, ?_⟩ <;> intro hm
  · simp only [_send_rpdo_as_per_current_operation_mode_protocol_2_0, assert_in, hv, hc, hid,
      hm, ne_eq, not_false_eq_true, if_true, bind, Except.bind]
    rw [send_expedited_rpdo_eq_send _ _ _ _ _ _ _ _ (by decide) (by decide) (by decide)
      (by decide)]
    simp [List.range, List.range.loop, RPDO_SERVOSILA_CHANNEL_FOR_MOTOR_CONTROL,
      and_255_eq_mod, Nat.shiftRight_eq_div_pow]
    generalize can.send w _ _ 8 = x
    cases x <;> rfl
  · simp only [_send_rpdo_as_per_current_operation_mode_protocol_2_0, assert_in, hv, hc, hid,
      hm, ne_eq, not_false_eq_true, if_true, bind, Except.bind]
    rw [send_expedited_rpdo_eq_send _ _ _ _ _ _ _ _ (by decide) (by decide) (by decide)
      (by decide)]
    simp [List.range, List.range.loop, RPDO_SERVOSILA_CHANNEL_FOR_MOTOR_CONTROL,
      and_255_eq_mod, Nat.shiftRight_eq_div_pow]
    generalize can.send w _ _ 8 = x
    cases x <;> rfl
  · simp only [_send_rpdo_as_per_current_operation_mode_protocol_2_0, assert_in, hv, hc, hid,
      hm, ne_eq, not_false_eq_true, if_true, bind, Except.bind]
    rw [send_expedited_rpdo_eq_send _ _ _ _ _ _ _ _ (by decide) (by decide) (by decide)
      (by decide)]
    simp [List.range, List.range.loop, RPDO_SERVOSILA_CHANNEL_FOR_MOTOR_CONTROL,
      and_255_eq_mod, Nat.shiftRight_eq_div_pow]
    generalize can.send w _ _ 8 = x
    cases x <;> rfl
  · simp [_send_rpdo_as_per_current_operation_mode_protocol_2_0, assert_in, hv, hc, hid,
      hm, bind, Except.bind, pure, Except.pure]

theorem rpdo_legacy_eq (self : servosila_motor_controller) (can : network.can_socket)
    (w : world) (hv : self.m_protocol_version = PROTOCOL_VERSION_LEGACY)
    (hc : can.is_connected = true) (hid : self.m_device_id ≠ 0) :
    (self.m_operation_mode = POSITION_MODE →
      self._send_rpdo_as_per_current_operation_mode_legacy_protocol can w =
        Except.map (fun r => r.2) (can.send w (0x200 + self.m_device_id)
          [self.m_position_command % 256, self.m_position_command / 256 % 256, 0, 0,
            self.m_device_id, 0, 0, 0] 8)) ∧
    (self.m_operation_mode = SPEED_MODE →
      self._send_rpdo_as_per_current_operation_mode_legacy_protocol can w =
        Except.map (fun r => r.2)
          (can.send w ((if self.m_is_position_encoder_available = true then 0x300 else 0x200) +
              self.m_device_id)
            [to_uint16 self.m_speed_command % 256, to_uint16 self.m_speed_command / 256 % 256,
              0, 0, self.m_device_id, 0, 0, 0] 8)) ∧
    (self.m_operation_mode = UNDEFINED_MODE →
      self._send_rpdo_as_per_current_operation_mode_legacy_protocol can w =
        Except.ok (can, w)) := by
  refine ⟨?_, ?_, ?_⟩ <;> intro hm
  · simp [_send_rpdo_as_per_current_operation_mode_legacy_protocol, assert_in, in_world, hv,
      hc, hid, hm, memcpy, object_bytes, bind, Except.bind,
      RPDO_SERVOSILA_CHANNEL_FOR_MOTOR_CONTROL]
    generalize can.send w _ _ 8 = x
    cases x <;> rfl
  · cases he : self.m_is_position_encoder_available <;>
    · simp [_send_rpdo_as_per_current_operation_mode_legacy_protocol, assert_in, in_world, hv,
        hc, hid, hm, he, memcpy, object_bytes, bind, Except.bind,
        RPDO_SERVOSILA_CHANNEL_FOR_MOTOR_CONTROL,
        RPDO_SERVOSILA_CHANNEL_FOR_LEGACY_SPEED_CONTROL]
      generalize can.send w _ _ 8 = x
      cases x <;> rfl
  · simp [_send_rpdo_as_per_current_operation_mode_legacy_protocol, assert_in, hv, hc, hid,
      hm, bind, Except.bind, pure, Except.pure]

theorem rpdo_router_eq (self : servosila_motor_controller) (can : network.can_socket)
    (w : world) (hc : can.is_connected = true) (hid : self.m_device_id ≠ 0) :
    self._send_rpdo_as_per_current_operation_mode can w =
      match self.m_protocol_version with
      | PROTOCOL_VERSION_LEGACY =>
        self._send_rpdo_as_per_current_operation_mode_legacy_protocol can w
      | PROTOCOL_VERSION_2_0 =>
        self._send_rpdo_as_per_current_operation_mode_protocol_2_0 can w := by
  simp [_send_rpdo_as_per_current_operation_mode, assert_in, hc, hid, bind, Except.bind]

theorem to_uint16_twos_complement (v : Int) (hlo : -32768 ≤ v) (hhi : v ≤ 32767) :
    ((to_uint16 v : Nat) : Int) = if v < 0 then v + 65536 else v := by
  unfold to_uint16
  rw [Int.toNat_of_nonneg (Int.emod_nonneg v (by decide))]
  split <;> omega

/-- C15: under the 2.0 protocol, for a connected transport and a non-zero node id `n`, the
RPDO encoder does exactly what one call of `can_socket::send` does with destination
`0x200 + n`, length 8 and the payload `[0x21,0x00,p_lo,p_hi,0,0,0,0]` in position mode,
`[0x05,0x00,0,0,s_lo,s_hi,0,0]` in speed mode and `[0x01,0x00,0,0,0,0,a_lo,a_hi]` in amps
mode, a signed setpoint being written as its 16-bit two's complement `to_uint16`, low byte
first; in undefined mode it returns with socket and world as they were, so no frame is sent.
The router `_send_rpdo_as_per_current_operation_mode` is that encoder. -/
theorem rpdo_encoding_2_0 (self : servosila_motor_controller) (can : network.can_socket)
    (w : world) (hv : self.m_protocol_version = PROTOCOL_VERSION_2_0)
    (hc : can.is_connected = true) (hid : self.m_device_id ≠ 0) :
    (self.m_operation_mode = POSITION_MODE →
      self._send_rpdo_as_per_current_operation_mode_protocol_2_0 can w =
        Except.map (fun r => r.2) (can.send w (0x200 + self.m_device_id)
          [0x21, 0x00, self.m_position_command % 256, self.m_position_command / 256 % 256,
            0, 0, 0, 0] 8)) ∧
    (self.m_operation_mode = SPEED_MODE →
      self._send_rpdo_as_per_current_operation_mode_protocol_2_0 can w =
        Except.map (fun r => r.2) (can.send w (0x200 + self.m_device_id)
          [0x05, 0x00, 0, 0, to_uint16 self.m_speed_command % 256,
            to_uint16 self.m_speed_command / 256 % 256, 0, 0] 8)) ∧
    (self.m_operation_mode = AMPS_MODE →
      self._send_rpdo_as_per_current_operation_mode_protocol_2_0 can w =
        Except.map (fun r => r.2) (can.send w (0x200 + self.m_device_id)
          [0x01, 0x00, 0, 0, 0, 0, to_uint16 self.m_amps_command % 256,
            to_uint16 self.m_amps_command / 256 % 256] 8)) ∧
    (self.m_operation_mode = UNDEFINED_MODE →
      self._send_rpdo_as_per_current_operation_mode_protocol_2_0 can w =
        Except.ok (can, w)) ∧
    self._send_rpdo_as_per_current_operation_mode can w =
      self._send_rpdo_as_per_current_operation_mode_protocol_2_0 can w ∧
    (∀ v : Int, -32768 ≤ v → v ≤ 32767 →
      ((to_uint16 v : Nat) : Int) = if v < 0 then v + 65536 else v) := by
  obtain ⟨h1, h2, h3, h4⟩ := rpdo_2_0_eq self can w hv hc hid
  refine ⟨h1, h2, h3, h4, ?_, to_uint16_twos_complement⟩
  rw [rpdo_router_eq self can w hc hid, hv]

theorem rpdo_encoding_2_0_witness :
    sample_controller_running.m_protocol_version = PROTOCOL_VERSION_2_0 ∧
    open_socket.is_connected = true ∧ sample_controller_running.m_device_id ≠ 0 ∧
    sample_controller_running.m_operation_mode = POSITION_MODE ∧
    sample_controller_running._send_rpdo_as_per_current_operation_mode_protocol_2_0
        open_socket (quiet_world 100) =
      Except.map (fun r => r.2) (open_socket.send (quiet_world 100)
        (0x200 + sample_controller_running.m_device_id)
        [0x21, 0x00, sample_controller_running.m_position_command % 256,
          sample_controller_running.m_position_command / 256 % 256, 0, 0, 0, 0] 8) ∧
    (sample_controller_running._send_rpdo_as_per_current_operation_mode
        open_socket (quiet_world 100)).map (fun r => r.2.wire) =
      Except.ok [⟨0x205, 8, [0x21, 0x00, 0xF4, 0x01, 0, 0, 0, 0]⟩] :=
  ⟨by decide, by decide, by decide, by decide,
    (rpdo_encoding_2_0 sample_controller_running open_socket (quiet_world 100) (by decide)
      (by decide) (by decide)).1 (by decide), rfl⟩

/-- C16: under the legacy protocol, for a connected transport and a non-zero node id `n`, the
RPDO encoder in position or speed mode does exactly what one call of `can_socket::send` does
with length 8 and the payload `[v_lo, v_hi, 0, 0, n, 0, 0, 0]`, `v` being the position
setpoint, or the speed setpoint as its 16-bit two's complement `to_uint16`; the destination is
`0x300 + n` in speed mode with a position encoder and `0x200 + n` otherwise.  Node 3 without
encoder and speed -200 puts the frame `0x203 [0x38,0xFF,0,0,3,0,0,0]` on the wire. -/
theorem rpdo_encoding_legacy (self : servosila_motor_controller) (can : network.can_socket)
    (w : world) (hv : self.m_protocol_version = PROTOCOL_VERSION_LEGACY)
    (hc : can.is_connected = true) (hid : self.m_device_id ≠ 0) :
    (self.m_operation_mode = POSITION_MODE →
      self._send_rpdo_as_per_current_operation_mode_legacy_protocol can w =
        Except.map (fun r => r.2) (can.send w (0x200 + self.m_device_id)
          [self.m_position_command % 256, self.m_position_command / 256 % 256, 0, 0,
            self.m_device_id, 0, 0, 0] 8)) ∧
    (self.m_operation_mode = SPEED_MODE →
      self._send_rpdo_as_per_current_operation_mode_legacy_protocol can w =
        Except.map (fun r => r.2)
          (can.send w ((if self.m_is_position_encoder_available = true then 0x300 else 0x200) +
              self.m_device_id)
            [to_uint16 self.m_speed_command % 256, to_uint16 self.m_speed_command / 256 % 256,
              0, 0, self.m_device_id, 0, 0, 0] 8)) ∧
    self._send_rpdo_as_per_current_operation_mode can w =
      self._send_rpdo_as_per_current_operation_mode_legacy_protocol can w ∧
    (sample_legacy_chassis._send_rpdo_as_per_current_operation_mode_legacy_protocol
        open_socket (quiet_world 100)).map (fun r => r.2.wire) =
      Except.ok [⟨0x203, 8, [0x38, 0xFF, 0, 0, 3, 0, 0, 0]⟩] := by
  obtain ⟨h1, h2, -⟩ := rpdo_legacy_eq self can w hv hc hid
  refine ⟨h1, h2, ?_, rfl⟩
  rw [rpdo_router_eq self can w hc hid, hv]

theorem rpdo_encoding_legacy_witness :
    sample_legacy_chassis.m_protocol_version = PROTOCOL_VERSION_LEGACY ∧
    open_socket.is_connected = true ∧ sample_legacy_chassis.m_device_id ≠ 0 ∧
    sample_legacy_chassis.m_operation_mode = SPEED_MODE ∧
    sample_legacy_chassis._send_rpdo_as_per_current_operation_mode_legacy_protocol
        open_socket (quiet_world 100) =
      Except.map (fun r => r.2)
        (open_socket.send (quiet_world 100)
          ((if sample_legacy_chassis.m_is_position_encoder_available = true then 0x300
            else 0x200) + sample_legacy_chassis.m_device_id)
          [to_uint16 sample_legacy_chassis.m_speed_command % 256,
            to_uint16 sample_legacy_chassis.m_speed_command / 256 % 256,
            0, 0, sample_legacy_chassis.m_device_id, 0, 0, 0] 8) :=
  ⟨by decide, by decide, by decide, by decide,
    (rpdo_encoding_legacy sample_legacy_chassis open_socket (quiet_world 100) (by decide)
      (by decide) (by decide)).2.1 (by decide)⟩

theorem legacy_amps_encoder_aborts (self : servosila_motor_controller)
    (can : network.can_socket) (w : world)
    (hv : self.m_protocol_version = PROTOCOL_VERSION_LEGACY)
    (hm : self.m_operation_mode = AMPS_MODE) :
    self._send_rpdo_as_per_current_operation_mode_legacy_protocol can w =
      Except.error (abort.assertion_failed, w) ∧
    self._send_rpdo_as_per_current_operation_mode can w =
      Except.error (abort.assertion_failed, w) := by
  by_cases hc : can.is_connected = true <;> by_cases hid : self.m_device_id = 0 <;>
    simp [_send_rpdo_as_per_current_operation_mode,
      _send_rpdo_as_per_current_operation_mode_legacy_protocol, assert_in, hv, hm, hc, hid,
      bind, Except.bind]

/-- C17: under the legacy protocol amps mode is rejected when it is selected for emission.
For every legacy controller in `AMPS_MODE` the RPDO encoder, and the router that calls it,
stop at an assertion in the world they were called in, so no frame is sent.  So does `execute`
on the tick that emits (transport connected, telemetry coming, health-check timer not
expired, RPDO timer expired), with the wire as it was, and so does `halt` with a connected
transport while telemetry is coming. -/
theorem legacy_amps_rejected (self : servosila_motor_controller) (can : network.can_socket)
    (w : world) (hv : self.m_protocol_version = PROTOCOL_VERSION_LEGACY)
    (hm : self.m_operation_mode = AMPS_MODE) :
    self._send_rpdo_as_per_current_operation_mode_legacy_protocol can w =
      Except.error (abort.assertion_failed, w) ∧
    self._send_rpdo_as_per_current_operation_mode can w =
      Except.error (abort.assertion_failed, w) ∧
    (can.is_connected = true → self.m_state = SHAFT_TELEMETRY_COMING →
      (self.m_shaft_healthcheck_timer.check w).1 = false →
      (self.m_rpdo_timer.check (self.m_shaft_healthcheck_timer.check w).2).1 = true →
      ∃ w', self.execute can w = Except.error (abort.assertion_failed, w') ∧
        w'.wire = w.wire) ∧
    (can.is_connected = true → self.m_state = SHAFT_TELEMETRY_COMING →
      self.halt can w = Except.error (abort.assertion_failed, w)) := by
  obtain ⟨h1, h2⟩ := legacy_amps_encoder_aborts self can w hv hm
  refine ⟨h1, h2, ?_, ?_⟩
  · intro hconn hstate hexp hfire
    simp only [control.timer.check, gettimeofday] at hexp hfire
    obtain ⟨-, h3⟩ := legacy_amps_encoder_aborts
      { self with m_rpdo_timer := ⟨control.timeradd self.m_rpdo_timer.m_interval
          (w.time (w.clock_reads + 1 + 1)), self.m_rpdo_timer.m_interval⟩ }
      can { w with clock_reads := w.clock_reads + 1 + 1 + 1 } hv hm
    refine ⟨{ w with clock_reads := w.clock_reads + 1 + 1 + 1 }, ?_, rfl⟩
    simp only [execute, hconn]
    simp [control.timer.check, control.timer.check_and_restart,
      gettimeofday, control.timer.restart, hexp, hfire, hstate] at h3 ⊢
    simp [h3, bind, Except.bind]
  · intro hconn hstate
    by_cases h0 : (0 : Int) ≤ self.m_max_amps_limit ∧ (0 : Int) ≥ self.m_min_amps_limit
    · obtain ⟨-, h3⟩ := legacy_amps_encoder_aborts
        { self with m_operation_mode := AMPS_MODE, m_amps_command := 0 } can w hv rfl
      simp [halt, hstate, hm, set_amps_command, assert_on, h0.1, h0.2, member_in_world, hconn,
        bind, Except.bind, pure, Except.pure] at h3 ⊢
      simp [h3]
    · have h0' : ¬ (0 : Int) ≤ self.m_max_amps_limit ∨ ¬ (0 : Int) ≥ self.m_min_amps_limit := by
        by_cases ha : (0 : Int) ≤ self.m_max_amps_limit
        · exact Or.inr (fun hb => h0 ⟨ha, hb⟩)
        · exact Or.inl ha
      rcases h0' with ha | ha
      · simp [halt, hstate, hm, set_amps_command, assert_on, ha, member_in_world, bind,
          Except.bind]
      · by_cases hb : (0 : Int) ≤ self.m_max_amps_limit <;>
          simp [halt, hstate, hm, set_amps_command, assert_on, ha, hb, member_in_world, bind,
            Except.bind, pure, Except.pure]

theorem legacy_amps_rejected_witness :
    ({ sample_legacy_chassis with m_operation_mode := AMPS_MODE } :
      servosila_motor_controller).m_protocol_version = PROTOCOL_VERSION_LEGACY ∧
    ({ sample_legacy_chassis with m_operation_mode := AMPS_MODE } :
      servosila_motor_controller).m_operation_mode = AMPS_MODE ∧
    open_socket.is_connected = true ∧
    ({ sample_legacy_chassis with m_operation_mode := AMPS_MODE } :
      servosila_motor_controller)._send_rpdo_as_per_current_operation_mode open_socket
        (quiet_world_at 100 50000) =
      Except.error (abort.assertion_failed, quiet_world_at 100 50000) ∧
    (∃ w', ({ sample_legacy_chassis with m_operation_mode := AMPS_MODE } :
        servosila_motor_controller).execute open_socket (quiet_world_at 100 50000) =
        Except.error (abort.assertion_failed, w') ∧
      w'.wire = (quiet_world_at 100 50000).wire) ∧
    ({ sample_legacy_chassis with m_operation_mode := AMPS_MODE } :
      servosila_motor_controller).halt open_socket (quiet_world_at 100 50000) =
      Except.error (abort.assertion_failed, quiet_world_at 100 50000) :=
  ⟨by decide, by decide, by decide,
    (legacy_amps_rejected { sample_legacy_chassis with m_operation_mode := AMPS_MODE }
      open_socket (quiet_world_at 100 50000) (by decide) (by decide)).2.1,
    (legacy_amps_rejected { sample_legacy_chassis with m_operation_mode := AMPS_MODE }
      open_socket (quiet_world_at 100 50000) (by decide) (by decide)).2.2.1
      (by decide) (by decide) (by decide) (by decide),
    (legacy_amps_rejected { sample_legacy_chassis with m_operation_mode := AMPS_MODE }
      open_socket (quiet_world_at 100 50000) (by decide) (by decide)).2.2.2
      (by decide) (by decide)⟩

theorem map_send_connected (can : network.can_socket) (w : world) (dest : Nat)
    (payload : List Nat) (hc : can.is_connected = true) (hp : payload.length = 8)
    (hclose : 0 ≤ w.close_ret w.closes) :
    ∃ can' w', Except.map (fun r => r.2) (can.send w dest payload 8) = Except.ok (can', w') ∧
      w'.wire = w.wire ++ [⟨dest, 8, payload⟩] ∧
      w'.time = w.time ∧ w'.clock_reads = w.clock_reads := by
  obtain ⟨r, can', w', h, hw, ht, hr, -⟩ := send_connected can w dest payload 8 hc (by decide)
    (by omega) hclose
  refine ⟨can', w', by rw [h]; rfl, ?_, ht, hr⟩
  rw [hw, List.take_of_length_le (by omega)]

theorem send_rpdo_one_frame (self : servosila_motor_controller) (can : network.can_socket)
    (w : world) (hc : can.is_connected = true) (hid : self.m_device_id ≠ 0)
    (hclose : 0 ≤ w.close_ret w.closes) (hmode : self.m_operation_mode ≠ UNDEFINED_MODE)
    (hleg : self.m_protocol_version = PROTOCOL_VERSION_LEGACY →
      self.m_operation_mode ≠ AMPS_MODE) :
    ∃ can' w' frame,
      self._send_rpdo_as_per_current_operation_mode can w = Except.ok (can', w') ∧
      w'.wire = w.wire ++ [frame] ∧ w'.time = w.time ∧ w'.clock_reads = w.clock_reads ∧
      frame.can_dlc = 8 ∧
      (self.m_protocol_version = PROTOCOL_VERSION_2_0 →
        self.m_operation_mode = POSITION_MODE →
        frame.can_id = 0x200 + self.m_device_id ∧
        frame.data = [0x21, 0x00, self.m_position_command % 256,
          self.m_position_command / 256 % 256, 0, 0, 0, 0]) ∧
      (self.m_protocol_version = PROTOCOL_VERSION_2_0 →
        self.m_operation_mode = SPEED_MODE →
        frame.can_id = 0x200 + self.m_device_id ∧
        frame.data = [0x05, 0x00, 0, 0, to_uint16 self.m_speed_command % 256,
          to_uint16 self.m_speed_command / 256 % 256, 0, 0]) ∧
      (self.m_protocol_version = PROTOCOL_VERSION_2_0 →
        self.m_operation_mode = AMPS_MODE →
        frame.can_id = 0x200 + self.m_device_id ∧
        frame.data = [0x01, 0x00, 0, 0, 0, 0, to_uint16 self.m_amps_command % 256,
          to_uint16 self.m_amps_command / 256 % 256]) ∧
      (self.m_protocol_version = PROTOCOL_VERSION_LEGACY →
        self.m_operation_mode = POSITION_MODE →
        frame.can_id = 0x200 + self.m_device_id ∧
        frame.data = [self.m_position_command % 256, self.m_position_command / 256 % 256,
          0, 0, self.m_device_id, 0, 0, 0]) ∧
      (self.m_protocol_version = PROTOCOL_VERSION_LEGACY →
        self.m_operation_mode = SPEED_MODE →
        frame.can_id =
          (if self.m_is_position_encoder_available = true then 0x300 else 0x200) +
            self.m_device_id ∧
        frame.data = [to_uint16 self.m_speed_command % 256,
          to_uint16 self.m_speed_command / 256 % 256, 0, 0, self.m_device_id, 0, 0, 0]) := by
  rw [rpdo_router_eq self can w hc hid]
  cases hv : self.m_protocol_version <;> cases hm : self.m_operation_mode
  case PROTOCOL_VERSION_LEGACY.UNDEFINED_MODE => exact absurd hm hmode
  case PROTOCOL_VERSION_2_0.UNDEFINED_MODE => exact absurd hm hmode
  case PROTOCOL_VERSION_LEGACY.AMPS_MODE => exact absurd hm (hleg hv)
  case PROTOCOL_VERSION_LEGACY.POSITION_MODE =>
    obtain ⟨can', w', h, hw, ht, hr⟩ := map_send_connected can w (0x200 + self.m_device_id)
      [self.m_position_command % 256, self.m_position_command / 256 % 256, 0, 0,
        self.m_device_id, 0, 0, 0] hc rfl hclose
    refine ⟨can', w', _, ?_, hw, ht, hr, rfl, ?_⟩
    · simp only [(rpdo_legacy_eq self can w hv hc hid).1 hm, h]
    · simp
  case PROTOCOL_VERSION_LEGACY.SPEED_MODE =>
    obtain ⟨can', w', h, hw, ht, hr⟩ := map_send_connected can w
      ((if self.m_is_position_encoder_available = true then 0x300 else 0x200) +
        self.m_device_id)
      [to_uint16 self.m_speed_command % 256, to_uint16 self.m_speed_command / 256 % 256,
        0, 0, self.m_device_id, 0, 0, 0] hc rfl hclose
    refine ⟨can', w', _, ?_, hw, ht, hr, rfl, ?_⟩
    · simp only [(rpdo_legacy_eq self can w hv hc hid).2.1 hm, h]
    · simp
  case PROTOCOL_VERSION_2_0.POSITION_MODE =>
    obtain ⟨can', w', h, hw, ht, hr⟩ := map_send_connected can w (0x200 + self.m_device_id)
      [0x21, 0x00, self.m_position_command % 256, self.m_position_command / 256 % 256,
        0, 0, 0, 0] hc rfl hclose
    refine ⟨can', w', _, ?_, hw, ht, hr, rfl, ?_⟩
    · simp only [(rpdo_2_0_eq self can w hv hc hid).1 hm, h]
    · simp
  case PROTOCOL_VERSION_2_0.SPEED_MODE =>
    obtain ⟨can', w', h, hw, ht, hr⟩ := map_send_connected can w (0x200 + self.m_device_id)
      [0x05, 0x00, 0, 0, to_uint16 self.m_speed_command % 256,
        to_uint16 self.m_speed_command / 256 % 256, 0, 0] hc rfl hclose
    refine ⟨can', w', _, ?_, hw, ht, hr, rfl, ?_⟩
    · simp only [(rpdo_2_0_eq self can w hv hc hid).2.1 hm, h]
    · simp
  case PROTOCOL_VERSION_2_0.AMPS_MODE =>
    obtain ⟨can', w', h, hw, ht, hr⟩ := map_send_connected can w (0x200 + self.m_device_id)
      [0x01, 0x00, 0, 0, 0, 0, to_uint16 self.m_amps_command % 256,
        to_uint16 self.m_amps_command / 256 % 256] hc rfl hclose
    refine ⟨can', w', _, ?_, hw, ht, hr, rfl, ?_⟩
    · simp only [(rpdo_2_0_eq self can w hv hc hid).2.2.1 hm, h]
    · simp

/-- C18: for a controller with non-zero node id, a connected transport, state
`SHAFT_TELEMETRY_COMING`, an unexpired health-check timer and a mode the protocol supports
(position or speed, and amps under 2.0), with a kernel that closes the socket without error:
if the RPDO timer has expired when `execute` checks it, `execute` completes, has restarted that
timer and changed nothing else in the controller, and the wire has grown by exactly one frame
of 8 bytes, the one that encodes the current mode and setpoint for the protocol version; if
the RPDO timer has not expired, `execute` returns the controller and the socket as they were
and the wire is unchanged. -/
theorem execute_rpdo (self : servosila_motor_controller) (can : network.can_socket)
    (w : world) (hid : self.m_device_id ≠ 0) (hconn : can.is_connected = true)
    (hstate : self.m_state = SHAFT_TELEMETRY_COMING)
    (hhc : (self.m_shaft_healthcheck_timer.check w).1 = false)
    (hclose : 0 ≤ w.close_ret w.closes)
    (hmode : self.m_operation_mode ≠ UNDEFINED_MODE)
    (hleg : self.m_protocol_version = PROTOCOL_VERSION_LEGACY →
      self.m_operation_mode ≠ AMPS_MODE) :
    ((self.m_rpdo_timer.check (self.m_shaft_healthcheck_timer.check w).2).1 = true →
      ∃ can' w' frame,
        self.execute can w =
          Except.ok ({ self with m_rpdo_timer := (self.m_rpdo_timer.restart
            (self.m_rpdo_timer.check (self.m_shaft_healthcheck_timer.check w).2).2).1 },
            can', w') ∧
        w'.wire = w.wire ++ [frame] ∧ frame.can_dlc = 8 ∧
        (self.m_protocol_version = PROTOCOL_VERSION_2_0 →
          self.m_operation_mode = POSITION_MODE →
          frame.can_id = 0x200 + self.m_device_id ∧
          frame.data = [0x21, 0x00, self.m_position_command % 256,
            self.m_position_command / 256 % 256, 0, 0, 0, 0]) ∧
        (self.m_protocol_version = PROTOCOL_VERSION_2_0 →
          self.m_operation_mode = SPEED_MODE →
          frame.can_id = 0x200 + self.m_device_id ∧
          frame.data = [0x05, 0x00, 0, 0, to_uint16 self.m_speed_command % 256,
            to_uint16 self.m_speed_command / 256 % 256, 0, 0]) ∧
        (self.m_protocol_version = PROTOCOL_VERSION_2_0 →
          self.m_operation_mode = AMPS_MODE →
          frame.can_id = 0x200 + self.m_device_id ∧
          frame.data = [0x01, 0x00, 0, 0, 0, 0, to_uint16 self.m_amps_command % 256,
            to_uint16 self.m_amps_command / 256 % 256]) ∧
        (self.m_protocol_version = PROTOCOL_VERSION_LEGACY →
          self.m_operation_mode = POSITION_MODE →
          frame.can_id = 0x200 + self.m_device_id ∧
          frame.data = [self.m_position_command % 256, self.m_position_command / 256 % 256,
            0, 0, self.m_device_id, 0, 0, 0]) ∧
        (self.m_protocol_version = PROTOCOL_VERSION_LEGACY →
          self.m_operation_mode = SPEED_MODE →
          frame.can_id =
            (if self.m_is_position_encoder_available = true then 0x300 else 0x200) +
              self.m_device_id ∧
          frame.data = [to_uint16 self.m_speed_command % 256,
            to_uint16 self.m_speed_command / 256 % 256, 0, 0, self.m_device_id, 0, 0, 0])) ∧
    ((self.m_rpdo_timer.check (self.m_shaft_healthcheck_timer.check w).2).1 = false →
      ∃ w', self.execute can w = Except.ok (self, can, w') ∧ w'.wire = w.wire) := by
  simp only [control.timer.check, gettimeofday] at hhc
  refine ⟨?_, ?_⟩
  · intro hfire
    simp only [control.timer.check, gettimeofday] at hfire
    obtain ⟨can', w', frame, h, hw, -, -, hdlc, e1, e2, e3, e4, e5⟩ := send_rpdo_one_frame
      { self with m_rpdo_timer := ⟨control.timeradd self.m_rpdo_timer.m_interval
          (w.time (w.clock_reads + 1 + 1)), self.m_rpdo_timer.m_interval⟩ }
      can { w with clock_reads := w.clock_reads + 1 + 1 + 1 } hconn hid hclose hmode hleg
    refine ⟨can', w', frame, ?_, hw, hdlc, e1, e2, e3, e4, e5⟩
    simp only [execute, hconn]
    simp [control.timer.check, control.timer.check_and_restart,
      gettimeofday, control.timer.restart, hhc, hfire, hstate] at h ⊢
    simp [h, bind, Except.bind, pure, Except.pure]
  · intro hfire
    simp only [control.timer.check, gettimeofday] at hfire
    refine ⟨{ w with clock_reads := w.clock_reads + 1 + 1 }, ?_, rfl⟩
    simp only [execute, hconn]
    simp [control.timer.check, control.timer.check_and_restart,
      gettimeofday, control.timer.restart, hhc, hfire, pure, Except.pure]

theorem execute_rpdo_witness :
    sample_legacy_chassis.m_device_id ≠ 0 ∧ open_socket.is_connected = true ∧
    sample_legacy_chassis.m_state = SHAFT_TELEMETRY_COMING ∧
    (sample_legacy_chassis.m_shaft_healthcheck_timer.check (quiet_world_at 100 50000)).1 =
      false ∧
    (sample_legacy_chassis.m_rpdo_timer.check
      (sample_legacy_chassis.m_shaft_healthcheck_timer.check (quiet_world_at 100 50000)).2).1 =
      true ∧
    (sample_legacy_chassis.m_rpdo_timer.check
      (sample_legacy_chassis.m_shaft_healthcheck_timer.check (quiet_world_at 100 10000)).2).1 =
      false ∧
    (∃ can' w' frame,
      sample_legacy_chassis.execute open_socket (quiet_world_at 100 50000) =
        Except.ok ({ sample_legacy_chassis with m_rpdo_timer :=
          (sample_legacy_chassis.m_rpdo_timer.restart
            (sample_legacy_chassis.m_rpdo_timer.check
              (sample_legacy_chassis.m_shaft_healthcheck_timer.check
                (quiet_world_at 100 50000)).2).2).1 }, can', w') ∧
      w'.wire = (quiet_world_at 100 50000).wire ++ [frame] ∧ frame.can_dlc = 8 ∧
      frame.can_id =
        (if sample_legacy_chassis.m_is_position_encoder_available = true then 0x300
          else 0x200) + sample_legacy_chassis.m_device_id ∧
      frame.data = [to_uint16 sample_legacy_chassis.m_speed_command % 256,
        to_uint16 sample_legacy_chassis.m_speed_command / 256 % 256, 0, 0,
        sample_legacy_chassis.m_device_id, 0, 0, 0]) ∧
    (∃ w', sample_legacy_chassis.execute open_socket (quiet_world_at 100 10000) =
        Except.ok (sample_legacy_chassis, open_socket, w') ∧
      w'.wire = (quiet_world_at 100 10000).wire) ∧
    (sample_legacy_chassis.execute open_socket (quiet_world_at 100 50000)).map
        (fun r => r.2.2.wire) =
      Except.ok [⟨0x203, 8, [0x38, 0xFF, 0, 0, 3, 0, 0, 0]⟩] := by
  have h := execute_rpdo sample_legacy_chassis open_socket (quiet_world_at 100 50000)
    (by decide) (by decide) (by decide) (by decide) (by decide) (by decide) (by decide)
  have h' := execute_rpdo sample_legacy_chassis open_socket (quiet_world_at 100 10000)
    (by decide) (by decide) (by decide) (by decide) (by decide) (by decide) (by decide)
  obtain ⟨can', w', frame, h1, h2, h3, -, -, -, -, h8⟩ := h.1 (by decide)
  exact ⟨by decide, by decide, by decide, by decide, by decide, by decide,
    ⟨can', w', frame, h1, h2, h3, (h8 (by decide) (by decide)).1,
      (h8 (by decide) (by decide)).2⟩,
    h'.2 (by decide), rfl⟩

/-! ## Command setters -/

/-- C19: each of `set_position_command`, `set_speed_command` and `set_amps_command`, called with
a setpoint outside the configured `[min, max]`, is rejected: it stops at an assertion, and the
controller as it stands at that point is the controller the setter was called on, so neither
the operation mode nor any stored setpoint has been written.  Both assertions of a setter
stand before its two assignments; a setter that assigned first would report the controller
with the new mode and setpoint. -/
theorem setpoint_out_of_range_rejected (self : servosila_motor_controller) (position : Nat)
    (speed amps : Int) :
    (position > self.m_max_position_limit ∨ position < self.m_min_position_limit →
      self.set_position_command position = Except.error (abort.assertion_failed, self)) ∧
    (speed > self.m_max_speed_limit ∨ speed < self.m_min_speed_limit →
      self.set_speed_command speed = Except.error (abort.assertion_failed, self)) ∧
    (amps > self.m_max_amps_limit ∨ amps < self.m_min_amps_limit →
      self.set_amps_command amps = Except.error (abort.assertion_failed, self)) := by
  refine ⟨?_, ?_, ?_⟩
  · intro h
    by_cases h1 : position ≤ self.m_max_position_limit
    · have h2 : ¬ position ≥ self.m_min_position_limit := by omega
      simp [set_position_command, assert_on, h1, h2, bind, Except.bind]
    · simp [set_position_command, assert_on, h1, bind, Except.bind]
  · intro h
    by_cases h1 : speed ≤ self.m_max_speed_limit
    · have h2 : ¬ speed ≥ self.m_min_speed_limit := by omega
      simp [set_speed_command, assert_on, h1, h2, bind, Except.bind]
    · simp [set_speed_command, assert_on, h1, bind, Except.bind]
  · intro h
    by_cases h1 : amps ≤ self.m_max_amps_limit
    · have h2 : ¬ amps ≥ self.m_min_amps_limit := by omega
      simp [set_amps_command, assert_on, h1, h2, bind, Except.bind]
    · simp [set_amps_command, assert_on, h1, bind, Except.bind]

theorem setpoint_out_of_range_rejected_witness :
    ((1001 : Nat) > sample_controller_running.m_max_position_limit ∨
      (1001 : Nat) < sample_controller_running.m_min_position_limit) ∧
    sample_controller_running.set_position_command 1001 =
      Except.error (abort.assertion_failed, sample_controller_running) ∧
    ((-301 : Int) > sample_controller_running.m_max_speed_limit ∨
      (-301 : Int) < sample_controller_running.m_min_speed_limit) ∧
    sample_controller_running.set_speed_command (-301) =
      Except.error (abort.assertion_failed, sample_controller_running) ∧
    ((51 : Int) > sample_controller_running.m_max_amps_limit ∨
      (51 : Int) < sample_controller_running.m_min_amps_limit) ∧
    sample_controller_running.set_amps_command 51 =
      Except.error (abort.assertion_failed, sample_controller_running) ∧
    sample_controller_running.m_operation_mode = POSITION_MODE ∧
    sample_controller_running.m_position_command = 500 :=
  ⟨by decide,
    (setpoint_out_of_range_rejected sample_controller_running 1001 (-301) 51).1 (by decide),
    by decide,
    (setpoint_out_of_range_rejected sample_controller_running 1001 (-301) 51).2.1 (by decide),
    by decide,
    (setpoint_out_of_range_rejected sample_controller_running 1001 (-301) 51).2.2 (by decide),
    by decide, by decide⟩

/-- C20: each of `set_position_command`, `set_speed_command` and `set_amps_command`, called with
a setpoint inside the configured `[min, max]`, bounds included, returns the controller with
the operation mode set to `POSITION_MODE` / `SPEED_MODE` / `AMPS_MODE` and that setpoint
stored, and every other member as it was: the other two setpoints, the telemetry state, the
telemetry snapshot, the fault counter, the limits, the timers and the configuration. -/
theorem setpoint_in_range_stored (self : servosila_motor_controller) (position : Nat)
    (speed amps : Int) :
    (self.m_min_position_limit ≤ position → position ≤ self.m_max_position_limit →
      self.set_position_command position = Except.ok { self with
        m_operation_mode := POSITION_MODE, m_position_command := position }) ∧
    (self.m_min_speed_limit ≤ speed → speed ≤ self.m_max_speed_limit →
      self.set_speed_command speed = Except.ok { self with
        m_operation_mode := SPEED_MODE, m_speed_command := speed }) ∧
    (self.m_min_amps_limit ≤ amps → amps ≤ self.m_max_amps_limit →
      self.set_amps_command amps = Except.ok { self with
        m_operation_mode := AMPS_MODE, m_amps_command := amps }) := by
  refine ⟨?_, ?_, ?_⟩
  · intro h1 h2
    simp [set_position_command, assert_on, h1, h2, bind, Except.bind, pure, Except.pure]
  · intro h1 h2
    simp [set_speed_command, assert_on, h1, h2, bind, Except.bind, pure, Except.pure]
  · intro h1 h2
    simp [set_amps_command, assert_on, h1, h2, bind, Except.bind, pure, Except.pure]

theorem setpoint_in_range_stored_witness :
    (sample_controller.m_min_position_limit ≤ 1000 ∧
      1000 ≤ sample_controller.m_max_position_limit ∧
      sample_controller.set_position_command 1000 = Except.ok { sample_controller with
        m_operation_mode := POSITION_MODE, m_position_command := 1000 }) ∧
    (sample_controller.m_min_speed_limit ≤ -300 ∧
      -300 ≤ sample_controller.m_max_speed_limit ∧
      sample_controller.set_speed_command (-300) = Except.ok { sample_controller with
        m_operation_mode := SPEED_MODE, m_speed_command := -300 }) ∧
    (sample_controller.m_min_amps_limit ≤ 0 ∧ 0 ≤ sample_controller.m_max_amps_limit ∧
      sample_controller.set_amps_command 0 = Except.ok { sample_controller with
        m_operation_mode := AMPS_MODE, m_amps_command := 0 }) :=
  ⟨⟨by decide, by decide,
      (setpoint_in_range_stored sample_controller 1000 (-300) 0).1 (by decide) (by decide)⟩,
    ⟨by decide, by decide,
      (setpoint_in_range_stored sample_controller 1000 (-300) 0).2.1 (by decide) (by decide)⟩,
    ⟨by decide, by decide,
      (setpoint_in_range_stored sample_controller 1000 (-300) 0).2.2 (by decide) (by decide)⟩⟩

/-! ## Undefined mode and `halt` -/

theorem execute_emitting (self : servosila_motor_controller) (can : network.can_socket)
    (w : world) (hconn : can.is_connected = true)
    (hexp : self.m_shaft_healthcheck_timer.check_at (w.time w.clock_reads) = false)
    (hstate : self.m_state = SHAFT_TELEMETRY_COMING)
    (hfire : self.m_rpdo_timer.check_at (w.time (w.clock_reads + 1)) = true) :
    self.execute can w =
      Prod.mk
        { self with m_rpdo_timer := ⟨control.timeradd self.m_rpdo_timer.m_interval
          (w.time (w.clock_reads + 1 + 1)), self.m_rpdo_timer.m_interval⟩ } <$>
        _send_rpdo_as_per_current_operation_mode
          { self with m_rpdo_timer := ⟨control.timeradd self.m_rpdo_timer.m_interval
            (w.time (w.clock_reads + 1 + 1)), self.m_rpdo_timer.m_interval⟩ }
          can { w with clock_reads := w.clock_reads + 1 + 1 + 1 } := by
  simp only [execute, hconn]
  simp [control.timer.check, control.timer.check_and_restart,
    gettimeofday, control.timer.restart, hexp, hfire, hstate]

theorem execute_quiet (self : servosila_motor_controller) (can : network.can_socket)
    (w : world)
    (h : ¬(can.is_connected = true ∧
      self.m_shaft_healthcheck_timer.check_at (w.time w.clock_reads) = false ∧
      self.m_state = SHAFT_TELEMETRY_COMING ∧
      self.m_rpdo_timer.check_at (w.time (w.clock_reads + 1)) = true)) :
    ∃ self' w', self.execute can w = Except.ok (self', can, w') ∧ w'.wire = w.wire := by
  by_cases hconn : can.is_connected = true
  · by_cases hexp : self.m_shaft_healthcheck_timer.check_at (w.time w.clock_reads) = true
    · by_cases hstate : self.m_state = SHAFT_TELEMETRY_COMING
      · obtain ⟨s, w', h1, -, -, -, h3⟩ :=
          (execute_healthcheck_reset self can w hconn hexp hstate)
        exact ⟨s, w', h1, h3⟩
      · have hno : self.m_state = NO_SHAFT_TELEMETRY := by
          cases hs : self.m_state
          · rfl
          · exact absurd hs hstate
        by_cases hfire : (self.m_rpdo_timer.check_at (w.time (w.clock_reads + 1))) = true <;>
        · simp only [execute, hconn]
          simp [control.timer.check, control.timer.check_and_restart,
            gettimeofday, control.timer.restart, hexp, hno, hfire, pure, Except.pure]
          exact ⟨_, _, ⟨rfl, rfl⟩, rfl⟩
    · have hexp' : self.m_shaft_healthcheck_timer.check_at (w.time w.clock_reads) = false := by
        cases hc : self.m_shaft_healthcheck_timer.check_at (w.time w.clock_reads)
        · rfl
        · exact absurd hc hexp
      by_cases hstate : self.m_state = SHAFT_TELEMETRY_COMING
      · have hfire : ¬ self.m_rpdo_timer.check_at (w.time (w.clock_reads + 1)) = true :=
          fun hf => h ⟨hconn, hexp', hstate, hf⟩
        simp only [execute, hconn]
        simp [control.timer.check, control.timer.check_and_restart,
          gettimeofday, control.timer.restart, hexp, hfire, pure, Except.pure]
        exact ⟨_, _, ⟨rfl, rfl⟩, rfl⟩
      · have hno : self.m_state = NO_SHAFT_TELEMETRY := by
          cases hs : self.m_state
          · rfl
          · exact absurd hs hstate
        by_cases hfire : (self.m_rpdo_timer.check_at (w.time (w.clock_reads + 1))) = true <;>
        · simp only [execute, hconn]
          simp [control.timer.check, control.timer.check_and_restart,
            gettimeofday, control.timer.restart, hexp, hno, hfire, pure, Except.pure]
          exact ⟨_, _, ⟨rfl, rfl⟩, rfl⟩
  · have hd : can.is_connected = false := by
      cases hc : can.is_connected
      · rfl
      · exact absurd hc hconn
    by_cases hfire : (self.m_rpdo_timer.check_at (w.time (w.clock_reads + 1))) = true <;>
    · simp only [execute, hd]
      simp [_reset_to_initial_state, control.timer.check, control.timer.check_and_restart,
        gettimeofday, control.timer.restart, hfire, pure, Except.pure]
      exact ⟨_, _, ⟨rfl, rfl⟩, rfl⟩

theorem router_undefined (self : servosila_motor_controller) (can : network.can_socket)
    (w : world) (hm : self.m_operation_mode = UNDEFINED_MODE)
    (hconn : can.is_connected = true) :
    self._send_rpdo_as_per_current_operation_mode can w =
      if self.m_device_id ≠ 0 then Except.ok (can, w)
      else Except.error (abort.assertion_failed, w) := by
  by_cases hid : self.m_device_id = 0 <;> cases hv : self.m_protocol_version <;>
    simp [_send_rpdo_as_per_current_operation_mode,
      _send_rpdo_as_per_current_operation_mode_legacy_protocol,
      _send_rpdo_as_per_current_operation_mode_protocol_2_0, assert_in, hm, hconn, hid, hv,
      bind, Except.bind, pure, Except.pure]

theorem execute_emitting_run (self : servosila_motor_controller) (can : network.can_socket)
    (w : world) (hconn : can.is_connected = true)
    (hexp : self.m_shaft_healthcheck_timer.check_at (w.time w.clock_reads) = false)
    (hstate : self.m_state = SHAFT_TELEMETRY_COMING)
    (hfire : self.m_rpdo_timer.check_at (w.time (w.clock_reads + 1)) = true) :
    ∃ timer s w3,
      s = { self with m_rpdo_timer := timer } ∧
      w3 = { w with clock_reads := w.clock_reads + 1 + 1 + 1 } ∧
      self.execute can w = Prod.mk s <$> s._send_rpdo_as_per_current_operation_mode can w3 :=
  ⟨_, _, _, rfl, rfl, execute_emitting self can w hconn hexp hstate hfire⟩

theorem execute_undefined_outcome (self : servosila_motor_controller)
    (can : network.can_socket) (w : world) (hm : self.m_operation_mode = UNDEFINED_MODE) :
    ∃ w', w'.wire = w.wire ∧
      (self.m_device_id ≠ 0 → ∃ self', self.execute can w = Except.ok (self', can, w')) ∧
      ((∃ self', self.execute can w = Except.ok (self', can, w')) ∨
        self.execute can w = Except.error (abort.assertion_failed, w')) := by
  by_cases h : can.is_connected = true ∧
      self.m_shaft_healthcheck_timer.check_at (w.time w.clock_reads) = false ∧
      self.m_state = SHAFT_TELEMETRY_COMING ∧
      self.m_rpdo_timer.check_at (w.time (w.clock_reads + 1)) = true
  · obtain ⟨hconn, hexp, hstate, hfire⟩ := h
    obtain ⟨timer, s, w3, hs, hw3, he⟩ := execute_emitting_run self can w hconn hexp hstate hfire
    have hsm : s.m_operation_mode = UNDEFINED_MODE := by rw [hs]; exact hm
    have hsid : s.m_device_id = self.m_device_id := by rw [hs]
    rw [he, router_undefined s can w3 hsm hconn, hsid]
    refine ⟨w3, by rw [hw3], ?_, ?_⟩
    · intro hid
      exact ⟨s, by simp [hid]⟩
    · by_cases hid : self.m_device_id = 0
      · right
        simp [hid]
      · left
        exact ⟨s, by simp [hid]⟩
  · obtain ⟨self', w', h1, h2⟩ := execute_quiet self can w h
    exact ⟨w', h2, fun _ => ⟨self', h1⟩, Or.inl ⟨self', h1⟩⟩

theorem halt_eq (self : servosila_motor_controller) (can : network.can_socket) (w : world) :
    self.halt can w =
      (member_in_world w
        (if self.m_state = SHAFT_TELEMETRY_COMING then
          (match self.m_operation_mode with
          | POSITION_MODE => self.set_position_command self.m_position_telemetry
          | SPEED_MODE => self.set_speed_command 0
          | AMPS_MODE => self.set_amps_command 0
          | UNDEFINED_MODE => Except.ok self)
        else Except.ok self.set_undefined_command) >>= fun s =>
        if can.is_connected = true then
          Prod.mk s <$> s._send_rpdo_as_per_current_operation_mode can w
        else Except.ok (s, can, w)) := by
  cases hc : can.is_connected <;> cases hs : self.m_state <;>
    cases hm : self.m_operation_mode <;>
    simp [halt, hc, hs, hm, member_in_world, bind, Except.bind, pure, Except.pure] <;>
    rfl

theorem halt_undefined_outcome (self : servosila_motor_controller)
    (can : network.can_socket) (w : world) (hm : self.m_operation_mode = UNDEFINED_MODE) :
    (self.m_device_id ≠ 0 ∨ can.is_connected = false →
      self.halt can w = Except.ok (self, can, w)) ∧
    (self.m_device_id = 0 → can.is_connected = true →
      self.halt can w = Except.error (abort.assertion_failed, w)) := by
  have hset : self.set_undefined_command = self := by
    simp only [set_undefined_command]
    rw [← hm]
  have hfirst : (if self.m_state = SHAFT_TELEMETRY_COMING then
        (match self.m_operation_mode with
        | POSITION_MODE => self.set_position_command self.m_position_telemetry
        | SPEED_MODE => self.set_speed_command 0
        | AMPS_MODE => self.set_amps_command 0
        | UNDEFINED_MODE => Except.ok self)
      else Except.ok self.set_undefined_command) = Except.ok self := by
    rw [hset, hm]
    simp
  rw [halt_eq, hfirst]
  refine ⟨?_, ?_⟩
  · intro h
    by_cases hconn : can.is_connected = true
    · have hid : self.m_device_id ≠ 0 := by
        rcases h with h | h
        · exact h
        · rw [hconn] at h
          exact absurd h (by decide)
      simp [member_in_world, bind, Except.bind, hconn, router_undefined self can w hm hconn,
        hid]
    · simp [member_in_world, bind, Except.bind, hconn]
  · intro hid hconn
    simp [member_in_world, bind, Except.bind, hconn, router_undefined self can w hm hconn, hid]

/-- C21: `set_undefined_command` returns the controller with the operation mode
`UNDEFINED_MODE` and every other member as it was (telemetry state, telemetry snapshot, stored
setpoints, fault counter).  While the operation mode is `UNDEFINED_MODE`, for both protocol
versions and every timer state, `execute` ends, returning or stopped at the node id assertion
of the encoder, in a world whose wire is the one it started with, the socket unchanged; and
`halt` returns controller, socket and world as they were, or stops at that assertion in the
world it was given.  Neither gives a frame to the transport.  With a non-zero node id both
return. -/
theorem undefined_mode_silent (self : servosila_motor_controller) (can : network.can_socket)
    (w : world) :
    self.set_undefined_command = { self with m_operation_mode := UNDEFINED_MODE } ∧
    (self.m_operation_mode = UNDEFINED_MODE →
      (∃ w', w'.wire = w.wire ∧
        (self.m_device_id ≠ 0 → ∃ self', self.execute can w = Except.ok (self', can, w')) ∧
        ((∃ self', self.execute can w = Except.ok (self', can, w')) ∨
          self.execute can w = Except.error (abort.assertion_failed, w'))) ∧
      (self.m_device_id ≠ 0 ∨ can.is_connected = false →
        self.halt can w = Except.ok (self, can, w)) ∧
      (self.halt can w = Except.ok (self, can, w) ∨
        self.halt can w = Except.error (abort.assertion_failed, w))) := by
  refine ⟨rfl, ?_⟩
  intro hm
  obtain ⟨h1, h2⟩ := halt_undefined_outcome self can w hm
  refine ⟨execute_undefined_outcome self can w hm, h1, ?_⟩
  by_cases hid : self.m_device_id = 0
  · cases hc : can.is_connected
    · exact Or.inl (h1 (Or.inr hc))
    · exact Or.inr (h2 hid hc)
  · exact Or.inl (h1 (Or.inl hid))

theorem undefined_mode_silent_witness :
    sample_controller.m_operation_mode = UNDEFINED_MODE ∧
    sample_controller.m_device_id ≠ 0 ∧
    (∃ w', w'.wire = (quiet_world 200).wire ∧
      ∃ self', sample_controller.execute open_socket (quiet_world 200) =
        Except.ok (self', open_socket, w')) ∧
    sample_controller.halt open_socket (quiet_world 200) =
      Except.ok (sample_controller, open_socket, quiet_world 200) := by
  obtain ⟨-, h⟩ := undefined_mode_silent sample_controller open_socket (quiet_world 200)
  obtain ⟨⟨w', hw, he, -⟩, hh, -⟩ := h (by decide)
  exact ⟨by decide, by decide, ⟨w', hw, he (by decide)⟩, hh (Or.inl (by decide))⟩


theorem set_position_command_eq (self : servosila_motor_controller) (position : Nat) :
    self.set_position_command position =
      if position ≤ self.m_max_position_limit ∧ position ≥ self.m_min_position_limit then
        Except.ok { self with m_operation_mode := POSITION_MODE, m_position_command := position }
      else Except.error (abort.assertion_failed, self) := by
  by_cases h1 : position ≤ self.m_max_position_limit <;>
    by_cases h2 : position ≥ self.m_min_position_limit <;>
    simp [set_position_command, assert_on, h1, h2, bind, Except.bind, pure, Except.pure]

theorem set_speed_command_eq (self : servosila_motor_controller) (speed : Int) :
    self.set_speed_command speed =
      if speed ≤ self.m_max_speed_limit ∧ speed ≥ self.m_min_speed_limit then
        Except.ok { self with m_operation_mode := SPEED_MODE, m_speed_command := speed }
      else Except.error (abort.assertion_failed, self) := by
  by_cases h1 : speed ≤ self.m_max_speed_limit <;>
    by_cases h2 : speed ≥ self.m_min_speed_limit <;>
    simp [set_speed_command, assert_on, h1, h2, bind, Except.bind, pure, Except.pure]

theorem set_amps_command_eq (self : servosila_motor_controller) (amps : Int) :
    self.set_amps_command amps =
      if amps ≤ self.m_max_amps_limit ∧ amps ≥ self.m_min_amps_limit then
        Except.ok { self with m_operation_mode := AMPS_MODE, m_amps_command := amps }
      else Except.error (abort.assertion_failed, self) := by
  by_cases h1 : amps ≤ self.m_max_amps_limit <;>
    by_cases h2 : amps ≥ self.m_min_amps_limit <;>
    simp [set_amps_command, assert_on, h1, h2, bind, Except.bind, pure, Except.pure]

theorem halt_eq_cases (self : servosila_motor_controller) (can : network.can_socket)
    (w : world) :
    (self.m_state = NO_SHAFT_TELEMETRY →
      self.halt can w =
        if can.is_connected = true then
          Prod.mk self.set_undefined_command <$>
            self.set_undefined_command._send_rpdo_as_per_current_operation_mode can w
        else Except.ok (self.set_undefined_command, can, w)) ∧
    (self.m_state = SHAFT_TELEMETRY_COMING → self.m_operation_mode = UNDEFINED_MODE →
      self.halt can w =
        if can.is_connected = true then
          Prod.mk self <$> self._send_rpdo_as_per_current_operation_mode can w
        else Except.ok (self, can, w)) ∧
    (self.m_state = SHAFT_TELEMETRY_COMING → self.m_operation_mode = POSITION_MODE →
      self.halt can w =
        if self.m_position_telemetry ≤ self.m_max_position_limit ∧
            self.m_position_telemetry ≥ self.m_min_position_limit then
          if can.is_connected = true then
            Prod.mk { self with
                m_operation_mode := POSITION_MODE,
                m_position_command := self.m_position_telemetry } <$>
              _send_rpdo_as_per_current_operation_mode
                { self with
                  m_operation_mode := POSITION_MODE,
                  m_position_command := self.m_position_telemetry } can w
          else Except.ok ({ self with
            m_operation_mode := POSITION_MODE,
            m_position_command := self.m_position_telemetry }, can, w)
        else Except.error (abort.assertion_failed, w)) ∧
    (self.m_state = SHAFT_TELEMETRY_COMING → self.m_operation_mode = SPEED_MODE →
      self.halt can w =
        if (0 : Int) ≤ self.m_max_speed_limit ∧ (0 : Int) ≥ self.m_min_speed_limit then
          if can.is_connected = true then
            Prod.mk { self with m_operation_mode := SPEED_MODE, m_speed_command := 0 } <$>
              _send_rpdo_as_per_current_operation_mode
                { self with m_operation_mode := SPEED_MODE, m_speed_command := 0 } can w
          else Except.ok ({ self with m_operation_mode := SPEED_MODE, m_speed_command := 0 },
            can, w)
        else Except.error (abort.assertion_failed, w)) ∧
    (self.m_state = SHAFT_TELEMETRY_COMING → self.m_operation_mode = AMPS_MODE →
      self.halt can w =
        if (0 : Int) ≤ self.m_max_amps_limit ∧ (0 : Int) ≥ self.m_min_amps_limit then
          if can.is_connected = true then
            Prod.mk { self with m_operation_mode := AMPS_MODE, m_amps_command := 0 } <$>
              _send_rpdo_as_per_current_operation_mode
                { self with m_operation_mode := AMPS_MODE, m_amps_command := 0 } can w
          else Except.ok ({ self with m_operation_mode := AMPS_MODE, m_amps_command := 0 },
            can, w)
        else Except.error (abort.assertion_failed, w)) := by
  refine ⟨?_, ?_, ?_, ?_, ?_⟩
  · intro hs
    rw [halt_eq]
    simp [hs, member_in_world, bind, Except.bind]
  · intro hs hm
    rw [halt_eq]
    simp [hs, hm, member_in_world, bind, Except.bind]
  · intro hs hm
    rw [halt_eq]
    simp only [hs, hm, if_true, set_position_command_eq]
    split <;> simp [member_in_world, bind, Except.bind]
  · intro hs hm
    rw [halt_eq]
    simp only [hs, hm, if_true, set_speed_command_eq]
    split <;> simp [member_in_world, bind, Except.bind]
  · intro hs hm
    rw [halt_eq]
    simp only [hs, hm, if_true, set_amps_command_eq]
    split <;> simp [member_in_world, bind, Except.bind]


theorem if_map_mk_eq_ok {c : Prop} [Decidable c] {s s' : servosila_motor_controller}
    {x : Except (abort × world) (network.can_socket × world)}
    {can can' : network.can_socket} {w w' : world}
    (h : (if c then Prod.mk s <$> x else Except.ok (s, can, w)) = Except.ok (s', can', w')) :
    s' = s := by
  by_cases hc : c
  · rw [if_pos hc] at h
    exact (map_mk_eq_ok h).1
  · rw [if_neg hc] at h
    simp only [Except.ok.injEq, Prod.mk.injEq] at h
    exact h.1.symm

theorem halt_result (self : servosila_motor_controller) (can : network.can_socket)
    (w : world) (self' : servosila_motor_controller) (can' : network.can_socket) (w' : world)
    (h : self.halt can w = Except.ok (self', can', w')) :
    (self.m_state = NO_SHAFT_TELEMETRY → self' = self.set_undefined_command) ∧
    (self.m_state = SHAFT_TELEMETRY_COMING → self.m_operation_mode = UNDEFINED_MODE →
      self' = self) ∧
    (self.m_state = SHAFT_TELEMETRY_COMING → self.m_operation_mode = POSITION_MODE →
      self' = { self with
        m_operation_mode := POSITION_MODE,
        m_position_command := self.m_position_telemetry } ∧
      self.m_position_telemetry ≤ self.m_max_position_limit ∧
      self.m_position_telemetry ≥ self.m_min_position_limit) ∧
    (self.m_state = SHAFT_TELEMETRY_COMING → self.m_operation_mode = SPEED_MODE →
      self' = { self with m_operation_mode := SPEED_MODE, m_speed_command := 0 } ∧
      (0 : Int) ≤ self.m_max_speed_limit ∧ (0 : Int) ≥ self.m_min_speed_limit) ∧
    (self.m_state = SHAFT_TELEMETRY_COMING → self.m_operation_mode = AMPS_MODE →
      self' = { self with m_operation_mode := AMPS_MODE, m_amps_command := 0 } ∧
      (0 : Int) ≤ self.m_max_amps_limit ∧ (0 : Int) ≥ self.m_min_amps_limit) := by
  obtain ⟨h1, h2, h3, h4, h5⟩ := halt_eq_cases self can w
  refine ⟨?_, ?_, ?_, ?_, ?_⟩
  · intro hs
    rw [h1 hs] at h
    exact if_map_mk_eq_ok h
  · intro hs hm
    rw [h2 hs hm] at h
    exact if_map_mk_eq_ok h
  · intro hs hm
    rw [h3 hs hm] at h
    by_cases hl : self.m_position_telemetry ≤ self.m_max_position_limit ∧
        self.m_position_telemetry ≥ self.m_min_position_limit
    · rw [if_pos hl] at h
      exact ⟨if_map_mk_eq_ok h, hl⟩
    · rw [if_neg hl] at h
      cases h
  · intro hs hm
    rw [h4 hs hm] at h
    by_cases hl : (0 : Int) ≤ self.m_max_speed_limit ∧ (0 : Int) ≥ self.m_min_speed_limit
    · rw [if_pos hl] at h
      exact ⟨if_map_mk_eq_ok h, hl⟩
    · rw [if_neg hl] at h
      cases h
  · intro hs hm
    rw [h5 hs hm] at h
    by_cases hl : (0 : Int) ≤ self.m_max_amps_limit ∧ (0 : Int) ≥ self.m_min_amps_limit
    · rw [if_pos hl] at h
      exact ⟨if_map_mk_eq_ok h, hl⟩
    · rw [if_neg hl] at h
      cases h

theorem halt_completes (self : servosila_motor_controller) (can : network.can_socket)
    (w : world)
    (hpos : self.m_state = SHAFT_TELEMETRY_COMING → self.m_operation_mode = POSITION_MODE →
      self.m_position_telemetry ≤ self.m_max_position_limit ∧
      self.m_position_telemetry ≥ self.m_min_position_limit)
    (hspeed : self.m_state = SHAFT_TELEMETRY_COMING → self.m_operation_mode = SPEED_MODE →
      (0 : Int) ≤ self.m_max_speed_limit ∧ (0 : Int) ≥ self.m_min_speed_limit)
    (hamps : self.m_state = SHAFT_TELEMETRY_COMING → self.m_operation_mode = AMPS_MODE →
      (0 : Int) ≤ self.m_max_amps_limit ∧ (0 : Int) ≥ self.m_min_amps_limit)
    (hsend : can.is_connected = true →
      self.m_device_id ≠ 0 ∧ 0 ≤ w.close_ret w.closes ∧
      ¬(self.m_protocol_version = PROTOCOL_VERSION_LEGACY ∧
        self.m_state = SHAFT_TELEMETRY_COMING ∧ self.m_operation_mode = AMPS_MODE)) :
    ∃ r, self.halt can w = Except.ok r := by
  obtain ⟨h1, h2, h3, h4, h5⟩ := halt_eq_cases self can w
  have key : ∀ s : servosila_motor_controller, s.m_device_id = self.m_device_id →
      s.m_protocol_version = self.m_protocol_version →
      (can.is_connected = true → self.m_protocol_version = PROTOCOL_VERSION_LEGACY →
        s.m_operation_mode ≠ AMPS_MODE) →
      ∃ r, (if can.is_connected = true then
          Prod.mk s <$> s._send_rpdo_as_per_current_operation_mode can w
        else Except.ok (s, can, w)) = Except.ok r := by
    intro s hid hv hm
    by_cases hc : can.is_connected = true
    · obtain ⟨hid', hclose, -⟩ := hsend hc
      obtain ⟨can', w', h, -⟩ := send_rpdo_completes s can w hc (by rw [hid]; exact hid')
        (by rw [hv]; exact hm hc) hclose
      exact ⟨_, by rw [if_pos hc, h]; rfl⟩
    · exact ⟨_, by rw [if_neg hc]⟩
  cases hs : self.m_state
  · rw [h1 hs]
    exact key _ rfl rfl (fun _ _ => by simp [set_undefined_command])
  · cases hm : self.m_operation_mode
    · rw [h2 hs hm]
      exact key _ rfl rfl (fun _ _ => by simp [hm])
    · rw [h3 hs hm, if_pos (hpos hs hm)]
      exact key _ rfl rfl (fun _ _ => by simp)
    · rw [h4 hs hm, if_pos (hspeed hs hm)]
      exact key _ rfl rfl (fun _ _ => by simp)
    · rw [h5 hs hm, if_pos (hamps hs hm)]
      exact key _ rfl rfl (fun hc hv => absurd ⟨hv, hs, hm⟩ (hsend hc).2.2)

/-- C22: every result of `halt` has the telemetry state it started with, and the command
neutralised: from `SHAFT_TELEMETRY_COMING` with `POSITION_MODE` the result is `POSITION_MODE`
with the position setpoint equal to the stored position telemetry, with `SPEED_MODE` it is
`SPEED_MODE` with speed setpoint 0, with `AMPS_MODE` it is `AMPS_MODE` with amps setpoint 0,
with `UNDEFINED_MODE` the controller is as it was; from `NO_SHAFT_TELEMETRY` the resulting mode
is `UNDEFINED_MODE`.  Nothing else in the controller changes.  `halt` does return whenever the
neutral setpoint lies within the configured limits and, for a connected transport, the node id
is not 0, the mode is one the protocol can encode and the kernel closes the socket without
error. -/
theorem halt_neutralises (self : servosila_motor_controller) (can : network.can_socket)
    (w : world) :
    (∀ self' can' w', self.halt can w = Except.ok (self', can', w') →
      self'.m_state = self.m_state ∧
      (self.m_state = SHAFT_TELEMETRY_COMING → self.m_operation_mode = POSITION_MODE →
        self' = { self with
          m_operation_mode := POSITION_MODE,
          m_position_command := self.m_position_telemetry }) ∧
      (self.m_state = SHAFT_TELEMETRY_COMING → self.m_operation_mode = SPEED_MODE →
        self' = { self with m_operation_mode := SPEED_MODE, m_speed_command := 0 }) ∧
      (self.m_state = SHAFT_TELEMETRY_COMING → self.m_operation_mode = AMPS_MODE →
        self' = { self with m_operation_mode := AMPS_MODE, m_amps_command := 0 }) ∧
      (self.m_state = SHAFT_TELEMETRY_COMING → self.m_operation_mode = UNDEFINED_MODE →
        self' = self) ∧
      (self.m_state = NO_SHAFT_TELEMETRY →
        self' = { self with m_operation_mode := UNDEFINED_MODE })) ∧
    ((self.m_state = SHAFT_TELEMETRY_COMING → self.m_operation_mode = POSITION_MODE →
        self.m_position_telemetry ≤ self.m_max_position_limit ∧
        self.m_position_telemetry ≥ self.m_min_position_limit) →
      (self.m_state = SHAFT_TELEMETRY_COMING → self.m_operation_mode = SPEED_MODE →
        (0 : Int) ≤ self.m_max_speed_limit ∧ (0 : Int) ≥ self.m_min_speed_limit) →
      (self.m_state = SHAFT_TELEMETRY_COMING → self.m_operation_mode = AMPS_MODE →
        (0 : Int) ≤ self.m_max_amps_limit ∧ (0 : Int) ≥ self.m_min_amps_limit) →
      (can.is_connected = true →
        self.m_device_id ≠ 0 ∧ 0 ≤ w.close_ret w.closes ∧
        ¬(self.m_protocol_version = PROTOCOL_VERSION_LEGACY ∧
          self.m_state = SHAFT_TELEMETRY_COMING ∧ self.m_operation_mode = AMPS_MODE)) →
      ∃ r, self.halt can w = Except.ok r) := by
  refine ⟨?_, halt_completes self can w⟩
  intro self' can' w' h
  obtain ⟨h1, h2, h3, h4, h5⟩ := halt_result self can w self' can' w' h
  refine ⟨?_, fun hs hm => (h3 hs hm).1, fun hs hm => (h4 hs hm).1, fun hs hm => (h5 hs hm).1,
    h2, h1⟩
  cases hs : self.m_state
  · rw [h1 hs]
    exact hs
  · cases hm : self.m_operation_mode
    · rw [h2 hs hm]
      exact hs
    · rw [(h3 hs hm).1]
      exact hs
    · rw [(h4 hs hm).1]
      exact hs
    · rw [(h5 hs hm).1]
      exact hs

theorem halt_neutralises_witness :
    sample_controller_running.m_state = SHAFT_TELEMETRY_COMING ∧
    sample_controller_running.m_operation_mode = POSITION_MODE ∧
    (∃ r, sample_controller_running.halt open_socket (quiet_world 100) = Except.ok r) ∧
    (sample_controller_running.halt open_socket (quiet_world 100)).map
        (fun r => (r.1.m_state, r.1.m_operation_mode, r.1.m_position_command)) =
      Except.ok (SHAFT_TELEMETRY_COMING, POSITION_MODE,
        sample_controller_running.m_position_telemetry) := by
  have h := halt_neutralises sample_controller_running open_socket (quiet_world 100)
  obtain ⟨r, hr⟩ := h.2 (fun _ _ => by decide) (fun _ _ => by decide) (fun _ _ => by decide)
    (fun _ => by decide)
  obtain ⟨h1, h2, -⟩ := h.1 r.1 r.2.1 r.2.2 hr
  refine ⟨by decide, by decide, ⟨r, hr⟩, ?_⟩
  rw [hr]
  simp only [Except.map, h1, h2 (by decide) (by decide)]
  rfl

theorem halt_stages (self : servosila_motor_controller) (can : network.can_socket)
    (w : world) :
    self.halt can w = Except.error (abort.assertion_failed, w) ∨
    ∃ s : servosila_motor_controller,
      s.m_device_id = self.m_device_id ∧ s.m_protocol_version = self.m_protocol_version ∧
      s.m_rpdo_timer = self.m_rpdo_timer ∧
      s.m_operation_mode =
        (if self.m_state = SHAFT_TELEMETRY_COMING then self.m_operation_mode
          else UNDEFINED_MODE) ∧
      self.halt can w =
        if can.is_connected = true then
          Prod.mk s <$> s._send_rpdo_as_per_current_operation_mode can w
        else Except.ok (s, can, w) := by
  obtain ⟨h1, h2, h3, h4, h5⟩ := halt_eq_cases self can w
  cases hs : self.m_state
  · exact Or.inr ⟨self.set_undefined_command, rfl, rfl, rfl,
      by simp [set_undefined_command, hs], h1 hs⟩
  · cases hm : self.m_operation_mode
    · exact Or.inr ⟨self, rfl, rfl, rfl, by simp [hm], h2 hs hm⟩
    · by_cases hl : self.m_position_telemetry ≤ self.m_max_position_limit ∧
          self.m_position_telemetry ≥ self.m_min_position_limit
      · exact Or.inr ⟨{ self with
          m_operation_mode := POSITION_MODE,
          m_position_command := self.m_position_telemetry }, rfl, rfl, rfl, by simp,
          by rw [h3 hs hm, if_pos hl]⟩
      · exact Or.inl (by rw [h3 hs hm, if_neg hl])
    · by_cases hl : (0 : Int) ≤ self.m_max_speed_limit ∧ (0 : Int) ≥ self.m_min_speed_limit
      · exact Or.inr ⟨{ self with m_operation_mode := SPEED_MODE, m_speed_command := 0 },
          rfl, rfl, rfl, by simp, by rw [h4 hs hm, if_pos hl]⟩
      · exact Or.inl (by rw [h4 hs hm, if_neg hl])
    · by_cases hl : (0 : Int) ≤ self.m_max_amps_limit ∧ (0 : Int) ≥ self.m_min_amps_limit
      · exact Or.inr ⟨{ self with m_operation_mode := AMPS_MODE, m_amps_command := 0 },
          rfl, rfl, rfl, by simp, by rw [h5 hs hm, if_pos hl]⟩
      · exact Or.inl (by rw [h5 hs hm, if_neg hl])

theorem halt_silent (self : servosila_motor_controller) (can : network.can_socket)
    (w : world)
    (h : can.is_connected = false ∨ self.m_state = NO_SHAFT_TELEMETRY ∨
      self.m_operation_mode = UNDEFINED_MODE) :
    (∀ r, self.halt can w = Except.ok r → r.2 = (can, w)) ∧
    (∀ e, self.halt can w = Except.error e → e.2 = w) := by
  rcases halt_stages self can w with he | ⟨s, hid, -, -, hmode, hs⟩
  · rw [he]
    exact ⟨fun r hr => (by cases hr), fun e h' => (by cases h'; rfl)⟩
  · rw [hs]
    by_cases hc : can.is_connected = true
    · have hm : s.m_operation_mode = UNDEFINED_MODE := by
        rw [hmode]
        rcases h with h | h | h
        · rw [hc] at h
          cases h
        · simp [h]
        · simp [h]
      rw [if_pos hc, router_undefined s can w hm hc]
      by_cases hz : s.m_device_id ≠ 0
      · rw [if_pos hz]
        exact ⟨fun r hr => (by cases hr; rfl), fun e h' => (by cases h')⟩
      · rw [if_neg hz]
        exact ⟨fun r hr => (by cases hr), fun e h' => (by cases h'; rfl)⟩
    · rw [if_neg hc]
      exact ⟨fun r hr => (by cases hr; rfl), fun e h' => (by cases h')⟩

theorem halt_one_frame (self : servosila_motor_controller) (can : network.can_socket)
    (w : world) (hc : can.is_connected = true) (hs : self.m_state = SHAFT_TELEMETRY_COMING)
    (hm : self.m_operation_mode ≠ UNDEFINED_MODE) (hid : self.m_device_id ≠ 0)
    (hclose : 0 ≤ w.close_ret w.closes)
    (hleg : self.m_protocol_version = PROTOCOL_VERSION_LEGACY →
      self.m_operation_mode ≠ AMPS_MODE)
    (hpos : self.m_operation_mode = POSITION_MODE →
      self.m_position_telemetry ≤ self.m_max_position_limit ∧
      self.m_position_telemetry ≥ self.m_min_position_limit)
    (hspeed : self.m_operation_mode = SPEED_MODE →
      (0 : Int) ≤ self.m_max_speed_limit ∧ (0 : Int) ≥ self.m_min_speed_limit)
    (hamps : self.m_operation_mode = AMPS_MODE →
      (0 : Int) ≤ self.m_max_amps_limit ∧ (0 : Int) ≥ self.m_min_amps_limit) :
    ∃ self' can' w' frame,
      self.halt can w = Except.ok (self', can', w') ∧
      w'.wire = w.wire ++ [frame] ∧
      w'.clock_reads = w.clock_reads ∧ w'.time = w.time ∧
      self'.m_rpdo_timer = self.m_rpdo_timer ∧
      self'.m_operation_mode = self.m_operation_mode ∧
      self'._send_rpdo_as_per_current_operation_mode can w = Except.ok (can', w') := by
  obtain ⟨r, hr⟩ := halt_completes self can w (fun _ => hpos) (fun _ => hspeed)
    (fun _ => hamps) (fun _ => ⟨hid, hclose, fun h => hleg h.1 h.2.2⟩)
  rcases halt_stages self can w with he | ⟨s, hid', hv, ht, hmode, hh⟩
  · rw [he] at hr
    cases hr
  · rw [if_pos hs] at hmode
    obtain ⟨can', w', frame, hsend, hwire, htime, hclock, -⟩ :=
      send_rpdo_one_frame s can w hc (by rw [hid']; exact hid) hclose
        (by rw [hmode]; exact hm) (by rw [hv, hmode]; exact hleg)
    refine ⟨s, can', w', frame, ?_, hwire, hclock, htime, ht, hmode, hsend⟩
    rw [hh, if_pos hc, hsend]
    rfl

/-- C23 (as stated, refuted): with a connected transport `halt` can return without handing the
transport any frame.  The sample controller has no shaft telemetry, so `halt` switches it to
`UNDEFINED_MODE`, for which the command encoder sends nothing; the idle controller has
telemetry and is in `UNDEFINED_MODE`, with the same result. -/
theorem halt_connected_without_frame_counterexample :
    open_socket.is_connected = true ∧
    sample_controller.m_state = NO_SHAFT_TELEMETRY ∧
    sample_controller.halt open_socket (quiet_world 100) =
      Except.ok (sample_controller, open_socket, quiet_world 100) ∧
    sample_controller_idle.m_state = SHAFT_TELEMETRY_COMING ∧
    sample_controller_idle.halt open_socket (quiet_world 100) =
      Except.ok (sample_controller_idle, open_socket, quiet_world 100) ∧
    (quiet_world 100).wire = [] :=
  ⟨by decide, by decide,
    (halt_undefined_outcome sample_controller open_socket (quiet_world 100) (by decide)).1
      (Or.inl (by decide)),
    by decide,
    (halt_undefined_outcome sample_controller_idle open_socket (quiet_world 100)
      (by decide)).1 (Or.inl (by decide)),
    rfl⟩

/-- C23 (amended): `halt` hands the transport exactly one command frame when the transport is
connected, shaft telemetry is coming and the operation mode is `POSITION_MODE`, `SPEED_MODE`
or `AMPS_MODE` (given that the neutral setpoint lies within the configured limits, the node id
is not 0, the protocol can encode the mode and the kernel closes the socket without error):
the frame is the one the command encoder produces for the resulting controller, the clock is
not read and the RPDO timer is left as it was.  When the transport is disconnected, or there
is no shaft telemetry, or the mode is `UNDEFINED_MODE`, no outcome of `halt` puts a frame on
the wire: the world is the one `halt` started in. -/
theorem halt_frame (self : servosila_motor_controller) (can : network.can_socket)
    (w : world) :
    (can.is_connected = true → self.m_state = SHAFT_TELEMETRY_COMING →
      self.m_operation_mode ≠ UNDEFINED_MODE → self.m_device_id ≠ 0 →
      0 ≤ w.close_ret w.closes →
      (self.m_protocol_version = PROTOCOL_VERSION_LEGACY →
        self.m_operation_mode ≠ AMPS_MODE) →
      (self.m_operation_mode = POSITION_MODE →
        self.m_position_telemetry ≤ self.m_max_position_limit ∧
        self.m_position_telemetry ≥ self.m_min_position_limit) →
      (self.m_operation_mode = SPEED_MODE →
        (0 : Int) ≤ self.m_max_speed_limit ∧ (0 : Int) ≥ self.m_min_speed_limit) →
      (self.m_operation_mode = AMPS_MODE →
        (0 : Int) ≤ self.m_max_amps_limit ∧ (0 : Int) ≥ self.m_min_amps_limit) →
      ∃ self' can' w' frame,
        self.halt can w = Except.ok (self', can', w') ∧
        w'.wire = w.wire ++ [frame] ∧
        w'.clock_reads = w.clock_reads ∧ w'.time = w.time ∧
        self'.m_rpdo_timer = self.m_rpdo_timer ∧
        self'.m_operation_mode = self.m_operation_mode ∧
        self'._send_rpdo_as_per_current_operation_mode can w = Except.ok (can', w')) ∧
    (can.is_connected = false ∨ self.m_state = NO_SHAFT_TELEMETRY ∨
        self.m_operation_mode = UNDEFINED_MODE →
      (∀ r, self.halt can w = Except.ok r → r.2 = (can, w)) ∧
      (∀ e, self.halt can w = Except.error e → e.2 = w)) :=
  ⟨halt_one_frame self can w, halt_silent self can w⟩

theorem halt_frame_witness :
    (∃ self' can' w' frame,
      sample_controller_running.halt open_socket (quiet_world 100) =
        Except.ok (self', can', w') ∧
      w'.wire = (quiet_world 100).wire ++ [frame] ∧
      w'.clock_reads = (quiet_world 100).clock_reads ∧
      self'.m_rpdo_timer = sample_controller_running.m_rpdo_timer) ∧
    (∀ r, sample_controller_running.halt closed_socket (quiet_world 100) = Except.ok r →
      r.2 = (closed_socket, quiet_world 100)) := by
  have h := halt_frame sample_controller_running open_socket (quiet_world 100)
  obtain ⟨self', can', w', frame, h1, h2, h3, -, h4, -⟩ := h.1 (by decide) (by decide)
    (by decide) (by decide) (by decide) (by decide) (fun _ => by decide) (fun _ => by decide)
    (fun _ => by decide)
  exact ⟨⟨self', can', w', frame, h1, h2, h3, h4⟩,
    ((halt_frame sample_controller_running closed_socket (quiet_world 100)).2
      (Or.inl (by decide))).1⟩

/-- C24: `halt` aborts in a state reached through the public operations alone.  The sample
controller (constructed, configured for node 5 with position limits 0..1000) accepts the
in-range position setpoint 500 and then processes a primary telemetry frame that reports
position 2000.  `halt` then calls `set_position_command 2000`, whose range assertion fails,
whether the transport is connected or not; no frame is sent. -/
theorem halt_aborts_on_reachable_state :
    ∃ s1 s2 w2,
      sample_controller.set_position_command 500 = Except.ok s1 ∧
      s1.process_canbus_callback open_socket (quiet_world 100)
        [0, 0, 0xD0, 0x07, 0, 0, 0, 0] 8 0x185 = Except.ok (true, s2, open_socket, w2) ∧
      s2.m_state = SHAFT_TELEMETRY_COMING ∧ s2.m_operation_mode = POSITION_MODE ∧
      s2.m_position_telemetry = 2000 ∧ s2.m_max_position_limit = 1000 ∧
      w2.wire = [] ∧
      s2.halt open_socket w2 = Except.error (abort.assertion_failed, w2) ∧
      s2.halt closed_socket w2 = Except.error (abort.assertion_failed, w2) :=
  ⟨_, _, _, rfl, rfl, rfl, rfl, rfl, rfl, rfl, rfl, rfl⟩

theorem callback_truncates (self : servosila_motor_controller) (can : network.can_socket)
    (w : world) (buffer : List Nat) (bytes_received source_can_id : Nat) :
    self.process_canbus_callback can w buffer bytes_received source_can_id =
      self.process_canbus_callback can w buffer bytes_received (source_can_id % 65536) := by
  simp only [process_canbus_callback, Nat.mod_mod]

theorem callback_general (self : servosila_motor_controller) (can : network.can_socket)
    (w : world) (buffer : List Nat) (bytes_received source_can_id : Nat) :
    self.process_canbus_callback can w buffer bytes_received source_can_id =
      if source_can_id &&& 0x7F = self.m_device_id then
        if source_can_id % 65536 ≤ 2047 then
          if (source_can_id % 65536) &&& 0x780 = 0x180 then
            (in_world w (self._parse_tpdo1 buffer bytes_received) >>= fun s =>
              s._process_faults can w >>= fun r =>
                Except.ok (true,
                  { r.1 with
                    m_shaft_healthcheck_timer :=
                      (r.1.m_shaft_healthcheck_timer.restart r.2.2).1,
                    m_state := SHAFT_TELEMETRY_COMING },
                  r.2.1, (r.1.m_shaft_healthcheck_timer.restart r.2.2).2))
          else if (source_can_id % 65536) &&& 0x780 = 0x280 then
            (in_world w (self._parse_tpdo2 buffer bytes_received) >>= fun s =>
              Except.ok (true, s, can, w))
          else if (source_can_id % 65536) &&& 0x780 = 0x380 then
            (in_world w (self._parse_tpdo3 buffer bytes_received) >>= fun s =>
              Except.ok (true, s, can, w))
          else if (source_can_id % 65536) &&& 0x780 = 0x480 then Except.ok (true, self, can, w)
          else Except.ok (false, self, can, w)
        else Except.error (abort.assertion_failed, w)
      else Except.ok (false, self, can, w) := by
  by_cases hnode : source_can_id &&& 0x7F = self.m_device_id
  · rw [if_pos hnode]
    by_cases hid : source_can_id % 65536 ≤ 2047
    · rw [if_pos hid, callback_truncates]
      exact callback_routed self can w buffer bytes_received (source_can_id % 65536)
        (by rw [low7_of_truncated]; exact hnode) hid
    · rw [if_neg hid]
      exact callback_wide_id self can w buffer bytes_received source_can_id hnode (by omega)
  · rw [if_neg hnode]
    exact callback_other_node self can w buffer bytes_received source_can_id hnode

theorem channel_cob_id (q n : Nat) (hq : q < 16) (hn : n ≤ 127) :
    (128 * q + n) &&& 0x7F = n ∧ (128 * q + n) % 65536 ≤ 2047 ∧
    ((128 * q + n) % 65536) &&& 0x780 = 128 * q := by
  obtain ⟨h1, h2⟩ := cob_id_split q hq n (by omega)
  have h3 : (128 * q + n) % 65536 = 128 * q + n := Nat.mod_eq_of_lt (by omega)
  rw [h3]
  exact ⟨h2, by omega, h1⟩

theorem callback_tpdo2_eq (self : servosila_motor_controller) (can : network.can_socket)
    (w : world) (buffer : List Nat) (bytes_received : Nat) (hid : self.m_device_id ≤ 127) :
    self.process_canbus_callback can w buffer bytes_received (0x280 + self.m_device_id) =
      (in_world w (self._parse_tpdo2 buffer bytes_received) >>= fun s =>
        Except.ok (true, s, can, w)) := by
  obtain ⟨h1, h2, h3⟩ := channel_cob_id 5 self.m_device_id (by decide) hid
  rw [callback_general, if_pos h1, if_pos h2, if_neg (by rw [h3]; decide), if_pos h3]

theorem callback_tpdo3_eq (self : servosila_motor_controller) (can : network.can_socket)
    (w : world) (buffer : List Nat) (bytes_received : Nat) (hid : self.m_device_id ≤ 127) :
    self.process_canbus_callback can w buffer bytes_received (0x380 + self.m_device_id) =
      (in_world w (self._parse_tpdo3 buffer bytes_received) >>= fun s =>
        Except.ok (true, s, can, w)) := by
  obtain ⟨h1, h2, h3⟩ := channel_cob_id 7 self.m_device_id (by decide) hid
  rw [callback_general, if_pos h1, if_pos h2, if_neg (by rw [h3]; decide),
    if_neg (by rw [h3]; decide), if_pos h3]

theorem read_uint16_frame (b0 b1 b2 b3 b4 b5 b6 b7 : Nat) (rest : List Nat) :
    read_uint16 (b0 :: b1 :: b2 :: b3 :: b4 :: b5 :: b6 :: b7 :: rest) 0 =
      Except.ok (b0 + 256 * b1) ∧
    read_uint16 (b0 :: b1 :: b2 :: b3 :: b4 :: b5 :: b6 :: b7 :: rest) 2 =
      Except.ok (b2 + 256 * b3) ∧
    read_uint16 (b0 :: b1 :: b2 :: b3 :: b4 :: b5 :: b6 :: b7 :: rest) 4 =
      Except.ok (b4 + 256 * b5) ∧
    read_uint16 (b0 :: b1 :: b2 :: b3 :: b4 :: b5 :: b6 :: b7 :: rest) 6 =
      Except.ok (b6 + 256 * b7) := by
  simp [read_uint16]

theorem to_int16_bytes (lo hi : Nat) (hlo : lo < 256) (hhi : hi < 256) :
    to_int16 (lo + 256 * hi) =
      if lo + 256 * hi < 32768 then ((lo + 256 * hi : Nat) : Int)
      else ((lo + 256 * hi : Nat) : Int) - 65536 := by
  have h : (lo + 256 * hi) % 65536 = lo + 256 * hi := Nat.mod_eq_of_lt (by omega)
  simp only [to_int16, h]

theorem parse_short (self : servosila_motor_controller) (buffer : List Nat)
    (bytes_received : Nat) (h : bytes_received ≠ 8) :
    self._parse_tpdo1 buffer bytes_received = Except.ok self ∧
    self._parse_tpdo2 buffer bytes_received = Except.ok self ∧
    self._parse_tpdo3 buffer bytes_received = Except.ok self := by
  cases hv : self.m_protocol_version <;>
    simp [_parse_tpdo1, _parse_tpdo2, _parse_tpdo3, _parse_tpdo1_legacy_protocol,
      _parse_tpdo1_protocol_2_0, _parse_tpdo2_legacy_protocol, _parse_tpdo3_legacy_protocol,
      hv, h, assert, bind, Except.bind, pure, Except.pure]

theorem parse_frame_2_0 (self : servosila_motor_controller) (b0 b1 b2 b3 b4 b5 b6 b7 : Nat)
    (rest : List Nat) (hv : self.m_protocol_version = PROTOCOL_VERSION_2_0) :
    self._parse_tpdo1 (b0 :: b1 :: b2 :: b3 :: b4 :: b5 :: b6 :: b7 :: rest) 8 =
      Except.ok { self with
        m_status_telemetry := b0 + 256 * b1,
        m_position_telemetry := b2 + 256 * b3,
        m_speed_telemetry := to_int16 (b4 + 256 * b5),
        m_amps_telemetry := to_int16 (b6 + 256 * b7) } := by
  obtain ⟨h0, h2, h4, h6⟩ := read_uint16_frame b0 b1 b2 b3 b4 b5 b6 b7 rest
  simp [_parse_tpdo1, _parse_tpdo1_protocol_2_0, hv, h0, h2, h4, h6, assert, bind, Except.bind,
    pure, Except.pure]

theorem parse_frame_legacy (self : servosila_motor_controller)
    (b0 b1 b2 b3 b4 b5 b6 b7 : Nat) (rest : List Nat)
    (hv : self.m_protocol_version = PROTOCOL_VERSION_LEGACY) :
    (self.m_is_position_encoder_available = true →
      self._parse_tpdo1 (b0 :: b1 :: b2 :: b3 :: b4 :: b5 :: b6 :: b7 :: rest) 8 =
        Except.ok { self with m_position_telemetry := b4 + 256 * b5 }) ∧
    (self.m_is_position_encoder_available = false →
      self._parse_tpdo1 (b0 :: b1 :: b2 :: b3 :: b4 :: b5 :: b6 :: b7 :: rest) 8 =
        Except.ok { self with m_speed_telemetry := to_int16 (b4 + 256 * b5) }) ∧
    (self.m_is_position_encoder_available = true →
      self._parse_tpdo2 (b0 :: b1 :: b2 :: b3 :: b4 :: b5 :: b6 :: b7 :: rest) 8 =
        Except.ok { self with m_speed_telemetry := to_int16 (b4 + 256 * b5) }) ∧
    (self.m_is_position_encoder_available = false →
      self._parse_tpdo2 (b0 :: b1 :: b2 :: b3 :: b4 :: b5 :: b6 :: b7 :: rest) 8 =
        Except.error abort.assertion_failed) ∧
    self._parse_tpdo3 (b0 :: b1 :: b2 :: b3 :: b4 :: b5 :: b6 :: b7 :: rest) 8 =
      Except.ok { self with m_faults_telemetry := b0 + 256 * b1 } := by
  obtain ⟨h0, h2, h4, h6⟩ := read_uint16_frame b0 b1 b2 b3 b4 b5 b6 b7 rest
  refine ⟨?_, ?_, ?_, ?_, ?_⟩
  · intro he
    simp [_parse_tpdo1, _parse_tpdo1_legacy_protocol, hv, he, h4, assert, bind, Except.bind,
      pure, Except.pure]
  · intro he
    simp [_parse_tpdo1, _parse_tpdo1_legacy_protocol, hv, he, h4, assert, bind, Except.bind,
      pure, Except.pure]
  · intro he
    simp [_parse_tpdo2, _parse_tpdo2_legacy_protocol, hv, he, h4, assert, bind, Except.bind,
      pure, Except.pure]
  · intro he
    simp [_parse_tpdo2, _parse_tpdo2_legacy_protocol, hv, he, assert, bind, Except.bind,
      pure, Except.pure]
  · simp [_parse_tpdo3, _parse_tpdo3_legacy_protocol, hv, h0, assert, bind, Except.bind,
      pure, Except.pure]

theorem process_faults_result (self : servosila_motor_controller) (can : network.can_socket)
    (w : world) (hclose : 0 ≤ w.close_ret w.closes) :
    ∃ n can' w', self._process_faults can w =
        Except.ok ({ self with m_fault_ack_counter := n }, can', w') ∧
      w'.time = w.time ∧ w'.clock_reads = w.clock_reads := by
  by_cases hack : self.m_protocol_version = PROTOCOL_VERSION_2_0 ∧
      self.m_status_telemetry &&& 0x7F00 ≠ 0 ∧ can.is_connected = true
  · obtain ⟨can', w', h, -, ht, hr⟩ :=
      process_faults_ack self can w hack.1 hack.2.1 hack.2.2 hclose
    exact ⟨self.m_fault_ack_counter + 1, can', w', h, ht, hr⟩
  · refine ⟨self.m_fault_ack_counter, can, w, ?_, rfl, rfl⟩
    apply process_faults_none
    by_cases hv : self.m_protocol_version = PROTOCOL_VERSION_LEGACY
    · exact Or.inl hv
    · by_cases hf : self.m_status_telemetry &&& 0x7F00 = 0
      · exact Or.inr (Or.inl hf)
      · refine Or.inr (Or.inr ?_)
        have hv2 : self.m_protocol_version = PROTOCOL_VERSION_2_0 := by
          cases h : self.m_protocol_version
          · exact absurd h hv
          · rfl
        cases hc : can.is_connected
        · rfl
        · exact absurd ⟨hv2, hf, hc⟩ hack

/-- C25: under the 2.0 protocol, `process_canbus_callback` on a primary telemetry frame
(COB-ID `0x180 +` the configured 7-bit node id) of 8 bytes `b0 .. b7` returns processed and
leaves the snapshot with status `b0 + 256 * b1`, position `b2 + 256 * b3`, speed the signed
16-bit two's-complement reading of `b4 + 256 * b5` and amps that of `b6 + 256 * b7`; the
state is `SHAFT_TELEMETRY_COMING`, so the four getters return these values.  The kernel closes
the socket without error, should an unplugged device make the transport do so while a fault
is acknowledged. -/
theorem primary_telemetry_2_0 (self : servosila_motor_controller) (can : network.can_socket)
    (w : world) (b0 b1 b2 b3 b4 b5 b6 b7 : Nat) (rest : List Nat)
    (hv : self.m_protocol_version = PROTOCOL_VERSION_2_0) (hid : self.m_device_id ≤ 127)
    (hb : ∀ b ∈ [b0, b1, b2, b3, b4, b5, b6, b7], b < 256)
    (hclose : 0 ≤ w.close_ret w.closes) :
    ∃ self' can' w',
      self.process_canbus_callback can w (b0 :: b1 :: b2 :: b3 :: b4 :: b5 :: b6 :: b7 :: rest)
        8 (0x180 + self.m_device_id) = Except.ok (true, self', can', w') ∧
      self'.m_status_telemetry = b0 + 256 * b1 ∧
      self'.m_position_telemetry = b2 + 256 * b3 ∧
      self'.m_speed_telemetry =
        (if b4 + 256 * b5 < 32768 then ((b4 + 256 * b5 : Nat) : Int)
          else ((b4 + 256 * b5 : Nat) : Int) - 65536) ∧
      self'.m_amps_telemetry =
        (if b6 + 256 * b7 < 32768 then ((b6 + 256 * b7 : Nat) : Int)
          else ((b6 + 256 * b7 : Nat) : Int) - 65536) ∧
      self'.get_status_telemetry = Except.ok self'.m_status_telemetry ∧
      self'.get_position_telemetry = Except.ok self'.m_position_telemetry ∧
      self'.get_speed_telemetry = Except.ok self'.m_speed_telemetry ∧
      self'.get_amps_telemetry = Except.ok self'.m_amps_telemetry := by
  obtain ⟨s, hs⟩ : ∃ s : servosila_motor_controller, s = { self with
      m_status_telemetry := b0 + 256 * b1,
      m_position_telemetry := b2 + 256 * b3,
      m_speed_telemetry := to_int16 (b4 + 256 * b5),
      m_amps_telemetry := to_int16 (b6 + 256 * b7) } := ⟨_, rfl⟩
  have hparse := parse_frame_2_0 self b0 b1 b2 b3 b4 b5 b6 b7 rest hv
  rw [← hs] at hparse
  obtain ⟨n, can', w', hf, -, -⟩ := process_faults_result s can w hclose
  have h4 := to_int16_bytes b4 b5 (hb b4 (by simp)) (hb b5 (by simp))
  have h6 := to_int16_bytes b6 b7 (hb b6 (by simp)) (hb b7 (by simp))
  refine ⟨{ s with
      m_fault_ack_counter := n,
      m_shaft_healthcheck_timer := (s.m_shaft_healthcheck_timer.restart w').1,
      m_state := SHAFT_TELEMETRY_COMING }, can', (s.m_shaft_healthcheck_timer.restart w').2,
    ?_, ?_, ?_, ?_, ?_, rfl, rfl, rfl, rfl⟩
  · rw [callback_tpdo1_eq self can w _ 8 hid, hparse]
    simp only [in_world, bind, Except.bind, hf]
  · simp only [hs]
  · simp only [hs]
  · simp only [hs]
    exact h4
  · simp only [hs]
    exact h6

theorem primary_telemetry_2_0_witness :
    ∃ self' can' w',
      sample_controller.process_canbus_callback open_socket (quiet_world 100)
        [0x00, 0x00, 0xF4, 0x01, 0, 0, 0, 0] 8 0x185 = Except.ok (true, self', can', w') ∧
      self'.get_position_telemetry = Except.ok 500 := by
  obtain ⟨self', can', w', h, -, hp, -, -, -, hg, -⟩ :=
    primary_telemetry_2_0 sample_controller open_socket (quiet_world 100)
      0x00 0x00 0xF4 0x01 0 0 0 0 [] (by decide) (by decide) (by decide) (by decide)
  exact ⟨self', can', w', h, by rw [hg, hp]⟩

theorem parse_preserves (self : servosila_motor_controller) (buffer : List Nat)
    (bytes_received : Nat) (s : servosila_motor_controller)
    (h : self._parse_tpdo1 buffer bytes_received = Except.ok s ∨
      self._parse_tpdo2 buffer bytes_received = Except.ok s ∨
      self._parse_tpdo3 buffer bytes_received = Except.ok s) :
    s.m_device_id = self.m_device_id ∧ s.m_protocol_version = self.m_protocol_version ∧
    s.m_fault_ack_counter = self.m_fault_ack_counter ∧
    s.m_state = self.m_state ∧ s.m_operation_mode = self.m_operation_mode ∧
    (self.m_protocol_version = PROTOCOL_VERSION_LEGACY →
      s.m_status_telemetry = self.m_status_telemetry ∧
      s.m_amps_telemetry = self.m_amps_telemetry) := by
  by_cases hn : bytes_received = 8
  · rcases h with h | h | h
    · cases hv : self.m_protocol_version
      · cases he : self.m_is_position_encoder_available <;>
          simp only [_parse_tpdo1, _parse_tpdo1_legacy_protocol, hv, he, hn, assert, bind,
            Except.bind, pure, Except.pure, if_true] at h <;>
          generalize read_uint16 buffer 4 = r at h <;> cases r <;> simp at h <;>
          rw [← h] <;> simp [hv]
      · simp only [_parse_tpdo1, _parse_tpdo1_protocol_2_0, hv, hn, assert, bind,
          Except.bind, pure, Except.pure, if_true] at h
        generalize read_uint16 buffer 0 = r0 at h
        generalize read_uint16 buffer 2 = r2 at h
        generalize read_uint16 buffer 4 = r4 at h
        generalize read_uint16 buffer 6 = r6 at h
        cases r0 <;> cases r2 <;> cases r4 <;> cases r6 <;> simp at h
        rw [← h]
        simp [hv]
    · cases hv : self.m_protocol_version
      · cases he : self.m_is_position_encoder_available <;>
          simp only [_parse_tpdo2, _parse_tpdo2_legacy_protocol, hv, he, hn, assert, bind,
            Except.bind, pure, Except.pure, if_true] at h
        · simp at h
        · generalize read_uint16 buffer 4 = r at h
          cases r <;> simp at h
          rw [← h]
          simp [hv]
      · simp only [_parse_tpdo2, hv, pure, Except.pure, Except.ok.injEq] at h
        rw [← h]
        simp [hv]
    · cases hv : self.m_protocol_version
      · simp only [_parse_tpdo3, _parse_tpdo3_legacy_protocol, hv, hn, assert, bind,
          Except.bind, pure, Except.pure, if_true] at h
        generalize read_uint16 buffer 0 = r at h
        cases r <;> simp at h
        rw [← h]
        simp [hv]
      · simp only [_parse_tpdo3, hv, pure, Except.pure, Except.ok.injEq] at h
        rw [← h]
        simp [hv]
  · obtain ⟨h1, h2, h3⟩ := parse_short self buffer bytes_received hn
    rw [h1, h2, h3] at h
    simp only [Except.ok.injEq, or_self] at h
    rw [← h]
    exact ⟨rfl, rfl, rfl, rfl, rfl, fun _ => ⟨rfl, rfl⟩⟩

theorem send_outcome (can : network.can_socket) (w : world) (dest : Nat) (payload : List Nat)
    (size : Nat) (hc : can.is_connected = true) (hs : size ≤ 8) (hp : size ≤ payload.length) :
    (∃ r can' w', can.send w dest payload size = Except.ok (r, can', w') ∧
      w'.wire = w.wire ++ [⟨dest, size, payload.take size⟩] ∧
      w'.time = w.time ∧ w'.clock_reads = w.clock_reads) ∨
    (∃ w', can.send w dest payload size = Except.error (abort.assertion_failed, w') ∧
      w'.wire = w.wire ++ [⟨dest, size, payload.take size⟩] ∧
      w.write_ret w.wire.length = -1 ∧
      (w.write_errno w.wire.length = ENODEV ∨ w.write_errno w.wire.length = ENXIO) ∧
      w.close_ret w.closes < 0) := by
  by_cases hclose : 0 ≤ w.close_ret w.closes
  · obtain ⟨r, can', w', h, hw, ht, hr, -⟩ := send_connected can w dest payload size hc hs hp hclose
    exact Or.inl ⟨r, can', w', h, hw, ht, hr⟩
  · have hfd : can.m_socket_fd ≠ -1 := by
      simpa [network.can_socket.is_connected] using hc
    by_cases hw : w.write_ret w.wire.length = -1
    · by_cases he : w.write_errno w.wire.length = ENODEV ∨ w.write_errno w.wire.length = ENXIO
      · refine Or.inr ⟨{ w with
            wire := w.wire ++ [⟨dest, size, payload.take size⟩],
            closes := w.closes + 1 }, ?_, rfl, hw, he, Int.not_le.mp hclose⟩
        simp [network.can_socket.send, network.can_socket.shutdown, assert, assert_in, in_world,
          hc, hs, bind, Except.bind, pure, Except.pure, Nat.not_lt.mpr hp, hfd,
          Int.not_le.mp hclose, hw, he]
      · refine Or.inl ⟨false, can,
          { w with wire := w.wire ++ [⟨dest, size, payload.take size⟩] }, ?_, rfl, rfl, rfl⟩
        simp [network.can_socket.send, assert, assert_in, in_world, hc, hs, bind,
          Except.bind, pure, Except.pure, Nat.not_lt.mpr hp, hw, he]
    · refine Or.inl ⟨true, can,
        { w with wire := w.wire ++ [⟨dest, size, payload.take size⟩] }, ?_, rfl, rfl, rfl⟩
      simp [network.can_socket.send, assert, assert_in, in_world, hc, hs, bind,
        Except.bind, pure, Except.pure, Nat.not_lt.mpr hp, hw]

theorem process_faults_outcome (self : servosila_motor_controller)
    (can : network.can_socket) (w : world) :
    self._process_faults can w = Except.ok (self, can, w) ∨
    (self.m_protocol_version = PROTOCOL_VERSION_2_0 ∧
      self.m_status_telemetry &&& 0x7F00 ≠ 0 ∧ can.is_connected = true ∧
      ((∃ can' w', self._process_faults can w =
          Except.ok ({ self with m_fault_ack_counter := self.m_fault_ack_counter + 1 },
            can', w') ∧
        w'.wire = w.wire ++ [⟨0x200 + self.m_device_id, 8, [0x02, 0x00, 0, 0, 0, 0, 0, 0]⟩]) ∨
      (∃ w', self._process_faults can w = Except.error (abort.assertion_failed, w') ∧
        w'.wire =
          w.wire ++ [⟨0x200 + self.m_device_id, 8, [0x02, 0x00, 0, 0, 0, 0, 0, 0]⟩]))) := by
  by_cases hack : self.m_protocol_version = PROTOCOL_VERSION_2_0 ∧
      self.m_status_telemetry &&& 0x7F00 ≠ 0 ∧ can.is_connected = true
  · obtain ⟨hv, hflags, hconn⟩ := hack
    refine Or.inr ⟨hv, hflags, hconn, ?_⟩
    have hflags' : ¬ (self.m_status_telemetry &&& TELEMETRY_STATUS_FAULT_FLAGS_MASK = 0) :=
      hflags
    have heq : self._process_faults can w =
        (can.send w (0x200 + self.m_device_id) [0x02, 0x00, 0, 0, 0, 0, 0, 0] 8 >>= fun r =>
          Except.ok ({ self with m_fault_ack_counter := self.m_fault_ack_counter + 1 },
            r.2.1, r.2.2)) := by
      simp only [_process_faults, hv, _process_faults_protocol_2_0, _send_fault_ack, assert,
        assert_in, in_world, hconn]
      rw [send_expedited_rpdo_eq_send _ _ _ _ _ _ _ _ (by decide) (by decide) (by decide)
        (by decide)]
      simp [hflags', bind, Except.bind, pure, Except.pure, List.range, List.range.loop,
        RPDO_SERVOSILA_CHANNEL_FOR_MOTOR_CONTROL, and_255_eq_mod]
      generalize can.send w (512 + self.m_device_id) [2, 0, 0, 0, 0, 0, 0, 0] 8 = x
      cases x <;> rfl
    rw [heq]
    rcases send_outcome can w (0x200 + self.m_device_id) [0x02, 0x00, 0, 0, 0, 0, 0, 0] 8 hconn
      (by decide) (by simp) with ⟨r, can', w', h, hw, -, -⟩ | ⟨w', h, hw, -⟩
    · exact Or.inl ⟨can', w', by rw [h]; rfl, by simpa using hw⟩
    · exact Or.inr ⟨w', by rw [h]; rfl, by simpa using hw⟩
  · refine Or.inl ?_
    apply process_faults_none
    by_cases hv : self.m_protocol_version = PROTOCOL_VERSION_LEGACY
    · exact Or.inl hv
    · by_cases hf : self.m_status_telemetry &&& 0x7F00 = 0
      · exact Or.inr (Or.inl hf)
      · refine Or.inr (Or.inr ?_)
        have hv2 : self.m_protocol_version = PROTOCOL_VERSION_2_0 := by
          cases h : self.m_protocol_version
          · exact absurd h hv
          · rfl
        cases hc : can.is_connected
        · rfl
        · exact absurd ⟨hv2, hf, hc⟩ hack

theorem callback_parsed (self : servosila_motor_controller) (can : network.can_socket)
    (w : world) (buffer : List Nat) (bytes_received source_can_id : Nat) (flag : Bool)
    (self' : servosila_motor_controller) (can' : network.can_socket) (w' : world)
    (h : self.process_canbus_callback can w buffer bytes_received source_can_id =
      Except.ok (flag, self', can', w')) :
    (self' = self ∧ can' = can ∧ w' = w) ∨
    (∃ s, (self._parse_tpdo2 buffer bytes_received = Except.ok s ∨
        self._parse_tpdo3 buffer bytes_received = Except.ok s) ∧
      self' = s ∧ can' = can ∧ w' = w) ∨
    (∃ s r, self._parse_tpdo1 buffer bytes_received = Except.ok s ∧
      s._process_faults can w = Except.ok r ∧
      source_can_id &&& 0x7F = self.m_device_id ∧
      (source_can_id % 65536) &&& 0x780 = 0x180 ∧
      self' = { r.1 with
        m_shaft_healthcheck_timer := (r.1.m_shaft_healthcheck_timer.restart r.2.2).1,
        m_state := SHAFT_TELEMETRY_COMING } ∧
      can' = r.2.1 ∧ w' = (r.1.m_shaft_healthcheck_timer.restart r.2.2).2) := by
  rw [callback_general] at h
  split at h
  · rename_i hnode
    split at h
    · split at h
      · rename_i hfc
        obtain ⟨s, hs, h⟩ := bind_eq_ok h
        obtain ⟨r, hr, h⟩ := bind_eq_ok h
        refine Or.inr (Or.inr ⟨s, r, ?_, hr, hnode, hfc, ?_⟩)
        · cases hp : self._parse_tpdo1 buffer bytes_received <;>
            simp [in_world, hp] at hs
          rw [hs]
        · simp only [Except.ok.injEq, Prod.mk.injEq] at h
          exact ⟨h.2.1.symm, h.2.2.1.symm, h.2.2.2.symm⟩
      · split at h
        · obtain ⟨s, hs, h⟩ := bind_eq_ok h
          refine Or.inr (Or.inl ⟨s, Or.inl ?_, ?_⟩)
          · cases hp : self._parse_tpdo2 buffer bytes_received <;>
              simp [in_world, hp] at hs
            rw [hs]
          · simp only [Except.ok.injEq, Prod.mk.injEq] at h
            exact ⟨h.2.1.symm, h.2.2.1.symm, h.2.2.2.symm⟩
        · split at h
          · obtain ⟨s, hs, h⟩ := bind_eq_ok h
            refine Or.inr (Or.inl ⟨s, Or.inr ?_, ?_⟩)
            · cases hp : self._parse_tpdo3 buffer bytes_received <;>
                simp [in_world, hp] at hs
              rw [hs]
            · simp only [Except.ok.injEq, Prod.mk.injEq] at h
              exact ⟨h.2.1.symm, h.2.2.1.symm, h.2.2.2.symm⟩
          · split at h <;>
              simp only [Except.ok.injEq, Prod.mk.injEq] at h <;>
              exact Or.inl ⟨h.2.1.symm, h.2.2.1.symm, h.2.2.2.symm⟩
    · cases h
  · simp only [Except.ok.injEq, Prod.mk.injEq] at h
    exact Or.inl ⟨h.2.1.symm, h.2.2.1.symm, h.2.2.2.symm⟩

/-- C26: under the legacy protocol, for an 8-byte frame `b0 .. b7` from the configured 7-bit
node: a primary frame (`0x180`) stores `b4 + 256 * b5` as position when an encoder is
present, and its signed 16-bit reading as speed when there is none; a secondary frame
(`0x280`) with an encoder present stores the signed reading of `b4 + 256 * b5` as speed; a
tertiary frame (`0x380`) stores `b0 + 256 * b1` as the fault/status word.  Each result is the
controller it started from with that one field replaced (the primary frame also restarts the
health-check timer and sets the state), so no other snapshot field changes.  No frame at
all, whatever its identifier, payload and length, changes the status word or the amps field
of a legacy controller. -/
theorem legacy_telemetry (self : servosila_motor_controller) (can : network.can_socket)
    (w : world) (b0 b1 b2 b3 b4 b5 b6 b7 : Nat) (rest : List Nat)
    (hv : self.m_protocol_version = PROTOCOL_VERSION_LEGACY) (hid : self.m_device_id ≤ 127)
    (hb : ∀ b ∈ [b0, b1, b2, b3, b4, b5, b6, b7], b < 256) :
    (self.m_is_position_encoder_available = true →
      self.process_canbus_callback can w (b0 :: b1 :: b2 :: b3 :: b4 :: b5 :: b6 :: b7 :: rest)
          8 (0x180 + self.m_device_id) =
        Except.ok (true,
          { self with
            m_position_telemetry := b4 + 256 * b5,
            m_shaft_healthcheck_timer := (self.m_shaft_healthcheck_timer.restart w).1,
            m_state := SHAFT_TELEMETRY_COMING },
          can, (self.m_shaft_healthcheck_timer.restart w).2)) ∧
    (self.m_is_position_encoder_available = false →
      self.process_canbus_callback can w (b0 :: b1 :: b2 :: b3 :: b4 :: b5 :: b6 :: b7 :: rest)
          8 (0x180 + self.m_device_id) =
        Except.ok (true,
          { self with
            m_speed_telemetry := to_int16 (b4 + 256 * b5),
            m_shaft_healthcheck_timer := (self.m_shaft_healthcheck_timer.restart w).1,
            m_state := SHAFT_TELEMETRY_COMING },
          can, (self.m_shaft_healthcheck_timer.restart w).2)) ∧
    (self.m_is_position_encoder_available = true →
      self.process_canbus_callback can w (b0 :: b1 :: b2 :: b3 :: b4 :: b5 :: b6 :: b7 :: rest)
          8 (0x280 + self.m_device_id) =
        Except.ok (true, { self with m_speed_telemetry := to_int16 (b4 + 256 * b5) },
          can, w)) ∧
    self.process_canbus_callback can w (b0 :: b1 :: b2 :: b3 :: b4 :: b5 :: b6 :: b7 :: rest)
        8 (0x380 + self.m_device_id) =
      Except.ok (true, { self with m_faults_telemetry := b0 + 256 * b1 }, can, w) ∧
    to_int16 (b4 + 256 * b5) =
      (if b4 + 256 * b5 < 32768 then ((b4 + 256 * b5 : Nat) : Int)
        else ((b4 + 256 * b5 : Nat) : Int) - 65536) ∧
    (∀ buffer bytes_received source_can_id flag self' can' w',
      self.process_canbus_callback can w buffer bytes_received source_can_id =
        Except.ok (flag, self', can', w') →
      self'.m_status_telemetry = self.m_status_telemetry ∧
      self'.m_amps_telemetry = self.m_amps_telemetry) := by
  obtain ⟨p1, p2, p3, -, p5⟩ := parse_frame_legacy self b0 b1 b2 b3 b4 b5 b6 b7 rest hv
  refine ⟨?_, ?_, ?_, ?_, to_int16_bytes b4 b5 (hb b4 (by simp)) (hb b5 (by simp)), ?_⟩
  · intro he
    rw [callback_tpdo1_eq self can w _ 8 hid, p1 he]
    simp only [in_world, bind, Except.bind]
    rw [process_faults_none { self with m_position_telemetry := b4 + 256 * b5 } can w
      (Or.inl hv)]
  · intro he
    rw [callback_tpdo1_eq self can w _ 8 hid, p2 he]
    simp only [in_world, bind, Except.bind]
    rw [process_faults_none { self with m_speed_telemetry := to_int16 (b4 + 256 * b5) } can w
      (Or.inl hv)]
  · intro he
    rw [callback_tpdo2_eq self can w _ 8 hid, p3 he]
    rfl
  · rw [callback_tpdo3_eq self can w _ 8 hid, p5]
    rfl
  · intro buffer bytes_received source_can_id flag self' can' w' h
    rcases callback_parsed self can w buffer bytes_received source_can_id flag self' can' w' h
      with ⟨h, -, -⟩ | ⟨s, hs, h, -, -⟩ | ⟨s, r, hs, hr, -, -, h, -, -⟩
    · rw [h]
      exact ⟨rfl, rfl⟩
    · rw [h]
      exact (parse_preserves self buffer bytes_received s (Or.inr hs)).2.2.2.2.2 hv
    · obtain ⟨-, hv', -, -, -, hk⟩ := parse_preserves self buffer bytes_received s (Or.inl hs)
      rw [process_faults_none s can w (Or.inl (by rw [hv', hv]))] at hr
      simp only [Except.ok.injEq] at hr
      rw [h, ← hr]
      exact hk hv

theorem legacy_telemetry_witness :
    sample_legacy_chassis.process_canbus_callback open_socket (quiet_world 100)
        [0, 0, 0, 0, 0x38, 0xFF, 0, 0] 8 0x183 =
      Except.ok (true,
        { sample_legacy_chassis with
          m_speed_telemetry := -200,
          m_shaft_healthcheck_timer :=
            (sample_legacy_chassis.m_shaft_healthcheck_timer.restart (quiet_world 100)).1,
          m_state := SHAFT_TELEMETRY_COMING },
        open_socket,
        (sample_legacy_chassis.m_shaft_healthcheck_timer.restart (quiet_world 100)).2) :=
  (legacy_telemetry sample_legacy_chassis open_socket (quiet_world 100)
    0 0 0 0 0x38 0xFF 0 0 [] (by decide) (by decide) (by decide)).2.1 (by decide)

/-- C29: each of `get_position_telemetry`, `get_speed_telemetry`, `get_amps_telemetry` and
`get_status_telemetry` returns the stored snapshot field when the state is
`SHAFT_TELEMETRY_COMING`, and stops at its assertion exactly when the state is
`NO_SHAFT_TELEMETRY`.  The getters are `const` member functions: they yield a value and no
controller, so the controller is as it was. -/
theorem telemetry_getters (self : servosila_motor_controller) :
    (self.m_state = SHAFT_TELEMETRY_COMING →
      self.get_position_telemetry = Except.ok self.m_position_telemetry ∧
      self.get_speed_telemetry = Except.ok self.m_speed_telemetry ∧
      self.get_amps_telemetry = Except.ok self.m_amps_telemetry ∧
      self.get_status_telemetry = Except.ok self.m_status_telemetry) ∧
    (self.get_position_telemetry = Except.error abort.assertion_failed ↔
      self.m_state = NO_SHAFT_TELEMETRY) ∧
    (self.get_speed_telemetry = Except.error abort.assertion_failed ↔
      self.m_state = NO_SHAFT_TELEMETRY) ∧
    (self.get_amps_telemetry = Except.error abort.assertion_failed ↔
      self.m_state = NO_SHAFT_TELEMETRY) ∧
    (self.get_status_telemetry = Except.error abort.assertion_failed ↔
      self.m_state = NO_SHAFT_TELEMETRY) ∧
    ((∃ e, self.get_position_telemetry = Except.error e) ↔
      self.m_state = NO_SHAFT_TELEMETRY) ∧
    ((∃ e, self.get_speed_telemetry = Except.error e) ↔
      self.m_state = NO_SHAFT_TELEMETRY) ∧
    ((∃ e, self.get_amps_telemetry = Except.error e) ↔
      self.m_state = NO_SHAFT_TELEMETRY) ∧
    ((∃ e, self.get_status_telemetry = Except.error e) ↔
      self.m_state = NO_SHAFT_TELEMETRY) := by
  cases hs : self.m_state <;>
    simp [get_position_telemetry, get_speed_telemetry, get_amps_telemetry,
      get_status_telemetry, assert, hs, bind, Except.bind, pure, Except.pure]

theorem telemetry_getters_witness :
    sample_controller_running.get_position_telemetry =
      Except.ok sample_controller_running.m_position_telemetry ∧
    sample_controller_running.get_speed_telemetry =
      Except.ok sample_controller_running.m_speed_telemetry ∧
    sample_controller_running.get_amps_telemetry =
      Except.ok sample_controller_running.m_amps_telemetry ∧
    sample_controller_running.get_status_telemetry =
      Except.ok sample_controller_running.m_status_telemetry ∧
    sample_controller.get_position_telemetry = Except.error abort.assertion_failed :=
  ⟨((telemetry_getters sample_controller_running).1 (by decide)).1,
    ((telemetry_getters sample_controller_running).1 (by decide)).2.1,
    ((telemetry_getters sample_controller_running).1 (by decide)).2.2.1,
    ((telemetry_getters sample_controller_running).1 (by decide)).2.2.2,
    (telemetry_getters sample_controller).2.1.mpr (by decide)⟩

theorem execute_completes (self : servosila_motor_controller) (can : network.can_socket)
    (w : world)
    (h : can.is_connected = true →
      self.m_device_id ≠ 0 ∧ 0 ≤ w.close_ret w.closes ∧
      (self.m_protocol_version = PROTOCOL_VERSION_LEGACY →
        self.m_operation_mode ≠ AMPS_MODE)) :
    ∃ r, self.execute can w = Except.ok r := by
  by_cases hq : can.is_connected = true ∧
      self.m_shaft_healthcheck_timer.check_at (w.time w.clock_reads) = false ∧
      self.m_state = SHAFT_TELEMETRY_COMING ∧
      self.m_rpdo_timer.check_at (w.time (w.clock_reads + 1)) = true
  · obtain ⟨hconn, hexp, hstate, hfire⟩ := hq
    obtain ⟨hid, hclose, hleg⟩ := h hconn
    obtain ⟨timer, s, w3, hs, hw3, he⟩ := execute_emitting_run self can w hconn hexp hstate hfire
    obtain ⟨can', w', hsend, -⟩ := send_rpdo_completes s can w3 hconn
      (by rw [hs]; exact hid) (by rw [hs]; exact hleg) (by rw [hw3]; exact hclose)
    exact ⟨(s, can', w'), by rw [he, hsend]; rfl⟩
  · obtain ⟨self', w', he, -⟩ := execute_quiet self can w hq
    exact ⟨_, he⟩

theorem execute_legacy_amps_aborts (self : servosila_motor_controller)
    (can : network.can_socket) (w : world) (hconn : can.is_connected = true)
    (hexp : self.m_shaft_healthcheck_timer.check_at (w.time w.clock_reads) = false)
    (hstate : self.m_state = SHAFT_TELEMETRY_COMING)
    (hfire : self.m_rpdo_timer.check_at (w.time (w.clock_reads + 1)) = true)
    (hv : self.m_protocol_version = PROTOCOL_VERSION_LEGACY)
    (hm : self.m_operation_mode = AMPS_MODE) :
    self.execute can w =
      Except.error (abort.assertion_failed,
        { w with clock_reads := w.clock_reads + 1 + 1 + 1 }) := by
  obtain ⟨timer, s, w3, hs, hw3, he⟩ := execute_emitting_run self can w hconn hexp hstate hfire
  rw [he, (legacy_amps_encoder_aborts s can w3 (by rw [hs]; exact hv)
    (by rw [hs]; exact hm)).2, hw3]
  rfl

theorem callback_completes (self : servosila_motor_controller) (can : network.can_socket)
    (w : world) (buffer : List Nat) (bytes_received source_can_id : Nat)
    (hid : source_can_id &&& 0x7F = self.m_device_id → source_can_id % 65536 ≤ 2047)
    (hbuf : bytes_received = 8 → 8 ≤ buffer.length)
    (hclose : can.is_connected = true → 0 ≤ w.close_ret w.closes)
    (henc : ¬(source_can_id &&& 0x7F = self.m_device_id ∧
      (source_can_id % 65536) &&& 0x780 = 0x280 ∧
      self.m_protocol_version = PROTOCOL_VERSION_LEGACY ∧ bytes_received = 8 ∧
      self.m_is_position_encoder_available = false)) :
    ∃ r, self.process_canbus_callback can w buffer bytes_received source_can_id =
      Except.ok r := by
  rw [callback_general]
  by_cases hnode : source_can_id &&& 0x7F = self.m_device_id
  · rw [if_pos hnode, if_pos (hid hnode)]
    by_cases h1 : (source_can_id % 65536) &&& 0x780 = 0x180
    · rw [if_pos h1]
      obtain ⟨p, v, a, st, hp⟩ := parse_tpdo1_completes self buffer bytes_received hbuf
      obtain ⟨s, hs⟩ : ∃ s, self._parse_tpdo1 buffer bytes_received = Except.ok s := ⟨_, hp⟩
      have hf : ∃ r, s._process_faults can w = Except.ok r := by
        by_cases hc : can.is_connected = true
        · exact process_faults_completes s can w (hclose hc)
        · exact ⟨_, process_faults_none s can w (Or.inr (Or.inr (by simpa using hc)))⟩
      obtain ⟨r, hr⟩ := hf
      rw [hs]
      simp only [in_world, bind, Except.bind, hr]
      exact ⟨_, rfl⟩
    · rw [if_neg h1]
      by_cases h2 : (source_can_id % 65536) &&& 0x780 = 0x280
      · rw [if_pos h2]
        obtain ⟨v, hp⟩ := parse_tpdo2_completes self buffer bytes_received hbuf
          (fun hh => henc ⟨hnode, h2, hh.1, hh.2.1, hh.2.2⟩)
        exact ⟨_, by rw [hp]; rfl⟩
      · rw [if_neg h2]
        by_cases h3 : (source_can_id % 65536) &&& 0x780 = 0x380
        · rw [if_pos h3]
          obtain ⟨f, hp⟩ := parse_tpdo3_completes self buffer bytes_received hbuf
          exact ⟨_, by rw [hp]; rfl⟩
        · rw [if_neg h3]
          by_cases h4 : (source_can_id % 65536) &&& 0x780 = 0x480
          · exact ⟨_, by rw [if_pos h4]⟩
          · exact ⟨_, by rw [if_neg h4]⟩
  · exact ⟨_, by rw [if_neg hnode]⟩

theorem callback_chassis_secondary_aborts (self : servosila_motor_controller)
    (can : network.can_socket) (w : world) (buffer : List Nat) (source_can_id : Nat)
    (hnode : source_can_id &&& 0x7F = self.m_device_id)
    (hid : source_can_id % 65536 ≤ 2047)
    (hfc : (source_can_id % 65536) &&& 0x780 = 0x280)
    (hv : self.m_protocol_version = PROTOCOL_VERSION_LEGACY)
    (he : self.m_is_position_encoder_available = false) :
    self.process_canbus_callback can w buffer 8 source_can_id =
      Except.error (abort.assertion_failed, w) := by
  have hp : self._parse_tpdo2 buffer 8 = Except.error abort.assertion_failed := by
    simp [_parse_tpdo2, _parse_tpdo2_legacy_protocol, hv, he, assert, bind, Except.bind,
      pure, Except.pure]
  rw [callback_general, if_pos hnode, if_pos hid, if_neg (by rw [hfc]; decide), if_pos hfc, hp]
  rfl

/-- C30 (as stated, refuted): conditions that arise at run time make the controller stop at
an assertion.  (1) A legacy controller for node 3, configured with amps limits -50..50,
accepts the in-range `set_amps_command 10` and a primary telemetry frame; the next `execute`
whose RPDO timer has expired reaches `assert(false)` in the legacy command encoder.  (2) A
legacy controller without position encoder stops at `assert(false)` on an 8-byte secondary
telemetry frame (COB-ID `0x283`) of its node.  (3) With the CAN adapter unplugged, the 2.0
sample controller in position mode stops at `assert(false)` in `can_socket::shutdown` when
`::close` fails after the failed `::write`. -/
theorem controller_aborts_counterexample :
    (∃ c1 c2 w2 w3,
      (sample_legacy_configured true).m_device_id = 3 ∧
      (sample_legacy_configured true).set_amps_command 10 = Except.ok c1 ∧
      c1.process_canbus_callback open_socket ticking_world [0, 0, 0, 0, 0, 0, 0, 0] 8 0x183 =
        Except.ok (true, c2, open_socket, w2) ∧
      c2.execute open_socket w2 = Except.error (abort.assertion_failed, w3) ∧
      w3.wire = [] ∧ w3.closes = 0) ∧
    (sample_legacy_configured false).process_canbus_callback open_socket ticking_world
        [0, 0, 0, 0, 0, 0, 0, 0] 8 0x283 =
      Except.error (abort.assertion_failed, ticking_world) ∧
    (∃ c1 c2 w2 w3,
      sample_controller.set_position_command 500 = Except.ok c1 ∧
      c1.process_canbus_callback open_socket unplugged_world
          [0x00, 0x00, 0xF4, 0x01, 0, 0, 0, 0] 8 0x185 =
        Except.ok (true, c2, open_socket, w2) ∧
      c2.execute open_socket w2 = Except.error (abort.assertion_failed, w3) ∧
      w3.wire = [⟨0x205, 8, [0x21, 0x00, 0xF4, 0x01, 0, 0, 0, 0]⟩] ∧ w3.closes = 1) :=
  ⟨⟨_, _, _, _, rfl, rfl, rfl, rfl, rfl, rfl⟩, rfl, ⟨_, _, _, _, rfl, rfl, rfl, rfl, rfl⟩⟩

/-- C30 (amended): `execute` and `process_canbus_callback` complete under stated
preconditions, and stop at an assertion outside them.  `execute` returns for every
controller, clock and transport, provided that for a connected transport the node id is not
0, the kernel closes the socket without error and a legacy controller is not in `AMPS_MODE`;
a legacy controller in `AMPS_MODE` stops at the assertion of the command encoder on every
`execute` that emits.  `process_canbus_callback` returns for every frame whose identifier,
when it names the configured node, has its 16 low bits at most 2047, with a well-formed
payload and a kernel that closes the socket without error, except for an 8-byte secondary
telemetry frame of the configured node at a legacy controller without position encoder,
on which it stops at an assertion with the world unchanged. -/
theorem controller_completes (self : servosila_motor_controller) (can : network.can_socket)
    (w : world) (buffer : List Nat) (bytes_received source_can_id : Nat) :
    ((can.is_connected = true →
        self.m_device_id ≠ 0 ∧ 0 ≤ w.close_ret w.closes ∧
        (self.m_protocol_version = PROTOCOL_VERSION_LEGACY →
          self.m_operation_mode ≠ AMPS_MODE)) →
      ∃ r, self.execute can w = Except.ok r) ∧
    (can.is_connected = true →
      self.m_shaft_healthcheck_timer.check_at (w.time w.clock_reads) = false →
      self.m_state = SHAFT_TELEMETRY_COMING →
      self.m_rpdo_timer.check_at (w.time (w.clock_reads + 1)) = true →
      self.m_protocol_version = PROTOCOL_VERSION_LEGACY →
      self.m_operation_mode = AMPS_MODE →
      self.execute can w =
        Except.error (abort.assertion_failed,
          { w with clock_reads := w.clock_reads + 1 + 1 + 1 })) ∧
    ((source_can_id &&& 0x7F = self.m_device_id → source_can_id % 65536 ≤ 2047) →
      (bytes_received = 8 → 8 ≤ buffer.length) →
      (can.is_connected = true → 0 ≤ w.close_ret w.closes) →
      ¬(source_can_id &&& 0x7F = self.m_device_id ∧
        (source_can_id % 65536) &&& 0x780 = 0x280 ∧
        self.m_protocol_version = PROTOCOL_VERSION_LEGACY ∧ bytes_received = 8 ∧
        self.m_is_position_encoder_available = false) →
      ∃ r, self.process_canbus_callback can w buffer bytes_received source_can_id =
        Except.ok r) ∧
    (source_can_id &&& 0x7F = self.m_device_id → source_can_id % 65536 ≤ 2047 →
      (source_can_id % 65536) &&& 0x780 = 0x280 →
      self.m_protocol_version = PROTOCOL_VERSION_LEGACY →
      self.m_is_position_encoder_available = false →
      self.process_canbus_callback can w buffer 8 source_can_id =
        Except.error (abort.assertion_failed, w)) :=
  ⟨execute_completes self can w,
    execute_legacy_amps_aborts self can w,
    callback_completes self can w buffer bytes_received source_can_id,
    callback_chassis_secondary_aborts self can w buffer source_can_id⟩

theorem controller_completes_witness :
    (∃ r, sample_controller_running.execute open_socket (quiet_world 200) = Except.ok r) ∧
    (∃ r, sample_legacy_chassis.process_canbus_callback open_socket (quiet_world 100)
      [0, 0, 0, 0, 0x38, 0xFF, 0, 0] 8 0x183 = Except.ok r) ∧
    sample_legacy_chassis.process_canbus_callback open_socket (quiet_world 100)
        [0, 0, 0, 0, 0x38, 0xFF, 0, 0] 8 0x283 =
      Except.error (abort.assertion_failed, quiet_world 100) :=
  ⟨(controller_completes sample_controller_running open_socket (quiet_world 200) [] 0 0).1
      (fun _ => ⟨by decide, by decide, fun h => absurd h (by decide)⟩),
    (controller_completes sample_legacy_chassis open_socket (quiet_world 100)
      [0, 0, 0, 0, 0x38, 0xFF, 0, 0] 8 0x183).2.2.1 (fun _ => by decide) (fun _ => by decide)
      (fun _ => by decide) (by decide),
    (controller_completes sample_legacy_chassis open_socket (quiet_world 100)
      [0, 0, 0, 0, 0x38, 0xFF, 0, 0] 8 0x283).2.2.2 (by decide) (by decide) (by decide)
      (by decide) (by decide)⟩

theorem execute_result (self : servosila_motor_controller) (can : network.can_socket)
    (w : world) (self' : servosila_motor_controller) (can' : network.can_socket) (w' : world)
    (h : self.execute can w = Except.ok (self', can', w')) :
    ∃ timer, self' = { self with m_rpdo_timer := timer } ∨
      self' = { self._reset_to_initial_state with m_rpdo_timer := timer } := by
  by_cases hq : can.is_connected = true ∧
      self.m_shaft_healthcheck_timer.check_at (w.time w.clock_reads) = false ∧
      self.m_state = SHAFT_TELEMETRY_COMING ∧
      self.m_rpdo_timer.check_at (w.time (w.clock_reads + 1)) = true
  · obtain ⟨hconn, hexp, hstate, hfire⟩ := hq
    obtain ⟨timer, s, w3, hs, hw3, he⟩ := execute_emitting_run self can w hconn hexp hstate hfire
    rw [he] at h
    exact ⟨timer, Or.inl (by rw [(map_mk_eq_ok h).1, hs])⟩
  · cases hconn : can.is_connected <;>
      cases hexp : self.m_shaft_healthcheck_timer.check_at (w.time w.clock_reads) <;>
      cases hstate : self.m_state <;>
      cases hfire : self.m_rpdo_timer.check_at (w.time (w.clock_reads + 1)) <;>
      first
      | (simp only [execute, hconn] at h
         simp [_reset_to_initial_state, control.timer.check, control.timer.check_and_restart,
           gettimeofday, control.timer.restart, hexp, hstate, hfire, pure, Except.pure] at h
         rw [← h.1]
         first
         | exact ⟨_, Or.inl rfl⟩
         | exact ⟨_, Or.inr rfl⟩)
      | exact absurd (And.intro hconn (And.intro hexp (And.intro hstate hfire))) hq

theorem apply_state_counter (c : public_call) (self s : servosila_motor_controller)
    (h : c.apply self = some s) :
    (s.m_state = self.m_state ∧ s.m_fault_ack_counter = self.m_fault_ack_counter) ∨
    (s.m_state = NO_SHAFT_TELEMETRY ∧ s.m_fault_ack_counter = 0) ∨
    s.m_state = SHAFT_TELEMETRY_COMING := by
  cases c with
  | configure w a b c d e f g h1 h2 h3 h4 =>
    simp only [public_call.apply, Option.some.injEq] at h
    rw [← h]
    exact Or.inl ⟨rfl, rfl⟩
  | change_timeouts w a b =>
    simp only [public_call.apply, Option.some.injEq] at h
    rw [← h]
    exact Or.inl ⟨rfl, rfl⟩
  | set_position_command position =>
    simp only [public_call.apply, set_position_command_eq] at h
    split at h
    · rename_i s1 hs
      split at hs
      · simp only [Except.ok.injEq] at hs
        simp only [Option.some.injEq] at h
        rw [← h, ← hs]
        exact Or.inl ⟨rfl, rfl⟩
      · cases hs
    · cases h
  | set_speed_command speed =>
    simp only [public_call.apply, set_speed_command_eq] at h
    split at h
    · rename_i s1 hs
      split at hs
      · simp only [Except.ok.injEq] at hs
        simp only [Option.some.injEq] at h
        rw [← h, ← hs]
        exact Or.inl ⟨rfl, rfl⟩
      · cases hs
    · cases h
  | set_amps_command amps =>
    simp only [public_call.apply, set_amps_command_eq] at h
    split at h
    · rename_i s1 hs
      split at hs
      · simp only [Except.ok.injEq] at hs
        simp only [Option.some.injEq] at h
        rw [← h, ← hs]
        exact Or.inl ⟨rfl, rfl⟩
      · cases hs
    · cases h
  | set_undefined_command =>
    simp only [public_call.apply, Option.some.injEq] at h
    rw [← h]
    exact Or.inl ⟨rfl, rfl⟩
  | execute can w =>
    simp only [public_call.apply] at h
    split at h
    · rename_i r hr
      simp only [Option.some.injEq] at h
      obtain ⟨timer, ht | ht⟩ := execute_result self can w r.1 r.2.1 r.2.2 hr
      · rw [← h, ht]
        exact Or.inl ⟨rfl, rfl⟩
      · rw [← h, ht]
        exact Or.inr (Or.inl ⟨rfl, rfl⟩)
    · cases h
  | process_canbus_callback can w buffer bytes_received source_can_id =>
    simp only [public_call.apply] at h
    split at h
    · rename_i r hr
      simp only [Option.some.injEq] at h
      rcases callback_parsed self can w buffer bytes_received source_can_id r.1 r.2.1 r.2.2.1
        r.2.2.2 hr with ⟨h1, -, -⟩ | ⟨s1, hs, h1, -, -⟩ | ⟨s1, r1, -, -, -, -, h1, -, -⟩
      · rw [← h, h1]
        exact Or.inl ⟨rfl, rfl⟩
      · obtain ⟨-, -, hc, hst, -⟩ := parse_preserves self buffer bytes_received s1 (Or.inr hs)
        rw [← h, h1]
        exact Or.inl ⟨hst, hc⟩
      · rw [← h, h1]
        exact Or.inr (Or.inr rfl)
    · cases h
  | halt can w =>
    simp only [public_call.apply] at h
    split at h
    · rename_i r hr
      simp only [Option.some.injEq] at h
      obtain ⟨h1, h2, h3, h4, h5⟩ := halt_result self can w r.1 r.2.1 r.2.2 hr
      rw [← h]
      cases hs : self.m_state
      · rw [h1 hs]
        exact Or.inl ⟨hs, rfl⟩
      · cases hm : self.m_operation_mode
        · rw [h2 hs hm]
          exact Or.inl ⟨hs, rfl⟩
        · rw [(h3 hs hm).1]
          exact Or.inl ⟨hs, rfl⟩
        · rw [(h4 hs hm).1]
          exact Or.inl ⟨hs, rfl⟩
        · rw [(h5 hs hm).1]
          exact Or.inl ⟨hs, rfl⟩
    · cases h

theorem run_calls_counter (calls : List public_call) (self s : servosila_motor_controller)
    (hinv : self.m_state = NO_SHAFT_TELEMETRY → self.m_fault_ack_counter = 0)
    (h : run_calls calls self = some s) :
    s.m_state = NO_SHAFT_TELEMETRY → s.m_fault_ack_counter = 0 := by
  induction calls generalizing self with
  | nil =>
    simp only [run_calls, Option.some.injEq] at h
    rw [← h]
    exact hinv
  | cons c cs ih =>
    simp only [run_calls] at h
    split at h
    · rename_i s1 hs1
      refine ih s1 ?_ h
      rcases apply_state_counter c self s1 hs1 with ⟨h1, h2⟩ | ⟨-, h2⟩ | h1
      · intro hno
        rw [h2]
        exact hinv (by rw [← h1]; exact hno)
      · exact fun _ => h2
      · intro hno
        rw [h1] at hno
        cases hno
    · cases h

/-- C31: in every controller state reached from construction by a sequence of public calls
(`configure`, `change_timeouts`, the three setters, `set_undefined_command`, `execute`,
`process_canbus_callback`, `halt`, each with any arguments, any socket and any world, none
of them stopping at an assertion), the state `NO_SHAFT_TELEMETRY` implies that the fault
counter is 0. -/
theorem no_telemetry_counter_zero (w : world) (calls : List public_call)
    (s : servosila_motor_controller)
    (h : run_calls calls (servosila_motor_controller.construct w).1 = some s)
    (hs : s.m_state = NO_SHAFT_TELEMETRY) : s.m_fault_ack_counter = 0 :=
  run_calls_counter calls (servosila_motor_controller.construct w).1 s (fun _ => rfl) h hs

theorem no_telemetry_counter_zero_witness :
    (run_calls
        [public_call.configure (quiet_world 100) 5 PROTOCOL_VERSION_2_0 true 20000 100000
          0 1000 (-300) 300 (-50) 50,
        public_call.process_canbus_callback open_socket (quiet_world 100)
          [0x00, 0x01, 0, 0, 0, 0, 0, 0] 8 0x185]
        (servosila_motor_controller.construct (quiet_world 100)).1).map
      (fun s => (s.m_state, s.m_fault_ack_counter)) = some (SHAFT_TELEMETRY_COMING, 1) ∧
    ∃ s,
      run_calls
        [public_call.configure (quiet_world 100) 5 PROTOCOL_VERSION_2_0 true 20000 100000
          0 1000 (-300) 300 (-50) 50,
        public_call.process_canbus_callback open_socket (quiet_world 100)
          [0x00, 0x01, 0, 0, 0, 0, 0, 0] 8 0x185,
        public_call.execute closed_socket (quiet_world 100)]
        (servosila_motor_controller.construct (quiet_world 100)).1 = some s ∧
      s.m_state = NO_SHAFT_TELEMETRY ∧ s.m_fault_ack_counter = 0 := by
  refine ⟨rfl, ?_⟩
  have hm : (run_calls
      [public_call.configure (quiet_world 100) 5 PROTOCOL_VERSION_2_0 true 20000 100000
        0 1000 (-300) 300 (-50) 50,
      public_call.process_canbus_callback open_socket (quiet_world 100)
        [0x00, 0x01, 0, 0, 0, 0, 0, 0] 8 0x185,
      public_call.execute closed_socket (quiet_world 100)]
      (servosila_motor_controller.construct (quiet_world 100)).1).map
      (fun s => s.m_state) = some NO_SHAFT_TELEMETRY := rfl
  cases h : run_calls
      [public_call.configure (quiet_world 100) 5 PROTOCOL_VERSION_2_0 true 20000 100000
        0 1000 (-300) 300 (-50) 50,
      public_call.process_canbus_callback open_socket (quiet_world 100)
        [0x00, 0x01, 0, 0, 0, 0, 0, 0] 8 0x185,
      public_call.execute closed_socket (quiet_world 100)]
      (servosila_motor_controller.construct (quiet_world 100)).1 with
  | none =>
    rw [h] at hm
    cases hm
  | some s =>
    rw [h] at hm
    simp only [Option.map_some', Option.some.injEq] at hm
    exact ⟨s, rfl, hm, no_telemetry_counter_zero (quiet_world 100) _ s h hm⟩

theorem parse_keeps_intent (self : servosila_motor_controller) (buffer : List Nat)
    (bytes_received : Nat) (s : servosila_motor_controller)
    (h : self._parse_tpdo1 buffer bytes_received = Except.ok s ∨
      self._parse_tpdo2 buffer bytes_received = Except.ok s ∨
      self._parse_tpdo3 buffer bytes_received = Except.ok s) :
    s.m_operation_mode = self.m_operation_mode ∧
    s.m_position_command = self.m_position_command ∧
    s.m_speed_command = self.m_speed_command ∧
    s.m_amps_command = self.m_amps_command ∧
    s.m_min_position_limit = self.m_min_position_limit ∧
    s.m_max_position_limit = self.m_max_position_limit ∧
    s.m_min_speed_limit = self.m_min_speed_limit ∧
    s.m_max_speed_limit = self.m_max_speed_limit ∧
    s.m_min_amps_limit = self.m_min_amps_limit ∧
    s.m_max_amps_limit = self.m_max_amps_limit ∧
    s.m_device_id = self.m_device_id ∧
    s.m_protocol_version = self.m_protocol_version ∧
    s.m_is_position_encoder_available = self.m_is_position_encoder_available := by
  by_cases hn : bytes_received = 8
  · rcases h with h | h | h
    · cases hv : self.m_protocol_version
      · cases he : self.m_is_position_encoder_available <;>
          simp only [_parse_tpdo1, _parse_tpdo1_legacy_protocol, hv, he, hn, assert, bind,
            Except.bind, pure, Except.pure, if_true] at h <;>
          generalize read_uint16 buffer 4 = r at h <;> cases r <;> simp at h <;>
          rw [← h] <;> simp [hv, he]
      · simp only [_parse_tpdo1, _parse_tpdo1_protocol_2_0, hv, hn, assert, bind,
          Except.bind, pure, Except.pure, if_true] at h
        generalize read_uint16 buffer 0 = r0 at h
        generalize read_uint16 buffer 2 = r2 at h
        generalize read_uint16 buffer 4 = r4 at h
        generalize read_uint16 buffer 6 = r6 at h
        cases r0 <;> cases r2 <;> cases r4 <;> cases r6 <;> simp at h
        rw [← h]
        simp [hv]
    · cases hv : self.m_protocol_version
      · cases he : self.m_is_position_encoder_available <;>
          simp only [_parse_tpdo2, _parse_tpdo2_legacy_protocol, hv, he, hn, assert, bind,
            Except.bind, pure, Except.pure, if_true] at h
        · simp at h
        · generalize read_uint16 buffer 4 = r at h
          cases r <;> simp at h
          rw [← h]
          simp [hv, he]
      · simp only [_parse_tpdo2, hv, pure, Except.pure, Except.ok.injEq] at h
        rw [← h]
        simp [hv]
    · cases hv : self.m_protocol_version
      · simp only [_parse_tpdo3, _parse_tpdo3_legacy_protocol, hv, hn, assert, bind,
          Except.bind, pure, Except.pure, if_true] at h
        generalize read_uint16 buffer 0 = r at h
        cases r <;> simp at h
        rw [← h]
        simp [hv]
      · simp only [_parse_tpdo3, hv, pure, Except.pure, Except.ok.injEq] at h
        rw [← h]
        simp [hv]
  · obtain ⟨h1, h2, h3⟩ := parse_short self buffer bytes_received hn
    rw [h1, h2, h3] at h
    simp only [Except.ok.injEq, or_self] at h
    rw [← h]
    exact ⟨rfl, rfl, rfl, rfl, rfl, rfl, rfl, rfl, rfl, rfl, rfl, rfl, rfl⟩

theorem callback_intent (self : servosila_motor_controller) (can : network.can_socket)
    (w : world) (buffer : List Nat) (bytes_received source_can_id : Nat) (flag : Bool)
    (self' : servosila_motor_controller) (can' : network.can_socket) (w' : world)
    (h : self.process_canbus_callback can w buffer bytes_received source_can_id =
      Except.ok (flag, self', can', w')) :
    self'.m_operation_mode = self.m_operation_mode ∧
    self'.m_position_command = self.m_position_command ∧
    self'.m_speed_command = self.m_speed_command ∧
    self'.m_amps_command = self.m_amps_command ∧
    self'.m_min_position_limit = self.m_min_position_limit ∧
    self'.m_max_position_limit = self.m_max_position_limit ∧
    self'.m_min_speed_limit = self.m_min_speed_limit ∧
    self'.m_max_speed_limit = self.m_max_speed_limit ∧
    self'.m_min_amps_limit = self.m_min_amps_limit ∧
    self'.m_max_amps_limit = self.m_max_amps_limit ∧
    self'.m_device_id = self.m_device_id ∧
    self'.m_protocol_version = self.m_protocol_version ∧
    self'.m_is_position_encoder_available = self.m_is_position_encoder_available := by
  rcases callback_parsed self can w buffer bytes_received source_can_id flag self' can' w' h
    with ⟨h1, -, -⟩ | ⟨s, hs, h1, -, -⟩ | ⟨s, r, hs, hr, -, -, h1, -, -⟩
  · rw [h1]
    exact ⟨rfl, rfl, rfl, rfl, rfl, rfl, rfl, rfl, rfl, rfl, rfl, rfl, rfl⟩
  · rw [h1]
    exact parse_keeps_intent self buffer bytes_received s (Or.inr hs)
  · have hp := parse_keeps_intent self buffer bytes_received s (Or.inl hs)
    rcases process_faults_outcome s can w with hf | ⟨-, -, -, hf | hf⟩
    · rw [hf] at hr
      simp only [Except.ok.injEq] at hr
      rw [h1, ← hr]
      exact hp
    · obtain ⟨can1, w1, hf, -⟩ := hf
      rw [hf] at hr
      simp only [Except.ok.injEq] at hr
      rw [h1, ← hr]
      exact hp
    · obtain ⟨w1, hf, -⟩ := hf
      rw [hf] at hr
      cases hr

theorem apply_keeps_setpoint (c : public_call) (self s : servosila_motor_controller)
    (hinv : (self.m_operation_mode = POSITION_MODE →
        self.m_min_position_limit ≤ self.m_position_command ∧
        self.m_position_command ≤ self.m_max_position_limit) ∧
      (self.m_operation_mode = SPEED_MODE →
        self.m_min_speed_limit ≤ self.m_speed_command ∧
        self.m_speed_command ≤ self.m_max_speed_limit) ∧
      (self.m_operation_mode = AMPS_MODE →
        self.m_min_amps_limit ≤ self.m_amps_command ∧
        self.m_amps_command ≤ self.m_max_amps_limit))
    (hc : keeps_setpoint_within self c) (h : c.apply self = some s) :
    (s.m_operation_mode = POSITION_MODE →
      s.m_min_position_limit ≤ s.m_position_command ∧
      s.m_position_command ≤ s.m_max_position_limit) ∧
    (s.m_operation_mode = SPEED_MODE →
      s.m_min_speed_limit ≤ s.m_speed_command ∧ s.m_speed_command ≤ s.m_max_speed_limit) ∧
    (s.m_operation_mode = AMPS_MODE →
      s.m_min_amps_limit ≤ s.m_amps_command ∧ s.m_amps_command ≤ s.m_max_amps_limit) := by
  cases c with
  | configure w a b c d e f g h1 h2 h3 h4 =>
    simp only [public_call.apply, Option.some.injEq] at h
    rw [← h]
    exact hc
  | change_timeouts w a b =>
    simp only [public_call.apply, Option.some.injEq] at h
    rw [← h]
    exact hinv
  | set_position_command position =>
    simp only [public_call.apply, set_position_command_eq] at h
    split at h
    · rename_i s1 hs
      split at hs
      · rename_i hl
        simp only [Except.ok.injEq] at hs
        simp only [Option.some.injEq] at h
        rw [← h, ← hs]
        exact ⟨fun _ => ⟨hl.2, hl.1⟩, fun hm => (by cases hm), fun hm => (by cases hm)⟩
      · cases hs
    · cases h
  | set_speed_command speed =>
    simp only [public_call.apply, set_speed_command_eq] at h
    split at h
    · rename_i s1 hs
      split at hs
      · rename_i hl
        simp only [Except.ok.injEq] at hs
        simp only [Option.some.injEq] at h
        rw [← h, ← hs]
        exact ⟨fun hm => (by cases hm), fun _ => ⟨hl.2, hl.1⟩, fun hm => (by cases hm)⟩
      · cases hs
    · cases h
  | set_amps_command amps =>
    simp only [public_call.apply, set_amps_command_eq] at h
    split at h
    · rename_i s1 hs
      split at hs
      · rename_i hl
        simp only [Except.ok.injEq] at hs
        simp only [Option.some.injEq] at h
        rw [← h, ← hs]
        exact ⟨fun hm => (by cases hm), fun hm => (by cases hm), fun _ => ⟨hl.2, hl.1⟩⟩
      · cases hs
    · cases h
  | set_undefined_command =>
    simp only [public_call.apply, Option.some.injEq] at h
    rw [← h]
    exact ⟨fun hm => (by cases hm), fun hm => (by cases hm), fun hm => (by cases hm)⟩
  | execute can w =>
    simp only [public_call.apply] at h
    split at h
    · rename_i r hr
      simp only [Option.some.injEq] at h
      obtain ⟨timer, ht | ht⟩ := execute_result self can w r.1 r.2.1 r.2.2 hr
      · rw [← h, ht]
        exact hinv
      · rw [← h, ht]
        exact ⟨fun hm => (by cases hm), fun hm => (by cases hm), fun hm => (by cases hm)⟩
    · cases h
  | process_canbus_callback can w buffer bytes_received source_can_id =>
    simp only [public_call.apply] at h
    split at h
    · rename_i r hr
      simp only [Option.some.injEq] at h
      obtain ⟨e1, e2, e3, e4, e5, e6, e7, e8, e9, e10, -⟩ :=
        callback_intent self can w buffer bytes_received source_can_id r.1 r.2.1 r.2.2.1
          r.2.2.2 hr
      rw [← h, e1, e2, e3, e4, e5, e6, e7, e8, e9, e10]
      exact hinv
    · cases h
  | halt can w =>
    simp only [public_call.apply] at h
    split at h
    · rename_i r hr
      simp only [Option.some.injEq] at h
      obtain ⟨h1, h2, h3, h4, h5⟩ := halt_result self can w r.1 r.2.1 r.2.2 hr
      rw [← h]
      cases hs : self.m_state
      · rw [h1 hs]
        exact ⟨fun hm => (by cases hm), fun hm => (by cases hm), fun hm => (by cases hm)⟩
      · cases hm : self.m_operation_mode
        · rw [h2 hs hm]
          exact hinv
        · obtain ⟨hr1, hl⟩ := h3 hs hm
          rw [hr1]
          exact ⟨fun _ => ⟨hl.2, hl.1⟩, fun hm => (by cases hm), fun hm => (by cases hm)⟩
        · obtain ⟨hr1, hl⟩ := h4 hs hm
          rw [hr1]
          exact ⟨fun hm => (by cases hm), fun _ => ⟨hl.2, hl.1⟩, fun hm => (by cases hm)⟩
        · obtain ⟨hr1, hl⟩ := h5 hs hm
          rw [hr1]
          exact ⟨fun hm => (by cases hm), fun hm => (by cases hm), fun _ => ⟨hl.2, hl.1⟩⟩
    · cases h

theorem run_calls_keep_setpoint (calls : List public_call)
    (self s : servosila_motor_controller)
    (hinv : (self.m_operation_mode = POSITION_MODE →
        self.m_min_position_limit ≤ self.m_position_command ∧
        self.m_position_command ≤ self.m_max_position_limit) ∧
      (self.m_operation_mode = SPEED_MODE →
        self.m_min_speed_limit ≤ self.m_speed_command ∧
        self.m_speed_command ≤ self.m_max_speed_limit) ∧
      (self.m_operation_mode = AMPS_MODE →
        self.m_min_amps_limit ≤ self.m_amps_command ∧
        self.m_amps_command ≤ self.m_max_amps_limit))
    (hc : calls_keep_setpoint_within calls self) (h : run_calls calls self = some s) :
    (s.m_operation_mode = POSITION_MODE →
      s.m_min_position_limit ≤ s.m_position_command ∧
      s.m_position_command ≤ s.m_max_position_limit) ∧
    (s.m_operation_mode = SPEED_MODE →
      s.m_min_speed_limit ≤ s.m_speed_command ∧ s.m_speed_command ≤ s.m_max_speed_limit) ∧
    (s.m_operation_mode = AMPS_MODE →
      s.m_min_amps_limit ≤ s.m_amps_command ∧ s.m_amps_command ≤ s.m_max_amps_limit) := by
  induction calls generalizing self with
  | nil =>
    simp only [run_calls, Option.some.injEq] at h
    rw [← h]
    exact hinv
  | cons c cs ih =>
    simp only [run_calls] at h
    split at h
    · rename_i s1 hs1
      exact ih s1 (apply_keeps_setpoint c self s1 hinv hc.1 hs1) (hc.2 s1 hs1) h
    · cases h

/-- C32 (as stated, refuted): a repeated `configure` call leaves the stored setpoint outside
the configured limits.  After `configure` with position limits 0..1000,
`set_position_command 500` and `configure` with position limits 0..100, the controller is in
`POSITION_MODE` with setpoint 500 and maximum 100. -/
theorem setpoint_outside_limits_counterexample :
    (run_calls sample_calls_narrowed
        (servosila_motor_controller.construct (quiet_world 100)).1).map
      (fun s => (s.m_operation_mode, s.m_min_position_limit, s.m_position_command,
        s.m_max_position_limit)) = some (POSITION_MODE, 0, 500, 100) ∧
    ¬ (500 : Nat) ≤ 100 :=
  ⟨rfl, by decide⟩

/-- C32 (amended): in every controller state reached from construction by a sequence of
public calls in which every `configure` call is made in `UNDEFINED_MODE` or with new limits
that contain the stored setpoint of the operation mode current at that call, the stored
setpoint of the current mode lies within the configured limits: in `POSITION_MODE`
`m_min_position_limit ≤ m_position_command ≤ m_max_position_limit`, in `SPEED_MODE`
`m_min_speed_limit ≤ m_speed_command ≤ m_max_speed_limit`, in `AMPS_MODE`
`m_min_amps_limit ≤ m_amps_command ≤ m_max_amps_limit`. -/
theorem setpoint_within_limits (w : world) (calls : List public_call)
    (s : servosila_motor_controller)
    (hc : calls_keep_setpoint_within calls (servosila_motor_controller.construct w).1)
    (h : run_calls calls (servosila_motor_controller.construct w).1 = some s) :
    (s.m_operation_mode = POSITION_MODE →
      s.m_min_position_limit ≤ s.m_position_command ∧
      s.m_position_command ≤ s.m_max_position_limit) ∧
    (s.m_operation_mode = SPEED_MODE →
      s.m_min_speed_limit ≤ s.m_speed_command ∧ s.m_speed_command ≤ s.m_max_speed_limit) ∧
    (s.m_operation_mode = AMPS_MODE →
      s.m_min_amps_limit ≤ s.m_amps_command ∧ s.m_amps_command ≤ s.m_max_amps_limit) :=
  run_calls_keep_setpoint calls (servosila_motor_controller.construct w).1 s
    ⟨fun hm => (by cases hm), fun hm => (by cases hm), fun hm => (by cases hm)⟩ hc h

theorem setpoint_within_limits_witness :
    ∃ s, run_calls sample_calls_kept
        (servosila_motor_controller.construct (quiet_world 100)).1 = some s ∧
      s.m_operation_mode = POSITION_MODE ∧
      s.m_min_position_limit ≤ s.m_position_command ∧
      s.m_position_command ≤ s.m_max_position_limit := by
  have hm : (run_calls sample_calls_kept
      (servosila_motor_controller.construct (quiet_world 100)).1).map
      (fun s => s.m_operation_mode) = some POSITION_MODE := rfl
  have hc : calls_keep_setpoint_within sample_calls_kept
      (servosila_motor_controller.construct (quiet_world 100)).1 := by
    refine ⟨⟨fun hm => (by cases hm), fun hm => (by cases hm), fun hm => (by cases hm)⟩, ?_⟩
    intro s1 h1
    obtain rfl := Option.some.inj h1
    refine ⟨trivial, ?_⟩
    intro s2 h2
    obtain rfl := Option.some.inj h2
    refine ⟨⟨fun _ => (by decide), fun hm => (by cases hm), fun hm => (by cases hm)⟩, ?_⟩
    intro s3 h3
    obtain rfl := Option.some.inj h3
    refine ⟨trivial, ?_⟩
    intro s4 _
    trivial
  cases h : run_calls sample_calls_kept
      (servosila_motor_controller.construct (quiet_world 100)).1 with
  | none =>
    rw [h] at hm
    cases hm
  | some s =>
    rw [h] at hm
    simp only [Option.map_some', Option.some.injEq] at hm
    exact ⟨s, rfl, hm, (setpoint_within_limits (quiet_world 100) sample_calls_kept s hc h).1 hm⟩

/-- C33: telemetry ingestion never changes command intent.  For either protocol version and
every frame (any source identifier, payload and length), every returning call of
`process_canbus_callback` leaves the operation mode, the three stored setpoints, the six
limits, the node id, the protocol version and the encoder flag as they were.  The call
returns for every frame whose identifier, when it names the configured node, has its 16 low
bits at most 2047, with a well-formed payload and a kernel that closes the socket without
error, except for an 8-byte secondary telemetry frame at a legacy controller without
position encoder. -/
theorem callback_keeps_intent (self : servosila_motor_controller) (can : network.can_socket)
    (w : world) (buffer : List Nat) (bytes_received source_can_id : Nat) :
    (∀ flag self' can' w',
      self.process_canbus_callback can w buffer bytes_received source_can_id =
        Except.ok (flag, self', can', w') →
      self'.m_operation_mode = self.m_operation_mode ∧
      self'.m_position_command = self.m_position_command ∧
      self'.m_speed_command = self.m_speed_command ∧
      self'.m_amps_command = self.m_amps_command ∧
      self'.m_min_position_limit = self.m_min_position_limit ∧
      self'.m_max_position_limit = self.m_max_position_limit ∧
      self'.m_min_speed_limit = self.m_min_speed_limit ∧
      self'.m_max_speed_limit = self.m_max_speed_limit ∧
      self'.m_min_amps_limit = self.m_min_amps_limit ∧
      self'.m_max_amps_limit = self.m_max_amps_limit ∧
      self'.m_device_id = self.m_device_id ∧
      self'.m_protocol_version = self.m_protocol_version ∧
      self'.m_is_position_encoder_available = self.m_is_position_encoder_available) ∧
    ((source_can_id &&& 0x7F = self.m_device_id → source_can_id % 65536 ≤ 2047) →
      (bytes_received = 8 → 8 ≤ buffer.length) →
      (can.is_connected = true → 0 ≤ w.close_ret w.closes) →
      ¬(source_can_id &&& 0x7F = self.m_device_id ∧
        (source_can_id % 65536) &&& 0x780 = 0x280 ∧
        self.m_protocol_version = PROTOCOL_VERSION_LEGACY ∧ bytes_received = 8 ∧
        self.m_is_position_encoder_available = false) →
      ∃ r, self.process_canbus_callback can w buffer bytes_received source_can_id =
        Except.ok r) :=
  ⟨callback_intent self can w buffer bytes_received source_can_id,
    callback_completes self can w buffer bytes_received source_can_id⟩

theorem callback_keeps_intent_witness :
    ∃ self' can' w',
      sample_controller_running.process_canbus_callback open_socket (quiet_world 100)
          [0x00, 0x01, 0xD0, 0x07, 0x10, 0x00, 0xF0, 0xFF] 8 0x185 =
        Except.ok (true, self', can', w') ∧
      self'.m_operation_mode = POSITION_MODE ∧ self'.m_position_command = 500 ∧
      self'.m_max_position_limit = 1000 ∧ self'.m_device_id = 5 := by
  have h := callback_keeps_intent sample_controller_running open_socket (quiet_world 100)
    [0x00, 0x01, 0xD0, 0x07, 0x10, 0x00, 0xF0, 0xFF] 8 0x185
  obtain ⟨r, hr⟩ := h.2 (fun _ => by decide) (fun _ => by decide) (fun _ => by decide)
    (by decide)
  have hflag : (sample_controller_running.process_canbus_callback open_socket
      (quiet_world 100) [0x00, 0x01, 0xD0, 0x07, 0x10, 0x00, 0xF0, 0xFF] 8 0x185).map
      (fun r => r.1) = Except.ok true := rfl
  rw [hr] at hflag
  simp only [Except.map, Except.ok.injEq] at hflag
  obtain ⟨e1, e2, -, -, -, e6, -, -, -, -, e11, -⟩ := h.1 r.1 r.2.1 r.2.2.1 r.2.2.2 hr
  exact ⟨r.2.1, r.2.2.1, r.2.2.2, by rw [hr, ← hflag], by rw [e1]; rfl, by rw [e2]; rfl,
    by rw [e6]; rfl, by rw [e11]; rfl⟩

